import Mathlib

/-!
# Domain reconciliation of the Netlify client

Shallow embedding of the domain operations of `internal/netlify/client.go`
(`AddCustomDomain`, `RemoveCustomDomain`, `SetDefaultDomain`, `SwitchDefaultDomain`,
`RemovePrimaryDomain`, `CreateSite`, `ListSites`, `VerifySite`, `CreateOrGetSite`,
`WaitForDeploy`), of `ExecuteTestDeploy` (`internal/netlify/test_deploy.go`), of the
handlers `handleAddDomain` and `handleMultipartTestDeploy` of `internal/api/server.go`
and of `Config.SetDeployParams`, together with the properties of the states and
contents they submit to the provider.

The provider is an environment of response functions.  Every response may depend on
the calls issued so far, so a provider whose state changes between two fetches is
covered.  Every operation returns the Go `error` (as its message, `none` for `nil`)
and the log of remote calls it issued, in order.  Logging (`log.Printf`) is not
modelled.
-/

namespace Netlify

/-- The fields of `models.Site` that the client reads or writes. -/
structure Site where
  ID : String
  Name : String
  CustomDomain : String
  DomainAliases : List String
  URL : String
  deriving DecidableEq, Repr

/-- The JSON object sent by the raw PATCH request of `SetDefaultDomain` and
`SwitchDefaultDomain` (keys `name`, `custom_domain`, `domain_aliases`,
`record_txt_value`). -/
structure Payload where
  name : String
  custom_domain : String
  domain_aliases : List String
  record_txt_value : String
  deriving DecidableEq, Repr

/-- The content of one file of a deploy: a Go string that came in as text, or
`string(fileData)` for decoded bytes (each below 256). -/
inductive FileBody where
  | text (s : String)
  | bytes (data : List Nat)
  deriving DecidableEq, Repr

/-- The directory of `porcelain.DeployOptions.Dir`: the temporary directory that
`createTempFilesFromContent` fills from a file map, or a local folder. -/
inductive DeploySource where
  | dir (files : List (String × FileBody))
  | folder (path : String)
  deriving DecidableEq, Repr

/-- A remote call issued to the provider: `GetSite`, the porcelain `UpdateSite`
(which carries the whole site), the raw HTTP PATCH on the site URL, `ListSites`, the
porcelain `CreateSite` (which carries the site of the `SiteSetup`), `DeleteSite`,
`DeploySite` (site id, directory and title of the deploy options) or `GetDeploy`. -/
inductive Call where
  | getSite (siteID : String)
  | updateSite (site : Site)
  | patchSite (url : String) (payload : Payload)
  | listSites
  | createSite (site : Site)
  | deleteSite (siteID : String)
  | deploySite (siteID : String) (source : DeploySource) (title : String)
  | getDeploy (deployID : String)
  deriving DecidableEq, Repr

/-- The collaborators of the client.  `getSite` answers an error, `nil` (`none`) or a
site; `updateSite` answers an error or the provider's representation; `newRequest` is
`http.NewRequest` on a URL (`some e` when the URL does not parse); `httpDo` is
`http.Client.Do` followed by reading the body: a transport error, or the status code
and the body; `listSites` answers an error or the sites of the account; `createSite`
answers an error or the created site.  The first argument of the remote calls is the
log of calls issued before. -/
structure Env where
  getSite : List Call → String → Except String (Option Site)
  updateSite : List Call → Site → Except String Site
  newRequest : String → Option String
  httpDo : List Call → String → Payload → Except String (Nat × String)
  listSites : List Call → Except String (List Site)
  createSite : List Call → Site → Except String Site

/-- Result of an operation: the returned error (`none` is Go's `nil`) and the log of
remote calls after the operation. -/
structure Outcome where
  err : Option String
  log : List Call
  deriving DecidableEq, Repr

/-- The URL built by `fmt.Sprintf("https://api.netlify.com/api/v1/sites/%s", siteID)`. -/
def siteURL (siteID : String) : String :=
  "https://api.netlify.com/api/v1/sites/" ++ siteID

/-- The loop of `SetDefaultDomain` (client.go 537-542): starting from the empty slice,
every alias different from `domain` is appended. -/
def dropAlias (domain : String) (aliases : List String) : List String :=
  aliases.foldl (fun newAliases a => if a ≠ domain then newAliases ++ [a] else newAliases) []

/-- The membership loops of `AddCustomDomain` (client.go 428-432) and
`SwitchDefaultDomain` (client.go 630-635): scan the aliases and stop at the first
entry equal to `domain`. -/
def aliasListed (domain : String) : List String → Bool
  | [] => false
  | d :: ds => if d = domain then true else aliasListed domain ds

/-- The loop of `SwitchDefaultDomain` (client.go 613-621): `found` is set when an alias
equals the new principal domain, every other alias is appended to `newAliases`. -/
def splitAliases (newPrincipalDomain : String) (aliases : List String) : Bool × List String :=
  aliases.foldl
    (fun (st : Bool × List String) a =>
      if a = newPrincipalDomain then (true, st.2) else (st.1, st.2 ++ [a]))
    (false, [])

/-- The tail shared by `SetDefaultDomain` (client.go 557-583) and `SwitchDefaultDomain`
(client.go 652-678): build the PATCH request, send it, fail on a status `>= 300`.
`json.Marshal` cannot fail on a map of strings and string slices, so that branch is
not represented. -/
def sendPatch (E : Env) (h : List Call) (siteID : String) (payload : Payload) : Outcome :=
  match E.newRequest (siteURL siteID) with
  | some e => ⟨some ("erro ao criar request: " ++ e), h⟩
  | none =>
    let h2 := h ++ [Call.patchSite (siteURL siteID) payload]
    match E.httpDo h (siteURL siteID) payload with
    | .error e => ⟨some ("erro ao enviar request: " ++ e), h2⟩
    | .ok (status, body) =>
      if status ≥ 300 then
        ⟨some ("erro ao definir domínio principal: status " ++ toString status
          ++ ", resposta: " ++ body), h2⟩
      else ⟨none, h2⟩

/-- `Client.SetDefaultDomain` (client.go 517-584). -/
def SetDefaultDomain (E : Env) (h : List Call) (siteID domain recordTxtValue : String) :
    Outcome :=
  if siteID = "" then ⟨some "ID do site não pode ser vazio", h⟩
  else if domain = "" then ⟨some "domínio não pode ser vazio", h⟩
  else
    let h1 := h ++ [Call.getSite siteID]
    match E.getSite h siteID with
    | .error e => ⟨some ("erro ao obter site: " ++ e), h1⟩
    | .ok none => ⟨some "site não encontrado", h1⟩
    | .ok (some site) =>
      let newAliases := dropAlias domain site.DomainAliases
      sendPatch E h1 siteID ⟨site.Name, domain, newAliases, recordTxtValue⟩

/-- `Client.AddCustomDomain` (client.go 393-451). -/
def AddCustomDomain (E : Env) (h : List Call) (siteID domain : String) : Outcome :=
  if siteID = "" then ⟨some "ID do site não pode ser vazio", h⟩
  else if domain = "" then ⟨some "domínio não pode ser vazio", h⟩
  else
    let h1 := h ++ [Call.getSite siteID]
    match E.getSite h siteID with
    | .error e => ⟨some ("erro ao obter site: " ++ e), h1⟩
    | .ok none => ⟨some "site não encontrado", h1⟩
    | .ok (some site) =>
      if site.CustomDomain = "" then
        let r := SetDefaultDomain E h1 siteID domain "12345abc"
        match r.err with
        | some e => ⟨some ("erro ao definir domínio como principal: " ++ e), r.log⟩
        | none => ⟨none, r.log⟩
      else if site.CustomDomain = domain then
        ⟨some ("domínio " ++ domain ++ " já existe como domínio principal"), h1⟩
      else if aliasListed domain site.DomainAliases then
        ⟨some ("domínio " ++ domain ++ " já existe como alias"), h1⟩
      else
        let site1 : Site := { site with DomainAliases := site.DomainAliases ++ [domain] }
        let h2 := h1 ++ [Call.updateSite site1]
        match E.updateSite h1 site1 with
        | .error e => ⟨some ("erro ao adicionar domínio personalizado: " ++ e), h2⟩
        | .ok _ => ⟨none, h2⟩

/-- `Client.SwitchDefaultDomain` (client.go 588-679). -/
def SwitchDefaultDomain (E : Env) (h : List Call)
    (siteID newPrincipalDomain recordTxtValue : String) : Outcome :=
  if siteID = "" then ⟨some "ID do site não pode ser vazio", h⟩
  else if newPrincipalDomain = "" then ⟨some "domínio não pode ser vazio", h⟩
  else
    let h1 := h ++ [Call.getSite siteID]
    match E.getSite h siteID with
    | .error e => ⟨some ("erro ao obter site: " ++ e), h1⟩
    | .ok none => ⟨some "site não encontrado", h1⟩
    | .ok (some site) =>
      if site.CustomDomain = newPrincipalDomain then
        ⟨some ("o domínio " ++ newPrincipalDomain ++ " já é o principal"), h1⟩
      else
        let st := splitAliases newPrincipalDomain site.DomainAliases
        if !st.1 then
          ⟨some ("o domínio " ++ newPrincipalDomain
            ++ " não foi encontrado entre os aliases"), h1⟩
        else
          let oldPrincipal := site.CustomDomain
          let newAliases :=
            if oldPrincipal ≠ "" then
              if aliasListed oldPrincipal st.2 then st.2 else st.2 ++ [oldPrincipal]
            else st.2
          sendPatch E h1 siteID ⟨site.Name, newPrincipalDomain, newAliases, recordTxtValue⟩

/-- The loop of `RemoveCustomDomain` (client.go 483-489): `domainIndex` starts at `-1`
and becomes the index of the first alias equal to `domain`; `i` is the index of the head
of the list. -/
def aliasIndex (domain : String) : List String → Nat → Int
  | [], _ => -1
  | d :: ds, i => if d = domain then (i : Int) else aliasIndex domain ds (i + 1)

/-- `Client.RemoveCustomDomain` (client.go 454-513).  The slice expression
`append(aliases[:domainIndex], aliases[domainIndex+1:]...)` is the list before the index
followed by the list after it. -/
def RemoveCustomDomain (E : Env) (h : List Call) (siteID domain : String) : Outcome :=
  if siteID = "" then ⟨some "ID do site não pode ser vazio", h⟩
  else if domain = "" then ⟨some "domínio não pode ser vazio", h⟩
  else
    let h1 := h ++ [Call.getSite siteID]
    match E.getSite h siteID with
    | .error e => ⟨some ("erro ao obter site: " ++ e), h1⟩
    | .ok none => ⟨some "site não encontrado", h1⟩
    | .ok (some site) =>
      let domainIndex := aliasIndex domain site.DomainAliases 0
      if domainIndex ≥ 0 then
        let site1 : Site :=
          { site with DomainAliases :=
              site.DomainAliases.take domainIndex.toNat
                ++ site.DomainAliases.drop (domainIndex.toNat + 1) }
        let h2 := h1 ++ [Call.updateSite site1]
        match E.updateSite h1 site1 with
        | .error e => ⟨some ("erro ao remover domínio personalizado: " ++ e), h2⟩
        | .ok _ => ⟨none, h2⟩
      else ⟨none, h1⟩

/-- `Client.RemovePrimaryDomain` (client.go 682-731). -/
def RemovePrimaryDomain (E : Env) (h : List Call) (siteID : String) : Outcome :=
  if siteID = "" then ⟨some "ID do site não pode ser vazio", h⟩
  else
    let h1 := h ++ [Call.getSite siteID]
    match E.getSite h siteID with
    | .error e => ⟨some ("erro ao obter site: " ++ e), h1⟩
    | .ok none => ⟨some "site não encontrado", h1⟩
    | .ok (some site) =>
      if site.CustomDomain = "" then ⟨none, h1⟩
      else
        let site1 : Site := { site with CustomDomain := "" }
        let h2 := h1 ++ [Call.updateSite site1]
        match E.updateSite h1 site1 with
        | .error e => ⟨some ("erro ao remover domínio principal: " ++ e), h2⟩
        | .ok _ => ⟨none, h2⟩

/-- The site of the `SiteSetup` built by `Client.CreateSite` (client.go 129-137) from the
configured user name and Netlify subdomain; the fields it does not set are empty. -/
def createSiteParams (username netlifySubdomain : String) : Site :=
  ⟨"", username, netlifySubdomain, [netlifySubdomain], ""⟩

/-- `Client.CreateSite` (client.go 125-147): the created site or the error, and the log
of remote calls. -/
def CreateSite (E : Env) (h : List Call) (username netlifySubdomain : String) :
    Except String Site × List Call :=
  let siteParams := createSiteParams username netlifySubdomain
  match E.createSite h siteParams with
  | .error e => (.error ("erro ao criar site: " ++ e), h ++ [Call.createSite siteParams])
  | .ok site => (.ok site, h ++ [Call.createSite siteParams])

/-- A call that changes the site at the provider: `UpdateSite` or the raw PATCH. -/
def Call.isUpdate : Call → Bool
  | Call.getSite _ => false
  | Call.updateSite _ => true
  | Call.patchSite _ _ => true
  | Call.listSites => false
  | Call.createSite _ => false
  | Call.deleteSite _ => false
  | Call.deploySite _ _ _ => false
  | Call.getDeploy _ => false

/-- The update calls of a log, in order. -/
def updates (log : List Call) : List Call :=
  log.filter Call.isUpdate

/-- The domain state (primary domain, alias list) carried by an update call. -/
def Call.domainState : Call → Option (String × List String)
  | Call.getSite _ => none
  | Call.updateSite site => some (site.CustomDomain, site.DomainAliases)
  | Call.patchSite _ payload => some (payload.custom_domain, payload.domain_aliases)
  | Call.listSites => none
  | Call.createSite _ => none
  | Call.deleteSite _ => none
  | Call.deploySite _ _ _ => none
  | Call.getDeploy _ => none

/-- An environment whose provider holds the site `s` under every id, accepts every
update and echoes it, answers every PATCH with status 200, lists `s` as the only site
and echoes every created site. -/
def Env.holding (s : Site) : Env :=
  ⟨fun _ _ => .ok (some s), fun _ s1 => .ok s1, fun _ => none, fun _ _ _ => .ok (200, ""),
    fun _ => .ok [s], fun _ s1 => .ok s1⟩

/-- A site with the given primary domain and aliases. -/
def mkSite (primary : String) (aliases : List String) : Site :=
  ⟨"site-1", "demo", primary, aliases, "https://demo.netlify.app"⟩

/-- An environment like `Env.holding s` whose provider answers every PATCH with the
given status and body. -/
def Env.answeringPatch (s : Site) (status : Nat) (body : String) : Env :=
  ⟨fun _ _ => .ok (some s), fun _ s1 => .ok s1, fun _ => none,
    fun _ _ _ => .ok (status, body), fun _ => .ok [s], fun _ s1 => .ok s1⟩

/-! ### The HTTP handler `handleAddDomain` -/

/-- `Client.ListSites` (client.go 373-388): the listed sites or the error, and the log
of remote calls. -/
def ListSites (E : Env) (h : List Call) : Except String (List Site) × List Call :=
  match E.listSites h with
  | .error e => (.error ("erro ao listar sites: " ++ e), h ++ [Call.listSites])
  | .ok sites => (.ok sites, h ++ [Call.listSites])

/-- What a call of `NewClient` does: it returns a client, returns an error, or panics. -/
inductive NewClientResult where
  | client
  | failed (err : String)
  | panicked
  deriving DecidableEq, Repr

/-- `NewClient` (client.go 31-59) as a function of the configured token: an empty token
is an error; the log line slices `cfg.NetlifyToken[:10]`, which panics when the token
has fewer than 10 bytes. -/
def NewClient (netlifyToken : String) : NewClientResult :=
  if netlifyToken = "" then NewClientResult.failed "token da Netlify não configurado"
  else if netlifyToken.utf8ByteSize < 10 then NewClientResult.panicked
  else NewClientResult.client

/-- Go's `strings.HasPrefix` on the characters of the two strings. -/
def startsWith : List Char → List Char → Bool
  | _, [] => true
  | [], _ :: _ => false
  | c :: cs, p :: ps => if c = p then startsWith cs ps else false

/-- Go's `strings.Contains` on the characters of the two strings: some suffix of the
first starts with the second. -/
def containsChars : List Char → List Char → Bool
  | [], sub => startsWith [] sub
  | c :: cs, sub => startsWith (c :: cs) sub || containsChars cs sub

/-- Go's `strings.Contains(s, substr)`. -/
def strContains (s substr : String) : Bool :=
  containsChars s.data substr.data

/-- `DomainRequest` of server.go, after JSON binding. -/
structure DomainRequest where
  SiteID : String
  Domain : String
  deriving DecidableEq, Repr

/-- `DomainResponse` of server.go. -/
structure DomainResponse where
  Success : Bool
  Message : String
  SiteID : String
  Domain : String
  deriving DecidableEq, Repr

/-- What the handler writes: a JSON response with its HTTP status, or nothing because
it panicked (the recovery middleware of `gin.Default()` then answers). -/
inductive Reply where
  | json (status : Nat) (body : DomainResponse)
  | panicked
  deriving DecidableEq, Repr

/-- Result of a handler: its reply and the log of remote calls. -/
structure HandlerOutcome where
  reply : Reply
  log : List Call
  deriving DecidableEq, Repr

/-- The lookup loop of `handleAddDomain` (server.go 569-577): `siteFound` and
`customDomain` of the first listed site whose id is `siteID`. -/
def lookupSite (siteID : String) : List Site → Bool × String
  | [] => (false, "")
  | site :: rest =>
    if site.ID = siteID then (true, site.CustomDomain) else lookupSite siteID rest

/-- `Server.handleAddDomain` (server.go 514-645).  `bound` is the result of
`c.ShouldBindJSON(&req)`, `netlifyToken` the token of the server configuration. -/
def handleAddDomain (netlifyToken : String) (E : Env) (h : List Call)
    (bound : Except String DomainRequest) : HandlerOutcome :=
  match bound with
  | .error e => ⟨Reply.json 400 ⟨false, "Erro ao processar requisição: " ++ e, "", ""⟩, h⟩
  | .ok req =>
    if req.SiteID = "" ∨ req.Domain = "" then
      ⟨Reply.json 400 ⟨false, "ID do site e domínio são obrigatórios", req.SiteID, req.Domain⟩, h⟩
    else
      match NewClient netlifyToken with
      | NewClientResult.panicked => ⟨Reply.panicked, h⟩
      | NewClientResult.failed e =>
        ⟨Reply.json 500 ⟨false, "Erro ao criar cliente Netlify: " ++ e, req.SiteID, req.Domain⟩, h⟩
      | NewClientResult.client =>
        match ListSites E h with
        | (.error e, h1) =>
          ⟨Reply.json 500 ⟨false, "Erro ao verificar sites: " ++ e, req.SiteID, req.Domain⟩, h1⟩
        | (.ok sites, h1) =>
          let found := lookupSite req.SiteID sites
          if !found.1 then
            ⟨Reply.json 400 ⟨false, "Site com ID " ++ req.SiteID ++ " não encontrado",
              req.SiteID, req.Domain⟩, h1⟩
          else if found.2 ≠ "" then
            ⟨Reply.json 400 ⟨false, "O site já tem um domínio principal configurado: "
              ++ found.2 ++ ". Remova o domínio principal antes de adicionar um alias.",
              req.SiteID, req.Domain⟩, h1⟩
          else
            let r := AddCustomDomain E h1 req.SiteID req.Domain
            match r.err with
            | some errMsg =>
              if strContains errMsg "domínio principal configurado"
                  || strContains errMsg "domínio principal"
                  || strContains errMsg "update domain aliases while primary" then
                ⟨Reply.json 400 ⟨false, "O site já tem um domínio principal configurado. "
                  ++ "Remova o domínio principal antes de adicionar um alias.",
                  req.SiteID, req.Domain⟩, r.log⟩
              else
                ⟨Reply.json 500 ⟨false, "Erro ao adicionar domínio: " ++ errMsg,
                  req.SiteID, req.Domain⟩, r.log⟩
            | none =>
              ⟨Reply.json 200 ⟨true, "Domínio adicionado com sucesso", req.SiteID, req.Domain⟩,
                r.log⟩

/-! ### Sequences of operations on a storing provider -/

/-- The five domain operations of the client with their arguments other than the site
id. -/
inductive Op where
  | addCustomDomain (domain : String)
  | removeCustomDomain (domain : String)
  | setDefaultDomain (domain recordTxtValue : String)
  | switchDefaultDomain (newPrincipalDomain recordTxtValue : String)
  | removePrimaryDomain
  deriving DecidableEq, Repr

/-- Run one operation on the site `siteID`. -/
def Op.run (E : Env) (h : List Call) (siteID : String) : Op → Outcome
  | Op.addCustomDomain domain => AddCustomDomain E h siteID domain
  | Op.removeCustomDomain domain => RemoveCustomDomain E h siteID domain
  | Op.setDefaultDomain domain recordTxtValue =>
    SetDefaultDomain E h siteID domain recordTxtValue
  | Op.switchDefaultDomain newPrincipalDomain recordTxtValue =>
    SwitchDefaultDomain E h siteID newPrincipalDomain recordTxtValue
  | Op.removePrimaryDomain => RemovePrimaryDomain E h siteID

/-- Run the operations one after the other, each on the log left by the previous one;
the result is the final log. -/
def runOps (E : Env) (siteID : String) : List Op → List Call → List Call
  | [], h => h
  | op :: ops, h => runOps E siteID ops (op.run E h siteID).log

/-- The site a storing provider holds after one more call: `UpdateSite` replaces the
site, the PATCH replaces name, primary domain and aliases, other calls change
nothing. -/
def applyCall (cur : Site) : Call → Site
  | Call.updateSite site => site
  | Call.patchSite _ payload =>
    { cur with Name := payload.name, CustomDomain := payload.custom_domain,
               DomainAliases := payload.domain_aliases }
  | Call.getSite _ => cur
  | Call.listSites => cur
  | Call.createSite _ => cur
  | Call.deleteSite _ => cur
  | Call.deploySite _ _ _ => cur
  | Call.getDeploy _ => cur

/-- The site a storing provider that started with `s0` holds after the calls of `log`. -/
def stored (s0 : Site) (log : List Call) : Site :=
  log.foldl applyCall s0

/-- An environment whose provider stores what is submitted: it starts with the site
`s0`, answers every fetch and listing with the site it holds after the calls issued so
far, accepts every update and every PATCH (status 200). -/
def Env.storing (s0 : Site) : Env :=
  ⟨fun h _ => .ok (some (stored s0 h)), fun _ s1 => .ok s1, fun _ => none,
    fun _ _ _ => .ok (200, ""), fun h => .ok [stored s0 h], fun _ s1 => .ok s1⟩

/-- The domain states `(p, l)` that an operation can submit for a fetched site `s`:
an alias appended, one alias taken out, a domain promoted, the primary domain swapped
with an alias, or the primary domain cleared. -/
def Transition (s : Site) (p : String) (l : List String) : Prop :=
  (p = s.CustomDomain ∧ ∃ d, d ≠ s.CustomDomain ∧ d ∉ s.DomainAliases
      ∧ l = s.DomainAliases ++ [d])
  ∨ (p = s.CustomDomain ∧ ∃ d, l = s.DomainAliases.erase d)
  ∨ l = s.DomainAliases.filter (fun a => a ≠ p)
  ∨ (p ≠ s.CustomDomain ∧
      l = s.DomainAliases.filter (fun a => a ≠ p) ++
        (if s.CustomDomain ≠ "" ∧ s.CustomDomain ∉ s.DomainAliases.filter (fun a => a ≠ p)
          then [s.CustomDomain] else []))
  ∨ (p = "" ∧ l = s.DomainAliases)

/-! ### Site resolution, deploys and the local host -/

/-- The fields of `models.Deploy` that the client reads. -/
structure Deploy where
  ID : String
  State : String
  URL : String
  ErrorMessage : String
  deriving DecidableEq, Repr

/-- The environment of the deploy workflows: the provider calls of `Env`, and
`deleteSite` (`some e` is the error), `deploySite` and `getDeploy` (an error or the
deploy of the response); on the local host `statNotExist path` is `some e` when
`os.Stat(path)` fails with an error `e` for which `os.IsNotExist` holds, `createTemp` is
`some e` when `createTempFilesFromContent` fails, `now` is
`time.Now().Format(time.RFC3339)` and `b64ErrorText` the message of the error of
`base64.StdEncoding.DecodeString`. -/
structure World extends Env where
  deleteSite : List Call → String → Option String
  deploySite : List Call → String → DeploySource → String → Except String Deploy
  getDeploy : List Call → String → Except String Deploy
  statNotExist : String → Option String
  createTemp : List (String × FileBody) → Option String
  now : String
  b64ErrorText : String → String

/-- The test of one site in the loop of `VerifySite` (client.go 98-118): the custom
domain, then the aliases in order, then the default Netlify subdomain. -/
def siteMatches (subdomain : String) (site : Site) : Bool :=
  if site.CustomDomain = subdomain then true
  else if aliasListed subdomain site.DomainAliases then true
  else if site.Name ++ ".netlify.app" = subdomain then true
  else false

/-- The loop of `VerifySite` (client.go 98-118): the first site that matches. -/
def verifyLoop (subdomain : String) : List Site → Option Site
  | [] => none
  | site :: rest => if siteMatches subdomain site then some site else verifyLoop subdomain rest

/-- `Client.VerifySite` (client.go 88-122) for the configured Netlify subdomain:
`.ok (some site)` is `(site, true, nil)`, `.ok none` is `(nil, false, nil)`. -/
def VerifySite (E : Env) (h : List Call) (netlifySubdomain : String) :
    Except String (Option Site) × List Call :=
  match ListSites E h with
  | (.error e, h1) => (.error ("erro ao listar sites: " ++ e), h1)
  | (.ok sites, h1) => (.ok (verifyLoop netlifySubdomain sites), h1)

/-- The loops of `CreateOrGetSite` (client.go 314-319) and `ExecuteTestDeploy`
(test_deploy.go 97-103): the first site whose name is `siteName`. -/
def findByName (siteName : String) : List Site → Option Site
  | [] => none
  | site :: rest => if site.Name = siteName then some site else findByName siteName rest

/-- `Client.CreateOrGetSite` (client.go 304-337); the description is not used by the
code. -/
def CreateOrGetSite (E : Env) (h : List Call) (siteName : String) :
    Except String Site × List Call :=
  match ListSites E h with
  | (.error e, h1) => (.error ("erro ao listar sites: " ++ e), h1)
  | (.ok sites, h1) =>
    match findByName siteName sites with
    | some site => (.ok site, h1)
    | none =>
      let siteParams : Site := ⟨"", siteName, "", [], ""⟩
      match E.createSite h1 siteParams with
      | .error e => (.error ("erro ao criar site: " ++ e), h1 ++ [Call.createSite siteParams])
      | .ok site => (.ok site, h1 ++ [Call.createSite siteParams])

/-- Result of `WaitForDeploy`: the deploy or the error, the log of remote calls and the
number of `time.Sleep` calls. -/
structure WaitOutcome where
  result : Except String Deploy
  log : List Call
  sleeps : Nat

/-- `Client.WaitForDeploy` (client.go 340-370).  The loop has no bound in the source;
`fuel` bounds the number of polls and `none` means the fuel ran out before a terminal
poll. -/
def WaitForDeploy (W : World) (deployID : String) : Nat → List Call → Nat → Option WaitOutcome
  | 0, _, _ => none
  | fuel + 1, h, sleeps =>
    let h1 := h ++ [Call.getDeploy deployID]
    match W.getDeploy h deployID with
    | .error e => some ⟨.error ("erro ao verificar status do deploy: " ++ e), h1, sleeps⟩
    | .ok deploy =>
      if deploy.State = "ready" then some ⟨.ok deploy, h1, sleeps⟩
      else if deploy.State = "error" then
        some ⟨.error ("erro no deploy: " ++ deploy.ErrorMessage), h1, sleeps⟩
      else WaitForDeploy W deployID fuel h1 (sleeps + 1)

/-- The number of `GetDeploy` calls of a log. -/
def pollCount (log : List Call) : Nat :=
  (log.filter (fun c => match c with
    | Call.getDeploy _ => true
    | _ => false)).length

/-- A world over the provider `E` whose `GetDeploy` answers follow the script `polls`
(the answer to the n-th poll is the n-th entry, a transport error after the script),
whose `DeleteSite` succeeds, whose `DeploySite` answers `deployAnswer` and whose local
host has every folder and can write temporary files. -/
def World.scripted (E : Env) (polls : List (Except String Deploy))
    (deployAnswer : Except String Deploy) : World :=
  { toEnv := E
    deleteSite := fun _ _ => none
    deploySite := fun _ _ _ _ => deployAnswer
    getDeploy := fun h _ => polls.getD (pollCount h) (.error "connection reset")
    statNotExist := fun _ => none
    createTemp := fun _ => none
    now := "2024-01-01T00:00:00Z"
    b64ErrorText := fun _ => "illegal base64 data" }

/-- `Config` of `internal/config/config.go`. -/
structure Config where
  NetlifyToken : String
  BaseDomain : String
  AWSAccessKeyID : String
  AWSSecretAccessKey : String
  AWSRegion : String
  S3BucketName : String
  S3Endpoint : String
  APIPort : String
  Username : String
  CustomDomain : String
  S3Path : String
  NetlifySubdomain : String
  deriving DecidableEq, Repr

/-- `Config.SetDeployParams` (config.go 84-97): the returned error and the configuration
after the call.  `toLower` is Go's `strings.ToLower`. -/
def SetDeployParams (toLower : String → String) (c : Config)
    (username customDomain s3Path : String) : Option String × Config :=
  if username = "" then (some "nome de usuário não pode ser vazio", c)
  else
    (none, { c with Username := username, CustomDomain := customDomain, S3Path := s3Path,
                    NetlifySubdomain := toLower username ++ "." ++ c.BaseDomain })

/-- A deploy in the given state, for the examples. -/
def mkDeploy (state errorMessage : String) : Deploy :=
  ⟨"dep-1", state, "https://demo.netlify.app", errorMessage⟩

/-! ### Base64 (`base64.StdEncoding`) -/

/-- The alphabet of the standard encoding of RFC 4648. -/
def b64Table : List Char :=
  "ABCDEFGHIJKLMNOPQRSTUVWXYZabcdefghijklmnopqrstuvwxyz0123456789+/".data

/-- The character of a 6-bit value. -/
def b64Char (n : Nat) : Char :=
  b64Table.getD n 'A'

/-- The 6-bit value of a character of the alphabet. -/
def b64Val (c : Char) : Option Nat :=
  if c ∈ b64Table then some (b64Table.indexOf c) else none

/-- The characters of `EncodeToString`: three bytes give four characters, a last group
of one or two bytes is padded with `=`. -/
def encodeBytes : List Nat → List Char
  | [] => []
  | [a] => [b64Char (a / 4), b64Char (a % 4 * 16), '=', '=']
  | [a, b] => [b64Char (a / 4), b64Char (a % 4 * 16 + b / 16), b64Char (b % 16 * 4), '=']
  | a :: b :: c :: rest =>
    b64Char (a / 4) :: b64Char (a % 4 * 16 + b / 16) :: b64Char (b % 16 * 4 + c / 64)
      :: b64Char (c % 64) :: encodeBytes rest

/-- `base64.StdEncoding.EncodeToString` on a byte slice. -/
def base64Encode (data : List Nat) : String :=
  String.mk (encodeBytes data)

/-- Decoding of groups of four characters; padding is accepted in the last group only,
and the unused low bits of a padded group are not checked. -/
def decodeChars : List Char → Option (List Nat)
  | [] => some []
  | c1 :: c2 :: c3 :: c4 :: rest =>
    if c3 = '=' ∧ c4 = '=' ∧ rest = [] then
      match b64Val c1, b64Val c2 with
      | some v1, some v2 => some [v1 * 4 + v2 / 16]
      | _, _ => none
    else if c4 = '=' ∧ rest = [] then
      match b64Val c1, b64Val c2, b64Val c3 with
      | some v1, some v2, some v3 => some [v1 * 4 + v2 / 16, v2 % 16 * 16 + v3 / 4]
      | _, _, _ => none
    else
      match b64Val c1, b64Val c2, b64Val c3, b64Val c4, decodeChars rest with
      | some v1, some v2, some v3, some v4, some bs =>
        some ((v1 * 4 + v2 / 16) :: (v2 % 16 * 16 + v3 / 4) :: (v3 % 4 * 64 + v4) :: bs)
      | _, _, _, _, _ => none
  | _ => none

/-- `base64.StdEncoding.DecodeString`: line feeds and carriage returns are skipped, then
the groups are decoded; `none` is the decoding error. -/
def base64Decode (s : String) : Option (List Nat) :=
  decodeChars (s.data.filter (fun c => c ≠ Char.ofNat 10 ∧ c ≠ Char.ofNat 13))

/-! ### The test deploy (`ExecuteTestDeploy`) -/

/-- `Client.configureCustomDomain` (client.go 170-212).  The append to
`site.DomainAliases` is done in place on the caller's site; the callers read only its
id, name and URL afterwards. -/
def configureCustomDomain (E : Env) (h : List Call) (site : Site) (domain : String) : Outcome :=
  if site.CustomDomain = domain then ⟨none, h⟩
  else if aliasListed domain site.DomainAliases then ⟨none, h⟩
  else
    let site1 : Site := { site with DomainAliases := site.DomainAliases ++ [domain] }
    let h1 := h ++ [Call.updateSite site1]
    match E.updateSite h site1 with
    | .error e => ⟨some ("erro ao atualizar site com domínio personalizado: " ++ e), h1⟩
    | .ok _ => ⟨none, h1⟩

/-- `Client.DeployContent` (client.go 237-262). -/
def DeployContent (W : World) (h : List Call) (site : Site)
    (files : List (String × FileBody)) : Except String Deploy × List Call :=
  match W.createTemp files with
  | some e => (.error ("erro ao criar arquivos temporários: " ++ e), h)
  | none =>
    let title := "Deploy de conteúdo para " ++ site.Name
    let h1 := h ++ [Call.deploySite site.ID (DeploySource.dir files) title]
    match W.deploySite h site.ID (DeploySource.dir files) title with
    | .error e => (.error ("erro ao realizar deploy de conteúdo: " ++ e), h1)
    | .ok deploy => (.ok deploy, h1)

/-- `Client.DeployLocalFolder` (client.go 282-301). -/
def DeployLocalFolder (W : World) (h : List Call) (site : Site) (folderPath : String) :
    Except String Deploy × List Call :=
  let title := "Deploy da pasta " ++ folderPath ++ " para " ++ site.Name
  let h1 := h ++ [Call.deploySite site.ID (DeploySource.folder folderPath) title]
  match W.deploySite h site.ID (DeploySource.folder folderPath) title with
  | .error e => (.error ("erro ao realizar deploy da pasta local: " ++ e), h1)
  | .ok deploy => (.ok deploy, h1)

/-- `TestDeployParams` of test_deploy.go. -/
structure TestDeployParams where
  SiteID : String
  SiteName : String
  Description : String
  TestContent : String
  CleanupAfter : Bool
  CustomDomain : String
  FileContent : String
  FolderPath : String
  deriving DecidableEq, Repr

/-- `TestDeployResult` of test_deploy.go, without the creation time. -/
structure TestDeployResult where
  Success : Bool
  Message : String
  SiteID : String
  SiteURL : String
  TestSuccess : Bool
  deriving DecidableEq, Repr

/-- What the first part of `ExecuteTestDeploy` ends with: the site to deploy to, the
returned error, or a panic (a `nil` site is dereferenced). -/
inductive Resolved where
  | site (s : Site)
  | failed (err : String)
  | panicked
  deriving DecidableEq, Repr

/-- What `ExecuteTestDeploy` returns: `(result, nil)`, `(nil, err)`, or a panic. -/
inductive TestDeployReturn where
  | result (r : TestDeployResult)
  | failed (err : String)
  | panicked
  deriving DecidableEq, Repr

/-- Result of `ExecuteTestDeploy`: what it returns and the log of remote calls. -/
structure TestDeployOutcome where
  ret : TestDeployReturn
  log : List Call
  deriving DecidableEq, Repr

/-- The creation branch of `ExecuteTestDeploy` (test_deploy.go 118-151): create a site
with the requested name and, when a custom domain is given, configure it; an error of
`configureCustomDomain` is only logged. -/
def createTestSite (W : World) (h : List Call) (params : TestDeployParams) :
    Resolved × List Call :=
  let siteParams : Site := ⟨"", params.SiteName, "", [], ""⟩
  let h1 := h ++ [Call.createSite siteParams]
  match W.createSite h siteParams with
  | .error e => (Resolved.failed ("erro ao criar site de teste: " ++ e), h1)
  | .ok site =>
    if params.CustomDomain ≠ "" then
      (Resolved.site site, (configureCustomDomain W.toEnv h1 site params.CustomDomain).log)
    else (Resolved.site site, h1)

/-- The site resolution of `ExecuteTestDeploy` (test_deploy.go 52-156): by id with a
rename when the stored name differs, or by name with the optional deletion of the
existing site and the creation of a new one. -/
def resolveTestSite (W : World) (h : List Call) (params : TestDeployParams) :
    Resolved × List Call :=
  if params.SiteID ≠ "" then
    let h1 := h ++ [Call.getSite params.SiteID]
    match W.getSite h params.SiteID with
    | .error e => (Resolved.failed ("erro ao buscar site pelo ID: " ++ e), h1)
    | .ok none => (Resolved.panicked, h1)
    | .ok (some site) =>
      if site.Name ≠ params.SiteName then
        let updateSiteParams : Site := ⟨site.ID, params.SiteName, "", [], ""⟩
        let h2 := h1 ++ [Call.updateSite updateSiteParams]
        match W.updateSite h1 updateSiteParams with
        | .error e => (Resolved.failed ("erro ao atualizar site: " ++ e), h2)
        | .ok site1 => (Resolved.site site1, h2)
      else (Resolved.site site, h1)
  else
    let h1 := h ++ [Call.listSites]
    match W.listSites h with
    | .error e => (Resolved.failed ("erro ao listar sites: " ++ e), h1)
    | .ok sites =>
      let afterDelete : Except String (Option Site) × List Call :=
        match findByName params.SiteName sites with
        | some existingSite =>
          if params.CleanupAfter then
            match W.deleteSite h1 existingSite.ID with
            | some e => (.error e, h1 ++ [Call.deleteSite existingSite.ID])
            | none => (.ok none, h1 ++ [Call.deleteSite existingSite.ID])
          else (.ok (some existingSite), h1)
        | none => (.ok none, h1)
      match afterDelete with
      | (.error e, h2) => (Resolved.failed ("erro ao excluir site existente: " ++ e), h2)
      | (.ok (some existingSite), h2) => (Resolved.site existingSite, h2)
      | (.ok none, h2) => createTestSite W h2 params

/-- The deploy of a file map at the end of `ExecuteTestDeploy` (test_deploy.go 221-243):
a failing deploy is recorded in the result, not returned as an error. -/
def deployFiles (W : World) (h : List Call) (site : Site) (result : TestDeployResult)
    (files : List (String × FileBody)) : TestDeployOutcome :=
  if files.length > 0 then
    match DeployContent W h site files with
    | (.error e, h1) =>
      ⟨TestDeployReturn.result { result with
          TestSuccess := false,
          Message := result.Message ++ ". Porém, ocorreu um erro durante o deploy: " ++ e }, h1⟩
    | (.ok deployment, h1) =>
      ⟨TestDeployReturn.result { result with
          Message := result.Message ++ ". Deploy realizado com sucesso (ID: "
            ++ deployment.ID ++ ")" }, h1⟩
  else ⟨TestDeployReturn.result result, h⟩

/-- `Client.ExecuteTestDeploy` (test_deploy.go 38-244) for a client configured with
`netlifyToken`: the log line at 47 slices `c.config.NetlifyToken[:10]`. -/
def ExecuteTestDeploy (netlifyToken : String) (W : World) (h : List Call)
    (params : TestDeployParams) : TestDeployOutcome :=
  if netlifyToken.utf8ByteSize < 10 then ⟨TestDeployReturn.panicked, h⟩
  else
    match resolveTestSite W h params with
    | (Resolved.panicked, h1) => ⟨TestDeployReturn.panicked, h1⟩
    | (Resolved.failed e, h1) => ⟨TestDeployReturn.failed e, h1⟩
    | (Resolved.site site, h1) =>
      let result : TestDeployResult :=
        ⟨true, "Site de teste criado/atualizado com sucesso", site.ID, site.URL, true⟩
      if params.FileContent ≠ "" then
        match base64Decode params.FileContent with
        | none =>
          ⟨TestDeployReturn.failed ("erro ao decodificar conteúdo do arquivo: "
            ++ W.b64ErrorText params.FileContent), h1⟩
        | some fileData => deployFiles W h1 site result [("index.html", FileBody.bytes fileData)]
      else if params.TestContent ≠ "" then
        deployFiles W h1 site result [("index.html", FileBody.text params.TestContent)]
      else if params.FolderPath ≠ "" then
        match W.statNotExist params.FolderPath with
        | some e => ⟨TestDeployReturn.failed ("pasta não encontrada: " ++ e), h1⟩
        | none =>
          match DeployLocalFolder W h1 site params.FolderPath with
          | (.error e, h2) =>
            ⟨TestDeployReturn.result { result with
                TestSuccess := false,
                Message := result.Message ++ ". Porém, ocorreu um erro durante o deploy: "
                  ++ e }, h2⟩
          | (.ok deployment, h2) =>
            ⟨TestDeployReturn.result { result with
                Message := result.Message ++ ". Deploy realizado com sucesso (ID: "
                  ++ deployment.ID ++ ")" }, h2⟩
      else
        deployFiles W h1 site result
          [("index.html", FileBody.text ("<html><body><h1>Teste de Deploy</h1><p>Site criado em "
            ++ W.now ++ "</p></body></html>"))]

/-! ### The HTTP handler `handleMultipartTestDeploy` -/

/-- The file part `file` of the multipart form: absent (`c.FormFile` fails), not
openable, not readable, or read with its bytes. -/
inductive Upload where
  | absent
  | openFails (err : String)
  | readFails (err : String)
  | content (data : List Nat)
  deriving DecidableEq, Repr

/-- The fields of the multipart form of `/api/deploy/site`. -/
structure TestDeployForm where
  site_id : String
  site_name : String
  description : String
  cleanup_after : String
  custom_domain : String
  test_content : String
  folder_path : String
  file : Upload
  deriving DecidableEq, Repr

/-- What the handler writes: an error object `success=false` with a message, the result
of the test deploy with status 200, or nothing because it panicked. -/
inductive TestReply where
  | json (status : Nat) (message : String)
  | result (r : TestDeployResult)
  | panicked
  deriving DecidableEq, Repr

/-- The value of `strconv.ParseBool`, with `false` for the strings it rejects. -/
def parseBool (s : String) : Bool :=
  s = "1" || s = "t" || s = "T" || s = "TRUE" || s = "true" || s = "True"

/-- The parameters handed to `ExecuteTestDeploy` (server.go 394-415 and 480-489) for the
form and the base64 content of the uploaded file. -/
def formParams (form : TestDeployForm) (fileContentBase64 : String) : TestDeployParams :=
  { SiteID := form.site_id
    SiteName := form.site_name
    Description := form.description
    TestContent := form.test_content
    CleanupAfter := if form.cleanup_after ≠ "" then parseBool form.cleanup_after else false
    CustomDomain := form.custom_domain
    FileContent := fileContentBase64
    FolderPath := form.folder_path }

/-- The tail of `handleMultipartTestDeploy` (server.go 469-500): create the client, run
the test deploy, write the response. -/
def runTestDeploy (netlifyToken : String) (W : World) (h : List Call)
    (params : TestDeployParams) : TestReply × List Call :=
  match NewClient netlifyToken with
  | NewClientResult.failed e => (TestReply.json 500 ("Erro ao criar cliente Netlify: " ++ e), h)
  | NewClientResult.panicked => (TestReply.panicked, h)
  | NewClientResult.client =>
    match ExecuteTestDeploy netlifyToken W h params with
    | ⟨TestDeployReturn.failed e, h1⟩ =>
      (TestReply.json 500 ("Erro ao executar teste de deploy: " ++ e), h1)
    | ⟨TestDeployReturn.panicked, h1⟩ => (TestReply.panicked, h1)
    | ⟨TestDeployReturn.result r, h1⟩ => (TestReply.result r, h1)

/-- `Server.handleMultipartTestDeploy` (server.go 392-501). -/
def handleMultipartTestDeploy (netlifyToken : String) (W : World) (h : List Call)
    (form : TestDeployForm) : TestReply × List Call :=
  if form.site_name = "" then (TestReply.json 400 "Nome do site é obrigatório", h)
  else
    match (if form.folder_path ≠ "" then W.statNotExist form.folder_path else none) with
    | some _ => (TestReply.json 400 ("Pasta não encontrada: " ++ form.folder_path), h)
    | none =>
      match form.file with
      | Upload.absent => runTestDeploy netlifyToken W h (formParams form "")
      | Upload.openFails e => (TestReply.json 500 ("Erro ao abrir arquivo: " ++ e), h)
      | Upload.readFails e => (TestReply.json 500 ("Erro ao ler arquivo: " ++ e), h)
      | Upload.content data =>
        runTestDeploy netlifyToken W h (formParams form (base64Encode data))

/-- A call that submits a deploy. -/
def Call.isDeploy : Call → Bool
  | Call.deploySite _ _ _ => true
  | _ => false

/-- A call that deletes a site. -/
def Call.isDelete : Call → Bool
  | Call.deleteSite _ => true
  | _ => false

/-- A call that creates a site. -/
def Call.isCreate : Call → Bool
  | Call.createSite _ => true
  | _ => false

/-- The world `W` on a host where `createTempFilesFromContent` (client.go 241-244) fails
with the error `e` for every file map. -/
def World.tempFails (W : World) (e : String) : World :=
  { W with createTemp := fun _ => some e }

/-! ## Loops as list functions -/

theorem dropAlias_foldl (domain : String) (aliases acc : List String) :
    aliases.foldl (fun newAliases a => if a ≠ domain then newAliases ++ [a] else newAliases) acc
      = acc ++ aliases.filter (fun a => a ≠ domain) := by
  induction aliases generalizing acc with
  | nil => simp
  | cons a as ih =>
    rw [List.foldl_cons, ih]
    by_cases ha : a = domain
    · simp [ha]
    · simp [ha]

theorem dropAlias_eq_filter (domain : String) (aliases : List String) :
    dropAlias domain aliases = aliases.filter (fun a => a ≠ domain) := by
  unfold dropAlias
  rw [dropAlias_foldl]
  simp

theorem not_mem_dropAlias (domain : String) (aliases : List String) :
    domain ∉ dropAlias domain aliases := by
  rw [dropAlias_eq_filter]
  simp

theorem aliasListed_iff (domain : String) (aliases : List String) :
    aliasListed domain aliases = true ↔ domain ∈ aliases := by
  induction aliases with
  | nil => simp [aliasListed]
  | cons d ds ih =>
    by_cases hd : d = domain
    · simp [aliasListed, hd]
    · have hd2 : ¬ domain = d := fun e => hd e.symm
      simp [aliasListed, hd, hd2, ih]

theorem splitAliases_foldl (d : String) (aliases : List String) (b : Bool) (acc : List String) :
    aliases.foldl
      (fun (st : Bool × List String) a =>
        if a = d then (true, st.2) else (st.1, st.2 ++ [a])) (b, acc)
      = (b || aliasListed d aliases, acc ++ aliases.filter (fun a => a ≠ d)) := by
  induction aliases generalizing b acc with
  | nil => simp [aliasListed]
  | cons a as ih =>
    rw [List.foldl_cons]
    by_cases ha : a = d
    · rw [if_pos ha, ih]
      simp [ha, aliasListed]
    · rw [if_neg ha, ih]
      simp [ha, aliasListed]

theorem splitAliases_eq (d : String) (aliases : List String) :
    splitAliases d aliases = (aliasListed d aliases, aliases.filter (fun a => a ≠ d)) := by
  unfold splitAliases
  rw [splitAliases_foldl]
  simp

/-! ## The PATCH request -/

theorem sendPatch_log (E : Env) (h : List Call) (siteID : String) (payload : Payload)
    (hreq : E.newRequest (siteURL siteID) = none) :
    (sendPatch E h siteID payload).log = h ++ [Call.patchSite (siteURL siteID) payload] := by
  unfold sendPatch
  rw [hreq]
  cases hdo : E.httpDo h (siteURL siteID) payload with
  | error e => simp
  | ok r =>
    obtain ⟨status, body⟩ := r
    by_cases hs : status ≥ 300 <;> simp [hs]

theorem sendPatch_err_none (E : Env) (h : List Call) (siteID : String) (payload : Payload) :
    (sendPatch E h siteID payload).err = none ↔
      E.newRequest (siteURL siteID) = none ∧
      ∃ status body, E.httpDo h (siteURL siteID) payload = .ok (status, body) ∧ status < 300 := by
  unfold sendPatch
  cases hreq : E.newRequest (siteURL siteID) with
  | some e => simp
  | none =>
    cases hdo : E.httpDo h (siteURL siteID) payload with
    | error e => simp
    | ok r =>
      obtain ⟨status, body⟩ := r
      by_cases hs : status ≥ 300
      · simp [hs]
      · simp [hs]
        omega

theorem updates_append (l1 l2 : List Call) : updates (l1 ++ l2) = updates l1 ++ updates l2 := by
  simp [updates]

/-! ## Unfolding the operations on a fetched site -/

theorem SetDefaultDomain_fetched (E : Env) (h : List Call) (siteID domain token : String)
    (s : Site) (hid : siteID ≠ "") (hd : domain ≠ "")
    (hget : E.getSite h siteID = .ok (some s)) :
    SetDefaultDomain E h siteID domain token
      = sendPatch E (h ++ [Call.getSite siteID]) siteID
          ⟨s.Name, domain, dropAlias domain s.DomainAliases, token⟩ := by
  unfold SetDefaultDomain
  simp [hid, hd, hget]

theorem SetDefaultDomain_success (E : Env) (h : List Call) (siteID domain token : String)
    (hok : (SetDefaultDomain E h siteID domain token).err = none) :
    ∃ s, E.getSite h siteID = .ok (some s) ∧
      (SetDefaultDomain E h siteID domain token).log
        = h ++ [Call.getSite siteID, Call.patchSite (siteURL siteID)
            ⟨s.Name, domain, dropAlias domain s.DomainAliases, token⟩] := by
  by_cases hid : siteID = ""
  · simp [SetDefaultDomain, hid] at hok
  by_cases hd : domain = ""
  · simp [SetDefaultDomain, hid, hd] at hok
  cases hget : E.getSite h siteID with
  | error e => simp [SetDefaultDomain, hid, hd, hget] at hok
  | ok o =>
    cases o with
    | none => simp [SetDefaultDomain, hid, hd, hget] at hok
    | some s =>
      refine ⟨s, rfl, ?_⟩
      rw [SetDefaultDomain_fetched E h siteID domain token s hid hd hget] at hok ⊢
      rw [sendPatch_log _ _ _ _ ((sendPatch_err_none _ _ _ _).1 hok).1]
      simp

theorem AddCustomDomain_fetched (E : Env) (h : List Call) (siteID domain : String)
    (s : Site) (hid : siteID ≠ "") (hd : domain ≠ "")
    (hget : E.getSite h siteID = .ok (some s)) (hp : s.CustomDomain ≠ "") :
    AddCustomDomain E h siteID domain
      = if s.CustomDomain = domain then
          ⟨some ("domínio " ++ domain ++ " já existe como domínio principal"),
            h ++ [Call.getSite siteID]⟩
        else if aliasListed domain s.DomainAliases then
          ⟨some ("domínio " ++ domain ++ " já existe como alias"), h ++ [Call.getSite siteID]⟩
        else
          match E.updateSite (h ++ [Call.getSite siteID])
              ⟨s.ID, s.Name, s.CustomDomain, s.DomainAliases ++ [domain], s.URL⟩ with
          | .error e =>
            ⟨some ("erro ao adicionar domínio personalizado: " ++ e),
              h ++ [Call.getSite siteID, Call.updateSite
                ⟨s.ID, s.Name, s.CustomDomain, s.DomainAliases ++ [domain], s.URL⟩]⟩
          | .ok _ =>
            ⟨none, h ++ [Call.getSite siteID, Call.updateSite
                ⟨s.ID, s.Name, s.CustomDomain, s.DomainAliases ++ [domain], s.URL⟩]⟩ := by
  unfold AddCustomDomain
  simp [hid, hd, hget, hp]

theorem AddCustomDomain_fresh (E : Env) (h : List Call) (siteID domain : String)
    (s : Site) (hid : siteID ≠ "") (hd : domain ≠ "")
    (hget : E.getSite h siteID = .ok (some s)) (hp : s.CustomDomain ≠ "")
    (hne : domain ≠ s.CustomDomain) (hnot : domain ∉ s.DomainAliases) :
    (AddCustomDomain E h siteID domain).log
        = h ++ [Call.getSite siteID, Call.updateSite
            ⟨s.ID, s.Name, s.CustomDomain, s.DomainAliases ++ [domain], s.URL⟩] ∧
    ((AddCustomDomain E h siteID domain).err = none ↔
      ∃ s1, E.updateSite (h ++ [Call.getSite siteID])
        ⟨s.ID, s.Name, s.CustomDomain, s.DomainAliases ++ [domain], s.URL⟩ = .ok s1) := by
  have hl : aliasListed domain s.DomainAliases = false := by
    cases hb : aliasListed domain s.DomainAliases with
    | false => rfl
    | true => exact absurd ((aliasListed_iff _ _).1 hb) hnot
  rw [AddCustomDomain_fetched E h siteID domain s hid hd hget hp]
  rw [if_neg (fun e => hne e.symm), hl]
  cases hup : E.updateSite (h ++ [Call.getSite siteID])
      ⟨s.ID, s.Name, s.CustomDomain, s.DomainAliases ++ [domain], s.URL⟩ with
  | error e => simp
  | ok s1 => simp

theorem AddCustomDomain_dup (E : Env) (h : List Call) (siteID domain : String)
    (s : Site) (hid : siteID ≠ "") (hd : domain ≠ "")
    (hget : E.getSite h siteID = .ok (some s)) (hp : s.CustomDomain ≠ "")
    (hdup : domain = s.CustomDomain ∨ domain ∈ s.DomainAliases) :
    AddCustomDomain E h siteID domain
      = ⟨some (if domain = s.CustomDomain
            then "domínio " ++ domain ++ " já existe como domínio principal"
            else "domínio " ++ domain ++ " já existe como alias"),
          h ++ [Call.getSite siteID]⟩ := by
  rw [AddCustomDomain_fetched E h siteID domain s hid hd hget hp]
  by_cases he : domain = s.CustomDomain
  · rw [if_pos he.symm, if_pos he]
  · have hm : aliasListed domain s.DomainAliases = true :=
      (aliasListed_iff _ _).2 (hdup.resolve_left he)
    rw [if_neg (fun e => he e.symm), hm, if_neg he]
    simp

/-! ## Add alias (`Client.AddCustomDomain`) -/

/-- C1, as stated, fails: on a site whose primary domain is "a.com" the client adds the
fresh non-empty domain "b.com" without error and issues an `UpdateSite` call. -/
theorem AddCustomDomain_primary_set_not_rejected :
    (mkSite "a.com" []).CustomDomain ≠ "" ∧ "b.com" ≠ "" ∧
    (AddCustomDomain (Env.holding (mkSite "a.com" [])) [] "site-1" "b.com").err = none ∧
    updates (AddCustomDomain (Env.holding (mkSite "a.com" [])) [] "site-1" "b.com").log
      = [Call.updateSite (mkSite "a.com" ["b.com"])] := by
  decide

/-- C1 (amended): on a site whose primary domain is non-empty and for a non-empty
domain, `AddCustomDomain` leaves the provider without an update call exactly when the
domain is the primary domain or already an alias; it returns no error exactly when the
domain is neither and the provider accepts the update that appends it.  A set primary
domain alone is never a reason to fail. -/
theorem AddCustomDomain_primary_set (E : Env) (h : List Call) (siteID domain : String)
    (s : Site) (hid : siteID ≠ "") (hd : domain ≠ "")
    (hget : E.getSite h siteID = .ok (some s)) (hp : s.CustomDomain ≠ "") :
    (updates (AddCustomDomain E h siteID domain).log = updates h ↔
      (domain = s.CustomDomain ∨ domain ∈ s.DomainAliases)) ∧
    ((AddCustomDomain E h siteID domain).err = none ↔
      domain ≠ s.CustomDomain ∧ domain ∉ s.DomainAliases ∧
      ∃ s1, E.updateSite (h ++ [Call.getSite siteID])
        ⟨s.ID, s.Name, s.CustomDomain, s.DomainAliases ++ [domain], s.URL⟩ = .ok s1) := by
  by_cases hdup : domain = s.CustomDomain ∨ domain ∈ s.DomainAliases
  · rw [AddCustomDomain_dup E h siteID domain s hid hd hget hp hdup]
    constructor
    · simp [updates_append, updates, Call.isUpdate, hdup]
    · constructor
      · intro hnone
        simp at hnone
      · rintro ⟨h1, h2, _⟩
        exact absurd hdup (not_or.2 ⟨h1, h2⟩)
  · obtain ⟨hne, hnot⟩ := not_or.1 hdup
    obtain ⟨hlog, herr⟩ := AddCustomDomain_fresh E h siteID domain s hid hd hget hp hne hnot
    constructor
    · rw [hlog]
      constructor
      · intro hu
        rw [updates_append] at hu
        have hlen := congrArg List.length hu
        simp [updates, Call.isUpdate] at hlen
      · intro hc
        exact absurd hc hdup
    · rw [herr]
      constructor
      · intro hx
        exact ⟨hne, hnot, hx⟩
      · intro hx
        exact hx.2.2

theorem AddCustomDomain_primary_set_witness :
    (updates (AddCustomDomain (Env.holding (mkSite "a.com" ["b.com"])) [] "site-1" "c.com").log
        = updates [] ↔
      ("c.com" = (mkSite "a.com" ["b.com"]).CustomDomain
        ∨ "c.com" ∈ (mkSite "a.com" ["b.com"]).DomainAliases)) ∧
    ((AddCustomDomain (Env.holding (mkSite "a.com" ["b.com"])) [] "site-1" "c.com").err = none ↔
      "c.com" ≠ (mkSite "a.com" ["b.com"]).CustomDomain ∧
      "c.com" ∉ (mkSite "a.com" ["b.com"]).DomainAliases ∧
      ∃ s1, (Env.holding (mkSite "a.com" ["b.com"])).updateSite ([] ++ [Call.getSite "site-1"])
        ⟨(mkSite "a.com" ["b.com"]).ID, (mkSite "a.com" ["b.com"]).Name,
          (mkSite "a.com" ["b.com"]).CustomDomain,
          (mkSite "a.com" ["b.com"]).DomainAliases ++ ["c.com"],
          (mkSite "a.com" ["b.com"]).URL⟩ = .ok s1) :=
  AddCustomDomain_primary_set (Env.holding (mkSite "a.com" ["b.com"])) [] "site-1" "c.com"
    (mkSite "a.com" ["b.com"]) (by decide) (by decide) rfl (by decide)

/-- C2, as stated, fails: adding "a.com" to a site without primary domain succeeds, and
the state submitted has "a.com" as primary domain and an empty alias list. -/
theorem AddCustomDomain_success_not_alias :
    (AddCustomDomain (Env.holding (mkSite "" [])) [] "site-1" "a.com").err = none ∧
    (updates (AddCustomDomain (Env.holding (mkSite "" [])) [] "site-1" "a.com").log).map
      Call.domainState = [some ("a.com", [])] ∧
    "a.com" ∉ ([] : List String) := by
  decide

/-- C2 (amended): whenever `AddCustomDomain` returns no error it fetched a site and
issued exactly one update.  If the fetched site had a primary domain, the submitted
state keeps that primary domain, the domain differs from it and is a member of the
submitted alias list; if the fetched site had no primary domain, the submitted state
has the domain as primary domain and not among the aliases. -/
theorem AddCustomDomain_success_state (E : Env) (h : List Call) (siteID domain : String)
    (hok : (AddCustomDomain E h siteID domain).err = none) :
    ∃ s c p l, E.getSite h siteID = .ok (some s) ∧
      updates (AddCustomDomain E h siteID domain).log = updates h ++ [c] ∧
      c.domainState = some (p, l) ∧
      (s.CustomDomain ≠ "" → p = s.CustomDomain ∧ domain ≠ p ∧ domain ∈ l) ∧
      (s.CustomDomain = "" → p = domain ∧ domain ∉ l) := by
  by_cases hid : siteID = ""
  · simp [AddCustomDomain, hid] at hok
  by_cases hd : domain = ""
  · simp [AddCustomDomain, hid, hd] at hok
  cases hget : E.getSite h siteID with
  | error e => simp [AddCustomDomain, hid, hd, hget] at hok
  | ok o =>
    cases o with
    | none => simp [AddCustomDomain, hid, hd, hget] at hok
    | some s =>
      by_cases hp : s.CustomDomain = ""
      · have hEq : AddCustomDomain E h siteID domain
            = match (SetDefaultDomain E (h ++ [Call.getSite siteID]) siteID domain
                "12345abc").err with
              | some e => ⟨some ("erro ao definir domínio como principal: " ++ e),
                  (SetDefaultDomain E (h ++ [Call.getSite siteID]) siteID domain "12345abc").log⟩
              | none => ⟨none,
                  (SetDefaultDomain E (h ++ [Call.getSite siteID]) siteID domain
                    "12345abc").log⟩ := by
          unfold AddCustomDomain
          simp [hid, hd, hget, hp]
        cases hset : (SetDefaultDomain E (h ++ [Call.getSite siteID]) siteID domain
            "12345abc").err with
        | some e =>
          rw [hEq, hset] at hok
          simp at hok
        | none =>
          obtain ⟨s2, _, hlog⟩ := SetDefaultDomain_success _ _ _ _ _ hset
          refine ⟨s, Call.patchSite (siteURL siteID)
            ⟨s2.Name, domain, dropAlias domain s2.DomainAliases, "12345abc"⟩,
            domain, dropAlias domain s2.DomainAliases, rfl, ?_, rfl, ?_, ?_⟩
          · rw [hEq, hset]
            simp only [hlog]
            simp [updates_append, updates, Call.isUpdate]
          · intro hc
            exact absurd hp hc
          · intro _
            exact ⟨rfl, not_mem_dropAlias _ _⟩
      · have hne : domain ≠ s.CustomDomain := by
          intro he
          have := AddCustomDomain_dup E h siteID domain s hid hd hget hp (Or.inl he)
          rw [this] at hok
          simp at hok
        have hnot : domain ∉ s.DomainAliases := by
          intro hm
          have := AddCustomDomain_dup E h siteID domain s hid hd hget hp (Or.inr hm)
          rw [this] at hok
          simp at hok
        obtain ⟨hlog, _⟩ := AddCustomDomain_fresh E h siteID domain s hid hd hget hp hne hnot
        refine ⟨s, Call.updateSite
          ⟨s.ID, s.Name, s.CustomDomain, s.DomainAliases ++ [domain], s.URL⟩,
          s.CustomDomain, s.DomainAliases ++ [domain], rfl, ?_, rfl, ?_, ?_⟩
        · rw [hlog]
          simp [updates_append, updates, Call.isUpdate]
        · intro _
          exact ⟨rfl, hne, by simp⟩
        · intro hc
          exact absurd hc hp

theorem AddCustomDomain_success_state_witness :
    ∃ s c p l, (Env.holding (mkSite "a.com" [])).getSite [] "site-1" = .ok (some s) ∧
      updates (AddCustomDomain (Env.holding (mkSite "a.com" [])) [] "site-1" "b.com").log
        = updates [] ++ [c] ∧
      c.domainState = some (p, l) ∧
      (s.CustomDomain ≠ "" → p = s.CustomDomain ∧ "b.com" ≠ p ∧ "b.com" ∈ l) ∧
      (s.CustomDomain = "" → p = "b.com" ∧ "b.com" ∉ l) :=
  AddCustomDomain_success_state (Env.holding (mkSite "a.com" [])) [] "site-1" "b.com"
    (by decide)

/-- C3: on a site without primary domain and for a non-empty domain, `AddCustomDomain`
takes the fallback path through `SetDefaultDomain`: after the two fetches it issues one
PATCH whose primary domain is the domain and whose aliases are the old aliases without
the entries equal to the domain (token "12345abc"); no `UpdateSite` appending an alias
is issued. -/
theorem AddCustomDomain_fallback_to_primary (E : Env) (h : List Call)
    (siteID domain : String) (s : Site) (hid : siteID ≠ "") (hd : domain ≠ "")
    (hget : E.getSite h siteID = .ok (some s))
    (hget2 : E.getSite (h ++ [Call.getSite siteID]) siteID = .ok (some s))
    (hreq : E.newRequest (siteURL siteID) = none)
    (hp : s.CustomDomain = "") :
    (AddCustomDomain E h siteID domain).log
      = h ++ [Call.getSite siteID, Call.getSite siteID,
          Call.patchSite (siteURL siteID)
            ⟨s.Name, domain, s.DomainAliases.filter (fun a => a ≠ domain), "12345abc"⟩] := by
  have hset := SetDefaultDomain_fetched E (h ++ [Call.getSite siteID]) siteID domain
    "12345abc" s hid hd hget2
  have hlog := sendPatch_log E (h ++ [Call.getSite siteID] ++ [Call.getSite siteID]) siteID
    ⟨s.Name, domain, dropAlias domain s.DomainAliases, "12345abc"⟩ hreq
  rw [← hset] at hlog
  have hEq : (AddCustomDomain E h siteID domain).log
      = (SetDefaultDomain E (h ++ [Call.getSite siteID]) siteID domain "12345abc").log := by
    unfold AddCustomDomain
    simp only [hid, hd, hget, hp, if_false, if_true]
    cases (SetDefaultDomain E (h ++ [Call.getSite siteID]) siteID domain "12345abc").err <;> rfl
  rw [hEq, hlog, dropAlias_eq_filter]
  simp

theorem AddCustomDomain_fallback_to_primary_witness :
    (AddCustomDomain (Env.holding (mkSite "" [])) [] "site-1" "a.com").log
      = [Call.getSite "site-1", Call.getSite "site-1",
          Call.patchSite (siteURL "site-1") ⟨"demo", "a.com", [], "12345abc"⟩] :=
  AddCustomDomain_fallback_to_primary (Env.holding (mkSite "" [])) [] "site-1" "a.com"
    (mkSite "" []) (by decide) (by decide) rfl rfl rfl rfl

/-- C4, as stated, fails: on a site without primary domain whose aliases contain "a.com",
adding "a.com" succeeds and issues a PATCH that promotes "a.com" to primary domain. -/
theorem AddCustomDomain_alias_promoted :
    "a.com" ∈ (mkSite "" ["a.com"]).DomainAliases ∧
    (AddCustomDomain (Env.holding (mkSite "" ["a.com"])) [] "site-1" "a.com").err = none ∧
    updates (AddCustomDomain (Env.holding (mkSite "" ["a.com"])) [] "site-1" "a.com").log
      = [Call.patchSite (siteURL "site-1") ⟨"demo", "a.com", [], "12345abc"⟩] := by
  decide

/-- C4 (amended): on a site whose primary domain is non-empty, `AddCustomDomain` of a
domain that equals the primary domain or is already an alias fails and issues no update
call. When the site id and the domain are non-empty the error is the already-exists
message (primary first, alias otherwise); an empty site id, else an empty domain, is
answered by the input guard (client.go 396-401) before any remote call. -/
theorem AddCustomDomain_duplicate_rejected (E : Env) (h : List Call)
    (siteID domain : String) (s : Site)
    (hget : E.getSite h siteID = .ok (some s)) (hp : s.CustomDomain ≠ "")
    (hdup : domain = s.CustomDomain ∨ domain ∈ s.DomainAliases) :
    (AddCustomDomain E h siteID domain).err ≠ none ∧
    updates (AddCustomDomain E h siteID domain).log = updates h ∧
    (siteID ≠ "" → domain ≠ "" →
      (AddCustomDomain E h siteID domain).err
        = some (if domain = s.CustomDomain
            then "domínio " ++ domain ++ " já existe como domínio principal"
            else "domínio " ++ domain ++ " já existe como alias")) ∧
    (siteID ≠ "" → domain = "" →
      AddCustomDomain E h siteID domain = ⟨some "domínio não pode ser vazio", h⟩) ∧
    (siteID = "" →
      AddCustomDomain E h siteID domain = ⟨some "ID do site não pode ser vazio", h⟩) := by
  by_cases hid : siteID = ""
  · simp [AddCustomDomain, hid]
  by_cases hd : domain = ""
  · simp [AddCustomDomain, hid, hd]
  rw [AddCustomDomain_dup E h siteID domain s hid hd hget hp hdup]
  simp [updates_append, updates, Call.isUpdate, hid, hd]

theorem AddCustomDomain_duplicate_rejected_witness :
    ((AddCustomDomain (Env.holding (mkSite "a.com" ["b.com"])) [] "site-1" "b.com").err ≠ none ∧
      updates (AddCustomDomain (Env.holding (mkSite "a.com" ["b.com"])) [] "site-1" "b.com").log
        = updates [] ∧
      (AddCustomDomain (Env.holding (mkSite "a.com" ["b.com"])) [] "site-1" "b.com").err
        = some (if "b.com" = (mkSite "a.com" ["b.com"]).CustomDomain
            then "domínio " ++ "b.com" ++ " já existe como domínio principal"
            else "domínio " ++ "b.com" ++ " já existe como alias")) ∧
    ("" ∈ (mkSite "a.com" [""]).DomainAliases ∧
      (AddCustomDomain (Env.holding (mkSite "a.com" [""])) [] "site-1" "").err ≠ none ∧
      updates (AddCustomDomain (Env.holding (mkSite "a.com" [""])) [] "site-1" "").log
        = updates [] ∧
      AddCustomDomain (Env.holding (mkSite "a.com" [""])) [] "site-1" ""
        = ⟨some "domínio não pode ser vazio", []⟩) :=
  ⟨⟨(AddCustomDomain_duplicate_rejected (Env.holding (mkSite "a.com" ["b.com"])) [] "site-1"
        "b.com" (mkSite "a.com" ["b.com"]) rfl (by decide) (Or.inr (by decide))).1,
    (AddCustomDomain_duplicate_rejected (Env.holding (mkSite "a.com" ["b.com"])) [] "site-1"
        "b.com" (mkSite "a.com" ["b.com"]) rfl (by decide) (Or.inr (by decide))).2.1,
    (AddCustomDomain_duplicate_rejected (Env.holding (mkSite "a.com" ["b.com"])) [] "site-1"
        "b.com" (mkSite "a.com" ["b.com"]) rfl (by decide) (Or.inr (by decide))).2.2.1
      (by decide) (by decide)⟩,
   ⟨by decide,
    (AddCustomDomain_duplicate_rejected (Env.holding (mkSite "a.com" [""])) [] "site-1"
        "" (mkSite "a.com" [""]) rfl (by decide) (Or.inr (by decide))).1,
    (AddCustomDomain_duplicate_rejected (Env.holding (mkSite "a.com" [""])) [] "site-1"
        "" (mkSite "a.com" [""]) rfl (by decide) (Or.inr (by decide))).2.1,
    (AddCustomDomain_duplicate_rejected (Env.holding (mkSite "a.com" [""])) [] "site-1"
        "" (mkSite "a.com" [""]) rfl (by decide) (Or.inr (by decide))).2.2.2.1
      (by decide) rfl⟩⟩

/-- C5, as stated, fails: the empty domain is neither the primary domain nor an alias of
the site, yet `AddCustomDomain` rejects it before any remote call. -/
theorem AddCustomDomain_empty_domain_rejected :
    (mkSite "a.com" ["b.com"]).CustomDomain ≠ "" ∧
    "" ≠ (mkSite "a.com" ["b.com"]).CustomDomain ∧
    "" ∉ (mkSite "a.com" ["b.com"]).DomainAliases ∧
    AddCustomDomain (Env.holding (mkSite "a.com" ["b.com"])) [] "site-1" ""
      = ⟨some "domínio não pode ser vazio", []⟩ := by
  decide

/-- C5 (amended): on a site whose primary domain is non-empty and for a non-empty domain
that is neither the primary domain nor an alias, `AddCustomDomain` fetches the site and
issues exactly one `UpdateSite`, whose site has the old aliases followed by the domain
and every other field, the primary domain included, unchanged. -/
theorem AddCustomDomain_appends_alias (E : Env) (h : List Call) (siteID domain : String)
    (s : Site) (hid : siteID ≠ "") (hd : domain ≠ "")
    (hget : E.getSite h siteID = .ok (some s)) (hp : s.CustomDomain ≠ "")
    (hne : domain ≠ s.CustomDomain) (hnot : domain ∉ s.DomainAliases) :
    (AddCustomDomain E h siteID domain).log
      = h ++ [Call.getSite siteID, Call.updateSite
          ⟨s.ID, s.Name, s.CustomDomain, s.DomainAliases ++ [domain], s.URL⟩] ∧
    updates (AddCustomDomain E h siteID domain).log
      = updates h ++ [Call.updateSite
          ⟨s.ID, s.Name, s.CustomDomain, s.DomainAliases ++ [domain], s.URL⟩] := by
  have hlog := (AddCustomDomain_fresh E h siteID domain s hid hd hget hp hne hnot).1
  refine ⟨hlog, ?_⟩
  rw [hlog]
  simp [updates_append, updates, Call.isUpdate]

theorem AddCustomDomain_appends_alias_witness :
    (AddCustomDomain (Env.holding (mkSite "a.com" ["b.com"])) [] "site-1" "c.com").log
      = [] ++ [Call.getSite "site-1", Call.updateSite
          ⟨(mkSite "a.com" ["b.com"]).ID, (mkSite "a.com" ["b.com"]).Name,
            (mkSite "a.com" ["b.com"]).CustomDomain,
            (mkSite "a.com" ["b.com"]).DomainAliases ++ ["c.com"],
            (mkSite "a.com" ["b.com"]).URL⟩] ∧
    updates (AddCustomDomain (Env.holding (mkSite "a.com" ["b.com"])) [] "site-1" "c.com").log
      = updates [] ++ [Call.updateSite
          ⟨(mkSite "a.com" ["b.com"]).ID, (mkSite "a.com" ["b.com"]).Name,
            (mkSite "a.com" ["b.com"]).CustomDomain,
            (mkSite "a.com" ["b.com"]).DomainAliases ++ ["c.com"],
            (mkSite "a.com" ["b.com"]).URL⟩] :=
  AddCustomDomain_appends_alias (Env.holding (mkSite "a.com" ["b.com"])) [] "site-1" "c.com"
    (mkSite "a.com" ["b.com"]) (by decide) (by decide) rfl (by decide) (by decide)
    (by decide)

/-! ## Promote to primary (`Client.SetDefaultDomain`) -/

/-- C6: for a fetched site, a non-empty domain and any verification token,
`SetDefaultDomain` submits one PATCH whose primary domain is the domain and whose alias
list is the old alias list without the entries equal to the domain, the others in their
original order; the domain is not in the submitted alias list. -/
theorem SetDefaultDomain_submitted_state (E : Env) (h : List Call)
    (siteID domain token : String) (s : Site) (hid : siteID ≠ "") (hd : domain ≠ "")
    (hget : E.getSite h siteID = .ok (some s))
    (hreq : E.newRequest (siteURL siteID) = none) :
    (SetDefaultDomain E h siteID domain token).log
      = h ++ [Call.getSite siteID, Call.patchSite (siteURL siteID)
          ⟨s.Name, domain, s.DomainAliases.filter (fun a => a ≠ domain), token⟩] ∧
    domain ∉ s.DomainAliases.filter (fun a => a ≠ domain) ∧
    (s.DomainAliases.filter (fun a => a ≠ domain)).Sublist s.DomainAliases := by
  rw [SetDefaultDomain_fetched E h siteID domain token s hid hd hget,
    sendPatch_log _ _ _ _ hreq, dropAlias_eq_filter]
  refine ⟨by simp, by simp, List.filter_sublist _⟩

theorem SetDefaultDomain_submitted_state_witness :
    (SetDefaultDomain (Env.holding (mkSite "a.com" ["b.com", "c.com", "b.com", "d.com"])) []
        "site-1" "b.com" "tok").log
      = [Call.getSite "site-1", Call.patchSite (siteURL "site-1")
          ⟨"demo", "b.com", ["c.com", "d.com"], "tok"⟩] ∧
    "b.com" ∉ ["c.com", "d.com"] ∧
    (["c.com", "d.com"] : List String).Sublist ["b.com", "c.com", "b.com", "d.com"] :=
  SetDefaultDomain_submitted_state
    (Env.holding (mkSite "a.com" ["b.com", "c.com", "b.com", "d.com"])) []
    "site-1" "b.com" "tok" (mkSite "a.com" ["b.com", "c.com", "b.com", "d.com"])
    (by decide) (by decide) rfl rfl

/-- C7, as stated, fails: promoting "a.com" on a site whose primary domain already is
"a.com" still sends a PATCH to the provider. -/
theorem SetDefaultDomain_same_primary_sends_patch :
    (mkSite "a.com" ["b.com"]).CustomDomain = "a.com" ∧
    updates (SetDefaultDomain (Env.holding (mkSite "a.com" ["b.com"])) [] "site-1" "a.com"
        "tok").log
      = [Call.patchSite (siteURL "site-1") ⟨"demo", "a.com", ["b.com"], "tok"⟩] := by
  decide

/-- C7 (amended): on a site whose primary domain already equals the requested non-empty
domain, `SetDefaultDomain` is not skipped: it issues exactly one PATCH, which resubmits
the current primary domain with the aliases different from it and the verification
token, and it returns no error exactly when the provider answers with a status below
300. -/
theorem SetDefaultDomain_same_primary (E : Env) (h : List Call)
    (siteID domain token : String) (s : Site) (hid : siteID ≠ "") (hd : domain ≠ "")
    (hget : E.getSite h siteID = .ok (some s))
    (hreq : E.newRequest (siteURL siteID) = none)
    (hsame : s.CustomDomain = domain) :
    updates (SetDefaultDomain E h siteID domain token).log
      = updates h ++ [Call.patchSite (siteURL siteID)
          ⟨s.Name, s.CustomDomain,
            s.DomainAliases.filter (fun a => a ≠ s.CustomDomain), token⟩] ∧
    ((SetDefaultDomain E h siteID domain token).err = none ↔
      ∃ status body, E.httpDo (h ++ [Call.getSite siteID]) (siteURL siteID)
        ⟨s.Name, s.CustomDomain,
          s.DomainAliases.filter (fun a => a ≠ s.CustomDomain), token⟩ = .ok (status, body)
        ∧ status < 300) := by
  subst hsame
  rw [SetDefaultDomain_fetched E h siteID s.CustomDomain token s hid hd hget,
    sendPatch_log _ _ _ _ hreq, sendPatch_err_none, dropAlias_eq_filter]
  constructor
  · simp [updates_append, updates, Call.isUpdate]
  · simp [hreq]

theorem SetDefaultDomain_same_primary_witness :
    updates (SetDefaultDomain (Env.holding (mkSite "a.com" ["b.com"])) [] "site-1" "a.com"
        "tok").log
      = updates [] ++ [Call.patchSite (siteURL "site-1")
          ⟨(mkSite "a.com" ["b.com"]).Name, (mkSite "a.com" ["b.com"]).CustomDomain,
            (mkSite "a.com" ["b.com"]).DomainAliases.filter
              (fun a => a ≠ (mkSite "a.com" ["b.com"]).CustomDomain), "tok"⟩] ∧
    ((SetDefaultDomain (Env.holding (mkSite "a.com" ["b.com"])) [] "site-1" "a.com"
        "tok").err = none ↔
      ∃ status body, (Env.holding (mkSite "a.com" ["b.com"])).httpDo
        ([] ++ [Call.getSite "site-1"]) (siteURL "site-1")
        ⟨(mkSite "a.com" ["b.com"]).Name, (mkSite "a.com" ["b.com"]).CustomDomain,
          (mkSite "a.com" ["b.com"]).DomainAliases.filter
            (fun a => a ≠ (mkSite "a.com" ["b.com"]).CustomDomain), "tok"⟩
          = .ok (status, body)
        ∧ status < 300) :=
  SetDefaultDomain_same_primary (Env.holding (mkSite "a.com" ["b.com"])) [] "site-1" "a.com"
    "tok" (mkSite "a.com" ["b.com"]) (by decide) (by decide) rfl rfl rfl

/-! ## Swap primary (`Client.SwitchDefaultDomain`) -/

theorem SwitchDefaultDomain_fetched (E : Env) (h : List Call)
    (siteID newDomain token : String) (s : Site) (hid : siteID ≠ "") (hnd : newDomain ≠ "")
    (hget : E.getSite h siteID = .ok (some s)) :
    SwitchDefaultDomain E h siteID newDomain token
      = if s.CustomDomain = newDomain then
          ⟨some ("o domínio " ++ newDomain ++ " já é o principal"), h ++ [Call.getSite siteID]⟩
        else if aliasListed newDomain s.DomainAliases = false then
          ⟨some ("o domínio " ++ newDomain ++ " não foi encontrado entre os aliases"),
            h ++ [Call.getSite siteID]⟩
        else
          sendPatch E (h ++ [Call.getSite siteID]) siteID
            ⟨s.Name, newDomain,
              if s.CustomDomain ≠ "" then
                if aliasListed s.CustomDomain (s.DomainAliases.filter (fun a => a ≠ newDomain))
                then s.DomainAliases.filter (fun a => a ≠ newDomain)
                else s.DomainAliases.filter (fun a => a ≠ newDomain) ++ [s.CustomDomain]
              else s.DomainAliases.filter (fun a => a ≠ newDomain),
              token⟩ := by
  unfold SwitchDefaultDomain
  simp only [hid, hnd, hget, if_false, splitAliases_eq]
  by_cases hc : s.CustomDomain = newDomain
  · simp [hc]
  · cases hl : aliasListed newDomain s.DomainAliases <;> simp [hc]

/-- C8, as stated, fails: the empty string is in the alias list of the site and differs
from its primary domain, yet `SwitchDefaultDomain` to it is rejected before any remote
call, so no update is submitted. -/
theorem SwitchDefaultDomain_empty_alias_rejected :
    "" ∈ (mkSite "a.com" [""]).DomainAliases ∧ "" ≠ (mkSite "a.com" [""]).CustomDomain ∧
    SwitchDefaultDomain (Env.holding (mkSite "a.com" [""])) [] "site-1" "" "tok"
      = ⟨some "domínio não pode ser vazio", []⟩ := by
  decide

/-- C8 (amended): for a fetched site and a non-empty new domain that is in the alias list
and differs from the primary domain, `SwitchDefaultDomain` submits one PATCH with the
new domain as primary domain and, as aliases, the old aliases without the entries equal
to the new domain, followed by the old primary domain when that is non-empty and not
among the remaining aliases. -/
theorem SwitchDefaultDomain_swaps (E : Env) (h : List Call)
    (siteID newDomain token : String) (s : Site) (hid : siteID ≠ "") (hnd : newDomain ≠ "")
    (hget : E.getSite h siteID = .ok (some s))
    (hreq : E.newRequest (siteURL siteID) = none)
    (hmem : newDomain ∈ s.DomainAliases) (hne : newDomain ≠ s.CustomDomain) :
    (SwitchDefaultDomain E h siteID newDomain token).log
      = h ++ [Call.getSite siteID, Call.patchSite (siteURL siteID)
          ⟨s.Name, newDomain,
            s.DomainAliases.filter (fun a => a ≠ newDomain) ++
              (if s.CustomDomain ≠ "" ∧
                  s.CustomDomain ∉ s.DomainAliases.filter (fun a => a ≠ newDomain)
                then [s.CustomDomain] else []),
            token⟩] := by
  have hl : aliasListed newDomain s.DomainAliases = true := (aliasListed_iff _ _).2 hmem
  rw [SwitchDefaultDomain_fetched E h siteID newDomain token s hid hnd hget,
    if_neg (fun e => hne e.symm), hl]
  simp only [Bool.true_eq_false, if_false]
  rw [sendPatch_log _ _ _ _ hreq]
  by_cases hp : s.CustomDomain = ""
  · simp [hp]
  · cases hx : aliasListed s.CustomDomain (s.DomainAliases.filter (fun a => a ≠ newDomain)) with
    | true =>
      have hin := (aliasListed_iff _ _).1 hx
      rw [if_pos hp, if_pos rfl, if_neg (fun hc => hc.2 hin)]
      simp
    | false =>
      have hnin : s.CustomDomain ∉ s.DomainAliases.filter (fun a => a ≠ newDomain) := by
        intro hin
        rw [(aliasListed_iff _ _).2 hin] at hx
        exact Bool.noConfusion hx
      rw [if_pos hp, if_neg Bool.false_ne_true, if_pos ⟨hp, hnin⟩]
      simp

theorem SwitchDefaultDomain_swaps_witness :
    (SwitchDefaultDomain (Env.holding (mkSite "a.com" ["b.com"])) [] "site-1" "b.com"
        "tok").log
      = [Call.getSite "site-1", Call.patchSite (siteURL "site-1")
          ⟨"demo", "b.com", ["a.com"], "tok"⟩] :=
  SwitchDefaultDomain_swaps (Env.holding (mkSite "a.com" ["b.com"])) [] "site-1" "b.com"
    "tok" (mkSite "a.com" ["b.com"]) (by decide) (by decide) rfl rfl (by decide) (by decide)

/-- C9, as stated, fails: "a.com" is absent from the alias list and is the primary
domain, and `SwitchDefaultDomain` answers with the already-primary error, not with the
not-found error; the empty domain, absent from the alias list as well, is answered with
the empty-domain error. -/
theorem SwitchDefaultDomain_absent_not_always_not_found :
    "a.com" ∉ (mkSite "a.com" ["b.com"]).DomainAliases ∧
    SwitchDefaultDomain (Env.holding (mkSite "a.com" ["b.com"])) [] "site-1" "a.com" "tok"
      = ⟨some "o domínio a.com já é o principal", [Call.getSite "site-1"]⟩ ∧
    "" ∉ (mkSite "a.com" ["b.com"]).DomainAliases ∧
    SwitchDefaultDomain (Env.holding (mkSite "a.com" ["b.com"])) [] "site-1" "" "tok"
      = ⟨some "domínio não pode ser vazio", []⟩ := by
  decide

/-- C9 (amended): for a fetched site and a non-empty domain absent from the alias list,
`SwitchDefaultDomain` fails after the fetch without any update: with the not-found error
when the domain differs from the primary domain, and with the already-primary error
when it is the primary domain. -/
theorem SwitchDefaultDomain_absent (E : Env) (h : List Call)
    (siteID domain token : String) (s : Site) (hid : siteID ≠ "") (hd : domain ≠ "")
    (hget : E.getSite h siteID = .ok (some s)) (habs : domain ∉ s.DomainAliases) :
    SwitchDefaultDomain E h siteID domain token
      = ⟨some (if s.CustomDomain = domain
            then "o domínio " ++ domain ++ " já é o principal"
            else "o domínio " ++ domain ++ " não foi encontrado entre os aliases"),
          h ++ [Call.getSite siteID]⟩ := by
  have hl : aliasListed domain s.DomainAliases = false := by
    cases hb : aliasListed domain s.DomainAliases with
    | false => rfl
    | true => exact absurd ((aliasListed_iff _ _).1 hb) habs
  rw [SwitchDefaultDomain_fetched E h siteID domain token s hid hd hget, hl]
  by_cases hc : s.CustomDomain = domain <;> simp [hc]

theorem SwitchDefaultDomain_absent_witness :
    SwitchDefaultDomain (Env.holding (mkSite "a.com" ["b.com"])) [] "site-1" "c.com" "tok"
      = ⟨some "o domínio c.com não foi encontrado entre os aliases",
          [Call.getSite "site-1"]⟩ :=
  SwitchDefaultDomain_absent (Env.holding (mkSite "a.com" ["b.com"])) [] "site-1" "c.com"
    "tok" (mkSite "a.com" ["b.com"]) (by decide) (by decide) rfl (by decide)

/-- C10, as stated, fails: on a site without primary domain the empty new domain equals
the current primary domain, and `SwitchDefaultDomain` answers with the empty-domain
error instead of the already-primary error. -/
theorem SwitchDefaultDomain_empty_primary_not_already_primary :
    "" = (mkSite "" ["b.com"]).CustomDomain ∧
    SwitchDefaultDomain (Env.holding (mkSite "" ["b.com"])) [] "site-1" "" "tok"
      = ⟨some "domínio não pode ser vazio", []⟩ ∧
    "domínio não pode ser vazio" ≠ "o domínio " ++ "" ++ " já é o principal" := by
  decide

/-- C10 (amended): for a fetched site and a non-empty new domain equal to the current
primary domain, `SwitchDefaultDomain` fails with the already-primary error and sends no
update to the provider. -/
theorem SwitchDefaultDomain_already_primary (E : Env) (h : List Call)
    (siteID newDomain token : String) (s : Site) (hid : siteID ≠ "") (hnd : newDomain ≠ "")
    (hget : E.getSite h siteID = .ok (some s)) (hsame : newDomain = s.CustomDomain) :
    (SwitchDefaultDomain E h siteID newDomain token).err
      = some ("o domínio " ++ newDomain ++ " já é o principal") ∧
    updates (SwitchDefaultDomain E h siteID newDomain token).log = updates h := by
  rw [SwitchDefaultDomain_fetched E h siteID newDomain token s hid hnd hget,
    if_pos hsame.symm]
  simp [updates_append, updates, Call.isUpdate]

theorem SwitchDefaultDomain_already_primary_witness :
    (SwitchDefaultDomain (Env.holding (mkSite "a.com" ["a.com", "b.com"])) [] "site-1"
        "a.com" "tok").err
      = some ("o domínio " ++ "a.com" ++ " já é o principal") ∧
    updates (SwitchDefaultDomain (Env.holding (mkSite "a.com" ["a.com", "b.com"])) []
        "site-1" "a.com" "tok").log = updates [] :=
  SwitchDefaultDomain_already_primary (Env.holding (mkSite "a.com" ["a.com", "b.com"])) []
    "site-1" "a.com" "tok" (mkSite "a.com" ["a.com", "b.com"]) (by decide) (by decide) rfl
    rfl

/-! ## Remove alias (`Client.RemoveCustomDomain`) -/

theorem aliasIndex_not_mem (domain : String) (aliases : List String) (i : Nat)
    (hnot : domain ∉ aliases) : aliasIndex domain aliases i = -1 := by
  induction aliases generalizing i with
  | nil => rfl
  | cons d ds ih =>
    have hd : ¬ d = domain := fun e => hnot (by simp [e])
    have hds : domain ∉ ds := fun hm => hnot (List.mem_cons_of_mem _ hm)
    simp [aliasIndex, hd, ih (i + 1) hds]

theorem aliasIndex_split (domain : String) (l1 l2 : List String) (i : Nat)
    (hnot : domain ∉ l1) :
    aliasIndex domain (l1 ++ domain :: l2) i = ((i + l1.length : Nat) : Int) := by
  induction l1 generalizing i with
  | nil => simp [aliasIndex]
  | cons d ds ih =>
    have hd : ¬ d = domain := fun e => hnot (by simp [e])
    have hds : domain ∉ ds := fun hm => hnot (List.mem_cons_of_mem _ hm)
    show aliasIndex domain (d :: (ds ++ domain :: l2)) i = _
    rw [aliasIndex, if_neg hd, ih (i + 1) hds]
    simp only [List.length_cons]
    push_cast
    omega

theorem RemoveCustomDomain_absent (E : Env) (h : List Call) (siteID domain : String)
    (s : Site) (hid : siteID ≠ "") (hd : domain ≠ "")
    (hget : E.getSite h siteID = .ok (some s)) (hnot : domain ∉ s.DomainAliases) :
    RemoveCustomDomain E h siteID domain = ⟨none, h ++ [Call.getSite siteID]⟩ := by
  unfold RemoveCustomDomain
  simp [hid, hd, hget, aliasIndex_not_mem domain s.DomainAliases 0 hnot]

theorem RemoveCustomDomain_present (E : Env) (h : List Call) (siteID domain : String)
    (s : Site) (l1 l2 : List String) (hid : siteID ≠ "") (hd : domain ≠ "")
    (hget : E.getSite h siteID = .ok (some s))
    (hsplit : s.DomainAliases = l1 ++ domain :: l2) (hnot : domain ∉ l1) :
    RemoveCustomDomain E h siteID domain
      = match E.updateSite (h ++ [Call.getSite siteID])
            ⟨s.ID, s.Name, s.CustomDomain, l1 ++ l2, s.URL⟩ with
        | .error e =>
          ⟨some ("erro ao remover domínio personalizado: " ++ e),
            h ++ [Call.getSite siteID,
              Call.updateSite ⟨s.ID, s.Name, s.CustomDomain, l1 ++ l2, s.URL⟩]⟩
        | .ok _ =>
          ⟨none, h ++ [Call.getSite siteID,
              Call.updateSite ⟨s.ID, s.Name, s.CustomDomain, l1 ++ l2, s.URL⟩]⟩ := by
  have hidx : aliasIndex domain s.DomainAliases 0 = (l1.length : Int) := by
    rw [hsplit, aliasIndex_split domain l1 l2 0 hnot]
    simp
  have htake : List.take l1.length s.DomainAliases
      ++ List.drop (l1.length + 1) s.DomainAliases = l1 ++ l2 := by
    rw [hsplit]
    simp
  unfold RemoveCustomDomain
  simp only [hid, hd, hget, hidx, if_false]
  simp only [Int.toNat_ofNat, htake, ge_iff_le, Int.ofNat_zero_le, if_true]
  cases E.updateSite (h ++ [Call.getSite siteID])
      ⟨s.ID, s.Name, s.CustomDomain, l1 ++ l2, s.URL⟩ <;> simp

/-- C11: for a fetched site and a non-empty domain, `RemoveCustomDomain` returns no error
and issues no update when the domain is not an alias; when it is, the alias list splits
as `l1 ++ domain :: l2` with the domain not in `l1`, and the operation issues exactly
one `UpdateSite` whose aliases are `l1 ++ l2` (one entry fewer, the others in order) and
whose other fields, the primary domain included, are unchanged. -/
theorem RemoveCustomDomain_removes_first (E : Env) (h : List Call) (siteID domain : String)
    (s : Site) (hid : siteID ≠ "") (hd : domain ≠ "")
    (hget : E.getSite h siteID = .ok (some s)) :
    (domain ∉ s.DomainAliases →
      RemoveCustomDomain E h siteID domain = ⟨none, h ++ [Call.getSite siteID]⟩) ∧
    (domain ∈ s.DomainAliases →
      ∃ l1 l2, s.DomainAliases = l1 ++ domain :: l2 ∧ domain ∉ l1 ∧
        (l1 ++ l2).length + 1 = s.DomainAliases.length ∧
        (RemoveCustomDomain E h siteID domain).log
          = h ++ [Call.getSite siteID,
              Call.updateSite ⟨s.ID, s.Name, s.CustomDomain, l1 ++ l2, s.URL⟩] ∧
        updates (RemoveCustomDomain E h siteID domain).log
          = updates h ++ [Call.updateSite ⟨s.ID, s.Name, s.CustomDomain, l1 ++ l2, s.URL⟩]) := by
  constructor
  · exact RemoveCustomDomain_absent E h siteID domain s hid hd hget
  · intro hmem
    obtain ⟨l1, l2, hnot, hsplit, _⟩ := List.exists_erase_eq hmem
    have hlog : (RemoveCustomDomain E h siteID domain).log
        = h ++ [Call.getSite siteID,
            Call.updateSite ⟨s.ID, s.Name, s.CustomDomain, l1 ++ l2, s.URL⟩] := by
      rw [RemoveCustomDomain_present E h siteID domain s l1 l2 hid hd hget hsplit hnot]
      cases E.updateSite (h ++ [Call.getSite siteID])
        ⟨s.ID, s.Name, s.CustomDomain, l1 ++ l2, s.URL⟩ <;> rfl
    refine ⟨l1, l2, hsplit, hnot, ?_, hlog, ?_⟩
    · rw [hsplit]
      simp
      omega
    · rw [hlog]
      simp [updates_append, updates, Call.isUpdate]

theorem RemoveCustomDomain_removes_first_witness :
    ("b.com" ∉ (mkSite "a.com" ["c.com", "b.com", "d.com", "b.com"]).DomainAliases →
      RemoveCustomDomain (Env.holding (mkSite "a.com" ["c.com", "b.com", "d.com", "b.com"])) []
        "site-1" "b.com" = ⟨none, [] ++ [Call.getSite "site-1"]⟩) ∧
    ("b.com" ∈ (mkSite "a.com" ["c.com", "b.com", "d.com", "b.com"]).DomainAliases →
      ∃ l1 l2, (mkSite "a.com" ["c.com", "b.com", "d.com", "b.com"]).DomainAliases
          = l1 ++ "b.com" :: l2 ∧ "b.com" ∉ l1 ∧
        (l1 ++ l2).length + 1
          = (mkSite "a.com" ["c.com", "b.com", "d.com", "b.com"]).DomainAliases.length ∧
        (RemoveCustomDomain (Env.holding (mkSite "a.com" ["c.com", "b.com", "d.com", "b.com"]))
            [] "site-1" "b.com").log
          = [] ++ [Call.getSite "site-1",
              Call.updateSite ⟨"site-1", "demo", "a.com", l1 ++ l2,
                "https://demo.netlify.app"⟩] ∧
        updates (RemoveCustomDomain
            (Env.holding (mkSite "a.com" ["c.com", "b.com", "d.com", "b.com"]))
            [] "site-1" "b.com").log
          = updates [] ++ [Call.updateSite ⟨"site-1", "demo", "a.com", l1 ++ l2,
                "https://demo.netlify.app"⟩]) :=
  RemoveCustomDomain_removes_first
    (Env.holding (mkSite "a.com" ["c.com", "b.com", "d.com", "b.com"])) [] "site-1" "b.com"
    (mkSite "a.com" ["c.com", "b.com", "d.com", "b.com"]) (by decide) (by decide) rfl

/-! ## Demote primary (`Client.RemovePrimaryDomain`) -/

/-- C13: on a fetched site whose primary domain is empty, `RemovePrimaryDomain` returns
no error and its only remote call is the fetch: no update is issued. -/
theorem RemovePrimaryDomain_no_primary (E : Env) (h : List Call) (siteID : String)
    (s : Site) (hid : siteID ≠ "") (hget : E.getSite h siteID = .ok (some s))
    (hp : s.CustomDomain = "") :
    RemovePrimaryDomain E h siteID = ⟨none, h ++ [Call.getSite siteID]⟩ ∧
    updates (RemovePrimaryDomain E h siteID).log = updates h := by
  have hEq : RemovePrimaryDomain E h siteID = ⟨none, h ++ [Call.getSite siteID]⟩ := by
    unfold RemovePrimaryDomain
    simp [hid, hget, hp]
  rw [hEq]
  simp [updates_append, updates, Call.isUpdate]

theorem RemovePrimaryDomain_no_primary_witness :
    RemovePrimaryDomain (Env.holding (mkSite "" ["b.com"])) [] "site-1"
      = ⟨none, [] ++ [Call.getSite "site-1"]⟩ ∧
    updates (RemovePrimaryDomain (Env.holding (mkSite "" ["b.com"])) [] "site-1").log
      = updates [] :=
  RemovePrimaryDomain_no_primary (Env.holding (mkSite "" ["b.com"])) [] "site-1"
    (mkSite "" ["b.com"]) (by decide) rfl rfl

/-- C14: on a fetched site whose primary domain is non-empty, `RemovePrimaryDomain`
issues exactly one `UpdateSite`, in which the primary domain is empty and the alias list
(like every other field) is the old one: the former primary domain is not appended and
no alias is removed. -/
theorem RemovePrimaryDomain_clears_primary (E : Env) (h : List Call) (siteID : String)
    (s : Site) (hid : siteID ≠ "") (hget : E.getSite h siteID = .ok (some s))
    (hp : s.CustomDomain ≠ "") :
    (RemovePrimaryDomain E h siteID).log
      = h ++ [Call.getSite siteID,
          Call.updateSite ⟨s.ID, s.Name, "", s.DomainAliases, s.URL⟩] ∧
    updates (RemovePrimaryDomain E h siteID).log
      = updates h ++ [Call.updateSite ⟨s.ID, s.Name, "", s.DomainAliases, s.URL⟩] := by
  have hlog : (RemovePrimaryDomain E h siteID).log
      = h ++ [Call.getSite siteID,
          Call.updateSite ⟨s.ID, s.Name, "", s.DomainAliases, s.URL⟩] := by
    unfold RemovePrimaryDomain
    simp only [hid, hget, hp, if_false]
    cases E.updateSite (h ++ [Call.getSite siteID])
      ⟨s.ID, s.Name, "", s.DomainAliases, s.URL⟩ <;> simp
  refine ⟨hlog, ?_⟩
  rw [hlog]
  simp [updates_append, updates, Call.isUpdate]

theorem RemovePrimaryDomain_clears_primary_witness :
    (RemovePrimaryDomain (Env.holding (mkSite "a.com" ["b.com", "c.com"])) [] "site-1").log
      = [Call.getSite "site-1", Call.updateSite (mkSite "" ["b.com", "c.com"])] ∧
    updates (RemovePrimaryDomain (Env.holding (mkSite "a.com" ["b.com", "c.com"])) []
        "site-1").log
      = [Call.updateSite (mkSite "" ["b.com", "c.com"])] :=
  RemovePrimaryDomain_clears_primary (Env.holding (mkSite "a.com" ["b.com", "c.com"])) []
    "site-1" (mkSite "a.com" ["b.com", "c.com"]) (by decide) rfl (by decide)

/-! ## Site creation (`Client.CreateSite`) -/

/-- C17 fails on the code: for every configuration, the one remote call of `CreateSite`
submits a site whose primary domain is the Netlify subdomain and whose alias list is
that same subdomain, so the primary domain is a member of the submitted alias list. -/
theorem CreateSite_primary_in_aliases (E : Env) (h : List Call)
    (username netlifySubdomain : String) :
    (CreateSite E h username netlifySubdomain).2
      = h ++ [Call.createSite ⟨"", username, netlifySubdomain, [netlifySubdomain], ""⟩] ∧
    (createSiteParams username netlifySubdomain).CustomDomain
      ∈ (createSiteParams username netlifySubdomain).DomainAliases := by
  constructor
  · unfold CreateSite
    dsimp only
    split <;> rfl
  · simp [createSiteParams]

/-! ## Input validation -/

/-- C18: each of the five operations returns an error and leaves the log of remote calls
as it was (no fetch, no update) when the site id is empty, and the four operations that
take a domain also when the domain is empty. -/
theorem operations_validate_inputs (E : Env) (h : List Call)
    (siteID domain token : String) :
    AddCustomDomain E h "" domain = ⟨some "ID do site não pode ser vazio", h⟩ ∧
    RemoveCustomDomain E h "" domain = ⟨some "ID do site não pode ser vazio", h⟩ ∧
    SetDefaultDomain E h "" domain token = ⟨some "ID do site não pode ser vazio", h⟩ ∧
    SwitchDefaultDomain E h "" domain token = ⟨some "ID do site não pode ser vazio", h⟩ ∧
    RemovePrimaryDomain E h "" = ⟨some "ID do site não pode ser vazio", h⟩ ∧
    ((AddCustomDomain E h siteID "").err ≠ none ∧ (AddCustomDomain E h siteID "").log = h) ∧
    ((RemoveCustomDomain E h siteID "").err ≠ none
      ∧ (RemoveCustomDomain E h siteID "").log = h) ∧
    ((SetDefaultDomain E h siteID "" token).err ≠ none
      ∧ (SetDefaultDomain E h siteID "" token).log = h) ∧
    ((SwitchDefaultDomain E h siteID "" token).err ≠ none
      ∧ (SwitchDefaultDomain E h siteID "" token).log = h) := by
  refine ⟨?_, ?_, ?_, ?_, ?_, ?_, ?_, ?_, ?_⟩
  · simp [AddCustomDomain]
  · simp [RemoveCustomDomain]
  · simp [SetDefaultDomain]
  · simp [SwitchDefaultDomain]
  · simp [RemovePrimaryDomain]
  · by_cases hid : siteID = "" <;> simp [AddCustomDomain, hid]
  · by_cases hid : siteID = "" <;> simp [RemoveCustomDomain, hid]
  · by_cases hid : siteID = "" <;> simp [SetDefaultDomain, hid]
  · by_cases hid : siteID = "" <;> simp [SwitchDefaultDomain, hid]

/-! ## The update an operation issues for a fetched site -/

theorem updates_getSite (h : List Call) (siteID : String) :
    updates (h ++ [Call.getSite siteID]) = updates h := by
  simp [updates_append, updates, Call.isUpdate]

theorem sendPatch_updates (E : Env) (h : List Call) (siteID : String) (payload : Payload) :
    updates (sendPatch E h siteID payload).log = updates h ∨
    updates (sendPatch E h siteID payload).log
      = updates h ++ [Call.patchSite (siteURL siteID) payload] := by
  cases hreq : E.newRequest (siteURL siteID) with
  | some e =>
    left
    unfold sendPatch
    simp [hreq]
  | none =>
    right
    rw [sendPatch_log _ _ _ _ hreq]
    simp [updates_append, updates, Call.isUpdate]

theorem SetDefaultDomain_transition (E : Env) (h : List Call)
    (siteID domain token : String) (s : Site)
    (hget : E.getSite h siteID = .ok (some s)) :
    updates (SetDefaultDomain E h siteID domain token).log = updates h ∨
    ∃ c p l, updates (SetDefaultDomain E h siteID domain token).log = updates h ++ [c] ∧
      c.domainState = some (p, l) ∧ Transition s p l := by
  by_cases hid : siteID = ""
  · left
    simp [SetDefaultDomain, hid]
  by_cases hd : domain = ""
  · left
    simp [SetDefaultDomain, hid, hd]
  rw [SetDefaultDomain_fetched E h siteID domain token s hid hd hget]
  rcases sendPatch_updates E (h ++ [Call.getSite siteID]) siteID
      ⟨s.Name, domain, dropAlias domain s.DomainAliases, token⟩ with hu | hu
  · left
    rw [hu, updates_getSite]
  · right
    refine ⟨Call.patchSite (siteURL siteID)
      ⟨s.Name, domain, dropAlias domain s.DomainAliases, token⟩,
      domain, dropAlias domain s.DomainAliases, ?_, rfl, ?_⟩
    · rw [hu, updates_getSite]
    · right; right; left
      exact dropAlias_eq_filter _ _

theorem AddCustomDomain_transition (E : Env) (h : List Call) (siteID domain : String)
    (s : Site) (hget : E.getSite h siteID = .ok (some s))
    (hget2 : E.getSite (h ++ [Call.getSite siteID]) siteID = .ok (some s)) :
    updates (AddCustomDomain E h siteID domain).log = updates h ∨
    ∃ c p l, updates (AddCustomDomain E h siteID domain).log = updates h ++ [c] ∧
      c.domainState = some (p, l) ∧ Transition s p l := by
  by_cases hid : siteID = ""
  · left
    simp [AddCustomDomain, hid]
  by_cases hd : domain = ""
  · left
    simp [AddCustomDomain, hid, hd]
  by_cases hp : s.CustomDomain = ""
  · have hEq : (AddCustomDomain E h siteID domain).log
        = (SetDefaultDomain E (h ++ [Call.getSite siteID]) siteID domain "12345abc").log := by
      unfold AddCustomDomain
      simp only [hid, hd, hget, hp, if_false, if_true]
      cases (SetDefaultDomain E (h ++ [Call.getSite siteID]) siteID domain "12345abc").err <;>
        rfl
    rw [hEq, ← updates_getSite h siteID]
    exact SetDefaultDomain_transition E _ siteID domain "12345abc" s hget2
  · by_cases hdup : domain = s.CustomDomain ∨ domain ∈ s.DomainAliases
    · left
      rw [AddCustomDomain_dup E h siteID domain s hid hd hget hp hdup]
      exact updates_getSite h siteID
    · obtain ⟨hne, hnot⟩ := not_or.1 hdup
      right
      refine ⟨Call.updateSite ⟨s.ID, s.Name, s.CustomDomain, s.DomainAliases ++ [domain], s.URL⟩,
        s.CustomDomain, s.DomainAliases ++ [domain], ?_, rfl, ?_⟩
      · rw [(AddCustomDomain_fresh E h siteID domain s hid hd hget hp hne hnot).1]
        simp [updates_append, updates, Call.isUpdate]
      · left
        exact ⟨rfl, domain, hne, hnot, rfl⟩

theorem RemoveCustomDomain_transition (E : Env) (h : List Call) (siteID domain : String)
    (s : Site) (hget : E.getSite h siteID = .ok (some s)) :
    updates (RemoveCustomDomain E h siteID domain).log = updates h ∨
    ∃ c p l, updates (RemoveCustomDomain E h siteID domain).log = updates h ++ [c] ∧
      c.domainState = some (p, l) ∧ Transition s p l := by
  by_cases hid : siteID = ""
  · left
    simp [RemoveCustomDomain, hid]
  by_cases hd : domain = ""
  · left
    simp [RemoveCustomDomain, hid, hd]
  by_cases hmem : domain ∈ s.DomainAliases
  · obtain ⟨l1, l2, hnot, hsplit, herase⟩ := List.exists_erase_eq hmem
    right
    refine ⟨Call.updateSite ⟨s.ID, s.Name, s.CustomDomain, l1 ++ l2, s.URL⟩,
      s.CustomDomain, l1 ++ l2, ?_, rfl, ?_⟩
    · rw [RemoveCustomDomain_present E h siteID domain s l1 l2 hid hd hget hsplit hnot]
      cases E.updateSite (h ++ [Call.getSite siteID])
        ⟨s.ID, s.Name, s.CustomDomain, l1 ++ l2, s.URL⟩ <;>
        simp [updates_append, updates, Call.isUpdate]
    · right; left
      exact ⟨rfl, domain, herase.symm⟩
  · left
    rw [RemoveCustomDomain_absent E h siteID domain s hid hd hget hmem]
    exact updates_getSite h siteID

theorem SwitchDefaultDomain_transition (E : Env) (h : List Call)
    (siteID newDomain token : String) (s : Site)
    (hget : E.getSite h siteID = .ok (some s)) :
    updates (SwitchDefaultDomain E h siteID newDomain token).log = updates h ∨
    ∃ c p l, updates (SwitchDefaultDomain E h siteID newDomain token).log = updates h ++ [c] ∧
      c.domainState = some (p, l) ∧ Transition s p l := by
  by_cases hid : siteID = ""
  · left
    simp [SwitchDefaultDomain, hid]
  by_cases hnd : newDomain = ""
  · left
    simp [SwitchDefaultDomain, hid, hnd]
  rw [SwitchDefaultDomain_fetched E h siteID newDomain token s hid hnd hget]
  by_cases hc : s.CustomDomain = newDomain
  · left
    rw [if_pos hc]
    exact updates_getSite h siteID
  rw [if_neg hc]
  cases hl : aliasListed newDomain s.DomainAliases with
  | false =>
    left
    simp only [if_true]
    exact updates_getSite h siteID
  | true =>
    simp only [Bool.true_eq_false, if_false]
    have hnew : (if s.CustomDomain ≠ "" then
          if aliasListed s.CustomDomain (s.DomainAliases.filter (fun a => a ≠ newDomain))
          then s.DomainAliases.filter (fun a => a ≠ newDomain)
          else s.DomainAliases.filter (fun a => a ≠ newDomain) ++ [s.CustomDomain]
        else s.DomainAliases.filter (fun a => a ≠ newDomain))
        = s.DomainAliases.filter (fun a => a ≠ newDomain) ++
          (if s.CustomDomain ≠ "" ∧
              s.CustomDomain ∉ s.DomainAliases.filter (fun a => a ≠ newDomain)
            then [s.CustomDomain] else []) := by
      by_cases hp : s.CustomDomain = ""
      · simp [hp]
      · cases hx : aliasListed s.CustomDomain
            (s.DomainAliases.filter (fun a => a ≠ newDomain)) with
        | true =>
          have hin := (aliasListed_iff _ _).1 hx
          rw [if_pos hp, if_pos rfl, if_neg (fun hc => hc.2 hin)]
          simp
        | false =>
          have hnin : s.CustomDomain ∉ s.DomainAliases.filter (fun a => a ≠ newDomain) := by
            intro hin
            rw [(aliasListed_iff _ _).2 hin] at hx
            exact Bool.noConfusion hx
          rw [if_pos hp, if_neg Bool.false_ne_true, if_pos ⟨hp, hnin⟩]
    rw [hnew]
    rcases sendPatch_updates E (h ++ [Call.getSite siteID]) siteID
        ⟨s.Name, newDomain, s.DomainAliases.filter (fun a => a ≠ newDomain) ++
          (if s.CustomDomain ≠ "" ∧
              s.CustomDomain ∉ s.DomainAliases.filter (fun a => a ≠ newDomain)
            then [s.CustomDomain] else []), token⟩ with hu | hu
    · left
      rw [hu, updates_getSite]
    · right
      refine ⟨Call.patchSite (siteURL siteID)
        ⟨s.Name, newDomain, s.DomainAliases.filter (fun a => a ≠ newDomain) ++
          (if s.CustomDomain ≠ "" ∧
              s.CustomDomain ∉ s.DomainAliases.filter (fun a => a ≠ newDomain)
            then [s.CustomDomain] else []), token⟩,
        newDomain, s.DomainAliases.filter (fun a => a ≠ newDomain) ++
          (if s.CustomDomain ≠ "" ∧
              s.CustomDomain ∉ s.DomainAliases.filter (fun a => a ≠ newDomain)
            then [s.CustomDomain] else []), ?_, rfl, ?_⟩
      · rw [hu, updates_getSite]
      · right; right; right; left
        exact ⟨fun e => hc e.symm, rfl⟩

theorem RemovePrimaryDomain_transition (E : Env) (h : List Call) (siteID : String)
    (s : Site) (hget : E.getSite h siteID = .ok (some s)) :
    updates (RemovePrimaryDomain E h siteID).log = updates h ∨
    ∃ c p l, updates (RemovePrimaryDomain E h siteID).log = updates h ++ [c] ∧
      c.domainState = some (p, l) ∧ Transition s p l := by
  by_cases hid : siteID = ""
  · left
    simp [RemovePrimaryDomain, hid]
  by_cases hp : s.CustomDomain = ""
  · left
    unfold RemovePrimaryDomain
    simp [hid, hget, hp, updates_getSite]
  · right
    refine ⟨Call.updateSite ⟨s.ID, s.Name, "", s.DomainAliases, s.URL⟩, "", s.DomainAliases,
      ?_, rfl, ?_⟩
    · unfold RemovePrimaryDomain
      simp only [hid, hget, hp, if_false]
      cases E.updateSite (h ++ [Call.getSite siteID])
        ⟨s.ID, s.Name, "", s.DomainAliases, s.URL⟩ <;>
        simp [updates_append, updates, Call.isUpdate]
    · right; right; right; right
      exact ⟨rfl, rfl⟩

theorem Op.run_transition (E : Env) (h : List Call) (siteID : String) (op : Op) (s : Site)
    (hget : E.getSite h siteID = .ok (some s))
    (hget2 : E.getSite (h ++ [Call.getSite siteID]) siteID = .ok (some s)) :
    updates (op.run E h siteID).log = updates h ∨
    ∃ c p l, updates (op.run E h siteID).log = updates h ++ [c] ∧
      c.domainState = some (p, l) ∧ Transition s p l := by
  cases op with
  | addCustomDomain domain => exact AddCustomDomain_transition E h siteID domain s hget hget2
  | removeCustomDomain domain => exact RemoveCustomDomain_transition E h siteID domain s hget
  | setDefaultDomain domain token =>
    exact SetDefaultDomain_transition E h siteID domain token s hget
  | switchDefaultDomain newDomain token =>
    exact SwitchDefaultDomain_transition E h siteID newDomain token s hget
  | removePrimaryDomain => exact RemovePrimaryDomain_transition E h siteID s hget

theorem Transition_nodup (s : Site) (p : String) (l : List String)
    (ht : Transition s p l) (hnd : s.DomainAliases.Nodup) : l.Nodup := by
  rcases ht with ⟨_, d, _, hnot, hl⟩ | ⟨_, d, hl⟩ | hl | ⟨_, hl⟩ | ⟨_, hl⟩
  · rw [hl]
    exact List.nodup_append.2 ⟨hnd, List.nodup_singleton d, by simpa using hnot⟩
  · rw [hl]
    exact hnd.erase d
  · rw [hl]
    exact hnd.filter _
  · rw [hl]
    by_cases hc : s.CustomDomain ≠ "" ∧
        s.CustomDomain ∉ s.DomainAliases.filter (fun a => a ≠ p)
    · rw [if_pos hc]
      exact List.nodup_append.2
        ⟨hnd.filter _, List.nodup_singleton _, by simpa using hc.2⟩
    · rw [if_neg hc, List.append_nil]
      exact hnd.filter _
  · rw [hl]
    exact hnd

theorem Transition_primary_not_alias (s : Site) (p : String) (l : List String)
    (ht : Transition s p l)
    (hinv : s.CustomDomain ≠ "" → s.CustomDomain ∉ s.DomainAliases) :
    p ≠ "" → p ∉ l := by
  intro hp
  rcases ht with ⟨hps, d, hne, _, hl⟩ | ⟨hps, d, hl⟩ | hl | ⟨hne, hl⟩ | ⟨hps, _⟩
  · subst hps
    rw [hl]
    intro hm
    rcases List.mem_append.1 hm with hm | hm
    · exact hinv hp hm
    · exact hne (List.mem_singleton.1 hm).symm
  · subst hps
    rw [hl]
    intro hm
    exact hinv hp (List.mem_of_mem_erase hm)
  · rw [hl]
    simp
  · rw [hl]
    intro hm
    rcases List.mem_append.1 hm with hm | hm
    · simp at hm
    · by_cases hc : s.CustomDomain ≠ "" ∧
          s.CustomDomain ∉ s.DomainAliases.filter (fun a => a ≠ p)
      · rw [if_pos hc] at hm
        exact hne (List.mem_singleton.1 hm)
      · rw [if_neg hc] at hm
        simp at hm
  · exact absurd hps hp

/-! ## The storing provider -/

theorem stored_append (s0 : Site) (l1 l2 : List Call) :
    stored s0 (l1 ++ l2) = stored (stored s0 l1) l2 := by
  simp [stored, List.foldl_append]

theorem stored_updates (s0 : Site) (log : List Call) :
    stored s0 log = stored s0 (updates log) := by
  induction log generalizing s0 with
  | nil => rfl
  | cons c cs ih =>
    cases c with
    | getSite siteID =>
      show stored (applyCall s0 (Call.getSite siteID)) cs = _
      rw [ih]
      rfl
    | updateSite site =>
      show stored (applyCall s0 (Call.updateSite site)) cs
        = stored (applyCall s0 (Call.updateSite site)) (updates cs)
      rw [ih]
    | patchSite url payload =>
      show stored (applyCall s0 (Call.patchSite url payload)) cs
        = stored (applyCall s0 (Call.patchSite url payload)) (updates cs)
      rw [ih]
    | listSites =>
      show stored (applyCall s0 Call.listSites) cs = _
      rw [ih]
      rfl
    | createSite site =>
      show stored (applyCall s0 (Call.createSite site)) cs = _
      rw [ih]
      rfl
    | deleteSite siteID =>
      show stored (applyCall s0 (Call.deleteSite siteID)) cs = _
      rw [ih]
      rfl
    | deploySite siteID source title =>
      show stored (applyCall s0 (Call.deploySite siteID source title)) cs = _
      rw [ih]
      rfl
    | getDeploy deployID =>
      show stored (applyCall s0 (Call.getDeploy deployID)) cs = _
      rw [ih]
      rfl

theorem applyCall_domainState (cur : Site) (c : Call) (p : String) (l : List String)
    (hc : c.domainState = some (p, l)) :
    (applyCall cur c).CustomDomain = p ∧ (applyCall cur c).DomainAliases = l := by
  cases c with
  | getSite siteID => simp [Call.domainState] at hc
  | updateSite site =>
    simp only [Call.domainState, Option.some.injEq, Prod.mk.injEq] at hc
    exact ⟨hc.1, hc.2⟩
  | patchSite url payload =>
    simp only [Call.domainState, Option.some.injEq, Prod.mk.injEq] at hc
    exact ⟨hc.1, hc.2⟩
  | listSites => simp [Call.domainState] at hc
  | createSite site => simp [Call.domainState] at hc
  | deleteSite siteID => simp [Call.domainState] at hc
  | deploySite siteID source title => simp [Call.domainState] at hc
  | getDeploy deployID => simp [Call.domainState] at hc

theorem storing_getSite_again (s0 : Site) (h : List Call) (siteID : String) :
    (Env.storing s0).getSite (h ++ [Call.getSite siteID]) siteID
      = .ok (some (stored s0 h)) := by
  show Except.ok (some (stored s0 (h ++ [Call.getSite siteID]))) = _
  rw [stored_append]
  rfl

theorem storing_step_nodup (s0 : Site) (h : List Call) (siteID : String) (op : Op)
    (hnd : (stored s0 h).DomainAliases.Nodup) :
    (stored s0 (op.run (Env.storing s0) h siteID).log).DomainAliases.Nodup := by
  rcases Op.run_transition (Env.storing s0) h siteID op (stored s0 h) rfl
      (storing_getSite_again s0 h siteID) with hu | ⟨c, p, l, hu, hc, ht⟩
  · rw [stored_updates, hu, ← stored_updates]
    exact hnd
  · rw [stored_updates, hu, stored_append, ← stored_updates]
    show (applyCall (stored s0 h) c).DomainAliases.Nodup
    rw [(applyCall_domainState (stored s0 h) c p l hc).2]
    exact Transition_nodup (stored s0 h) p l ht hnd


/-! ## Idempotence of remove alias and the invariants of the alias list -/

/-- C12, as stated, fails on a storing provider: when the alias list holds "a.com" twice,
the second `RemoveCustomDomain` issues another update and leaves a different state; and
for the empty domain the first call already returns an error. -/
theorem RemoveCustomDomain_twice_not_idempotent :
    (RemoveCustomDomain (Env.storing (mkSite "" ["a.com", "a.com"])) [] "site-1" "a.com").err
      = none ∧
    updates (RemoveCustomDomain (Env.storing (mkSite "" ["a.com", "a.com"]))
        (RemoveCustomDomain (Env.storing (mkSite "" ["a.com", "a.com"])) [] "site-1"
          "a.com").log "site-1" "a.com").log
      = [Call.updateSite (mkSite "" ["a.com"]), Call.updateSite (mkSite "" [])] ∧
    stored (mkSite "" ["a.com", "a.com"])
        (RemoveCustomDomain (Env.storing (mkSite "" ["a.com", "a.com"])) [] "site-1"
          "a.com").log = mkSite "" ["a.com"] ∧
    stored (mkSite "" ["a.com", "a.com"])
        (RemoveCustomDomain (Env.storing (mkSite "" ["a.com", "a.com"]))
          (RemoveCustomDomain (Env.storing (mkSite "" ["a.com", "a.com"])) [] "site-1"
            "a.com").log "site-1" "a.com").log = mkSite "" [] ∧
    RemoveCustomDomain (Env.storing (mkSite "" ["a.com"])) [] "site-1" ""
      = ⟨some "domínio não pode ser vazio", []⟩ := by
  decide

/-- C12 (amended): on a provider that stores what is submitted, for a site whose alias
list holds the non-empty domain at most once (in particular a site without duplicate
aliases), two `RemoveCustomDomain` calls in a row both return no error, the second
issues no update, and the stored site after the second call is the stored site after
the first. -/
theorem RemoveCustomDomain_twice (s0 : Site) (siteID domain : String)
    (hid : siteID ≠ "") (hd : domain ≠ "")
    (hcount : s0.DomainAliases.count domain ≤ 1) :
    (RemoveCustomDomain (Env.storing s0) [] siteID domain).err = none ∧
    (RemoveCustomDomain (Env.storing s0)
      (RemoveCustomDomain (Env.storing s0) [] siteID domain).log siteID domain).err = none ∧
    updates (RemoveCustomDomain (Env.storing s0)
        (RemoveCustomDomain (Env.storing s0) [] siteID domain).log siteID domain).log
      = updates (RemoveCustomDomain (Env.storing s0) [] siteID domain).log ∧
    stored s0 (RemoveCustomDomain (Env.storing s0)
        (RemoveCustomDomain (Env.storing s0) [] siteID domain).log siteID domain).log
      = stored s0 (RemoveCustomDomain (Env.storing s0) [] siteID domain).log := by
  by_cases hmem : domain ∈ s0.DomainAliases
  · obtain ⟨l1, l2, hnot1, hsplit, _⟩ := List.exists_erase_eq hmem
    have hnot2 : domain ∉ l2 := by
      rw [hsplit] at hcount
      simp only [List.count_append, List.count_cons_self] at hcount
      exact List.count_eq_zero.1 (by omega)
    have hnot : domain ∉ l1 ++ l2 := by
      simp [hnot1, hnot2]
    have h1 : RemoveCustomDomain (Env.storing s0) [] siteID domain
        = ⟨none, [Call.getSite siteID,
            Call.updateSite ⟨s0.ID, s0.Name, s0.CustomDomain, l1 ++ l2, s0.URL⟩]⟩ := by
      rw [RemoveCustomDomain_present (Env.storing s0) [] siteID domain s0 l1 l2 hid hd rfl
        hsplit hnot1]
      rfl
    have h2 := RemoveCustomDomain_absent (Env.storing s0)
      [Call.getSite siteID, Call.updateSite ⟨s0.ID, s0.Name, s0.CustomDomain, l1 ++ l2, s0.URL⟩]
      siteID domain ⟨s0.ID, s0.Name, s0.CustomDomain, l1 ++ l2, s0.URL⟩ hid hd rfl hnot
    rw [h1]
    simp only [h2]
    refine ⟨trivial, trivial, ?_, ?_⟩
    · simp [updates, Call.isUpdate]
    · rw [stored_append]
      rfl
  · have h1 := RemoveCustomDomain_absent (Env.storing s0) [] siteID domain s0 hid hd rfl hmem
    have h2 := RemoveCustomDomain_absent (Env.storing s0) [Call.getSite siteID] siteID domain
      s0 hid hd rfl hmem
    rw [h1]
    simp only [List.nil_append, h2]
    refine ⟨trivial, trivial, ?_, ?_⟩
    · simp [updates, Call.isUpdate]
    · rfl

theorem RemoveCustomDomain_twice_witness :
    (RemoveCustomDomain (Env.storing (mkSite "a.com" ["b.com", "c.com"])) [] "site-1"
      "b.com").err = none ∧
    (RemoveCustomDomain (Env.storing (mkSite "a.com" ["b.com", "c.com"]))
      (RemoveCustomDomain (Env.storing (mkSite "a.com" ["b.com", "c.com"])) [] "site-1"
        "b.com").log "site-1" "b.com").err = none ∧
    updates (RemoveCustomDomain (Env.storing (mkSite "a.com" ["b.com", "c.com"]))
        (RemoveCustomDomain (Env.storing (mkSite "a.com" ["b.com", "c.com"])) [] "site-1"
          "b.com").log "site-1" "b.com").log
      = updates (RemoveCustomDomain (Env.storing (mkSite "a.com" ["b.com", "c.com"])) []
          "site-1" "b.com").log ∧
    stored (mkSite "a.com" ["b.com", "c.com"])
        (RemoveCustomDomain (Env.storing (mkSite "a.com" ["b.com", "c.com"]))
          (RemoveCustomDomain (Env.storing (mkSite "a.com" ["b.com", "c.com"])) [] "site-1"
            "b.com").log "site-1" "b.com").log
      = stored (mkSite "a.com" ["b.com", "c.com"])
          (RemoveCustomDomain (Env.storing (mkSite "a.com" ["b.com", "c.com"])) [] "site-1"
            "b.com").log :=
  RemoveCustomDomain_twice (mkSite "a.com" ["b.com", "c.com"]) "site-1" "b.com"
    (by decide) (by decide) (by decide)

/-- C15: on a provider that stores what is submitted and starts with a site whose alias
list has no duplicates, after any finite sequence of `AddCustomDomain`,
`RemoveCustomDomain`, `SetDefaultDomain`, `SwitchDefaultDomain` and
`RemovePrimaryDomain` calls, with any arguments, the alias list of the stored site has
no duplicates. -/
theorem aliases_nodup_after_operations (s0 : Site) (siteID : String) (ops : List Op)
    (hnd : s0.DomainAliases.Nodup) :
    (stored s0 (runOps (Env.storing s0) siteID ops [])).DomainAliases.Nodup := by
  have key : ∀ (todo : List Op) (h : List Call), (stored s0 h).DomainAliases.Nodup →
      (stored s0 (runOps (Env.storing s0) siteID todo h)).DomainAliases.Nodup := by
    intro todo
    induction todo with
    | nil =>
      intro h hh
      exact hh
    | cons op rest ih =>
      intro h hh
      exact ih _ (storing_step_nodup s0 h siteID op hh)
  exact key ops [] hnd

theorem aliases_nodup_after_operations_witness :
    (stored (mkSite "a.com" ["b.com", "c.com"])
      (runOps (Env.storing (mkSite "a.com" ["b.com", "c.com"])) "site-1"
        [Op.switchDefaultDomain "b.com" "tok", Op.addCustomDomain "d.com",
          Op.removeCustomDomain "c.com", Op.removePrimaryDomain,
          Op.addCustomDomain "d.com", Op.setDefaultDomain "a.com" "tok"] [])).DomainAliases.Nodup :=
  aliases_nodup_after_operations (mkSite "a.com" ["b.com", "c.com"]) "site-1"
    [Op.switchDefaultDomain "b.com" "tok", Op.addCustomDomain "d.com",
      Op.removeCustomDomain "c.com", Op.removePrimaryDomain,
      Op.addCustomDomain "d.com", Op.setDefaultDomain "a.com" "tok"] (by decide)

/-- C16: for a fetched site whose primary domain, if non-empty, is not among its aliases,
each of the five operations, with any arguments, issues no update or exactly one, and
the primary domain of the submitted state, if non-empty, is not in the submitted alias
list. -/
theorem primary_not_alias_preserved (E : Env) (h : List Call) (siteID : String) (op : Op)
    (s : Site) (hget : E.getSite h siteID = .ok (some s))
    (hget2 : E.getSite (h ++ [Call.getSite siteID]) siteID = .ok (some s))
    (hinv : s.CustomDomain ≠ "" → s.CustomDomain ∉ s.DomainAliases) :
    updates (op.run E h siteID).log = updates h ∨
    ∃ c p l, updates (op.run E h siteID).log = updates h ++ [c] ∧
      c.domainState = some (p, l) ∧ (p ≠ "" → p ∉ l) := by
  rcases Op.run_transition E h siteID op s hget hget2 with hu | ⟨c, p, l, hu, hc, ht⟩
  · exact Or.inl hu
  · exact Or.inr ⟨c, p, l, hu, hc, Transition_primary_not_alias s p l ht hinv⟩

theorem primary_not_alias_preserved_witness :
    updates ((Op.switchDefaultDomain "b.com" "tok").run
        (Env.holding (mkSite "a.com" ["b.com"])) [] "site-1").log = updates [] ∨
    ∃ c p l, updates ((Op.switchDefaultDomain "b.com" "tok").run
        (Env.holding (mkSite "a.com" ["b.com"])) [] "site-1").log = updates [] ++ [c] ∧
      c.domainState = some (p, l) ∧ (p ≠ "" → p ∉ l) :=
  primary_not_alias_preserved (Env.holding (mkSite "a.com" ["b.com"])) [] "site-1"
    (Op.switchDefaultDomain "b.com" "tok") (mkSite "a.com" ["b.com"]) rfl rfl (by decide)

/-! ## The handler `handleAddDomain` -/

theorem lookupSite_eq_find (siteID : String) (sites : List Site) :
    lookupSite siteID sites
      = match sites.find? (fun x => x.ID = siteID) with
        | some s => (true, s.CustomDomain)
        | none => (false, "") := by
  induction sites with
  | nil => rfl
  | cons site rest ih =>
    by_cases hs : site.ID = siteID
    · simp [lookupSite, List.find?_cons, hs]
    · simp [lookupSite, List.find?_cons, hs, ih]

/-- C19: for a bound request with non-empty site id and domain, once the client is
created and the sites are listed, if the first listed site with the requested id has a
non-empty primary domain, `handleAddDomain` answers 400 with `success=false` and its
only remote call is the listing: `AddCustomDomain` is not invoked and no update is
issued. -/
theorem handleAddDomain_primary_set (netlifyToken : String) (E : Env) (h : List Call)
    (req : DomainRequest) (sites : List Site) (s : Site)
    (hid : req.SiteID ≠ "") (hd : req.Domain ≠ "")
    (htok : NewClient netlifyToken = NewClientResult.client)
    (hlist : E.listSites h = .ok sites)
    (hfind : sites.find? (fun x => x.ID = req.SiteID) = some s)
    (hp : s.CustomDomain ≠ "") :
    handleAddDomain netlifyToken E h (.ok req)
      = ⟨Reply.json 400 ⟨false, "O site já tem um domínio principal configurado: "
          ++ s.CustomDomain ++ ". Remova o domínio principal antes de adicionar um alias.",
          req.SiteID, req.Domain⟩, h ++ [Call.listSites]⟩ ∧
    updates (handleAddDomain netlifyToken E h (.ok req)).log = updates h := by
  have hEq : handleAddDomain netlifyToken E h (.ok req)
      = ⟨Reply.json 400 ⟨false, "O site já tem um domínio principal configurado: "
          ++ s.CustomDomain ++ ". Remova o domínio principal antes de adicionar um alias.",
          req.SiteID, req.Domain⟩, h ++ [Call.listSites]⟩ := by
    unfold handleAddDomain
    simp [hid, hd, htok, ListSites, hlist, lookupSite_eq_find, hfind, hp]
  rw [hEq]
  exact ⟨rfl, by simp [updates_append, updates, Call.isUpdate]⟩

theorem handleAddDomain_primary_set_witness :
    handleAddDomain "0123456789abcdef" (Env.holding (mkSite "a.com" ["b.com"])) []
        (.ok ⟨"site-1", "c.com"⟩)
      = ⟨Reply.json 400 ⟨false, "O site já tem um domínio principal configurado: "
          ++ "a.com" ++ ". Remova o domínio principal antes de adicionar um alias.",
          "site-1", "c.com"⟩, [Call.listSites]⟩ ∧
    updates (handleAddDomain "0123456789abcdef" (Env.holding (mkSite "a.com" ["b.com"])) []
        (.ok ⟨"site-1", "c.com"⟩)).log = updates [] :=
  handleAddDomain_primary_set "0123456789abcdef" (Env.holding (mkSite "a.com" ["b.com"])) []
    ⟨"site-1", "c.com"⟩ [mkSite "a.com" ["b.com"]] (mkSite "a.com" ["b.com"])
    (by decide) (by decide) (by decide) rfl (by decide) (by decide)

/-- C20 fails on the code: the listed site has no primary domain, `AddCustomDomain`
promotes the domain, the provider answers the PATCH with status 500, and the error text
"erro ao definir domínio principal: status 500, ..." contains "domínio principal", so
`handleAddDomain` answers 400 with the already-has-a-primary message instead of 500. -/
theorem handleAddDomain_provider_failure_answers_400 :
    (AddCustomDomain (Env.answeringPatch (mkSite "" []) 500 "Internal Server Error")
        [Call.listSites] "site-1" "a.com").err
      = some ("erro ao definir domínio como principal: "
          ++ "erro ao definir domínio principal: status 500, resposta: Internal Server Error") ∧
    handleAddDomain "0123456789abcdef"
        (Env.answeringPatch (mkSite "" []) 500 "Internal Server Error") []
        (.ok ⟨"site-1", "a.com"⟩)
      = ⟨Reply.json 400 ⟨false, "O site já tem um domínio principal configurado. "
          ++ "Remova o domínio principal antes de adicionar um alias.", "site-1", "a.com"⟩,
        [Call.listSites, Call.getSite "site-1", Call.getSite "site-1",
          Call.patchSite (siteURL "site-1") ⟨"demo", "a.com", [], "12345abc"⟩]⟩ := by
  decide

/-! ## Site resolution by subdomain (`Client.VerifySite`) -/

theorem siteMatches_iff (subdomain : String) (site : Site) :
    siteMatches subdomain site = true ↔
      (site.CustomDomain = subdomain ∨ subdomain ∈ site.DomainAliases
        ∨ site.Name ++ ".netlify.app" = subdomain) := by
  unfold siteMatches
  by_cases h1 : site.CustomDomain = subdomain
  · simp [h1]
  · cases h2 : aliasListed subdomain site.DomainAliases with
    | true =>
      have hm := (aliasListed_iff _ _).1 h2
      simp [h1, hm]
    | false =>
      have hm : subdomain ∉ site.DomainAliases := by
        intro hin
        rw [(aliasListed_iff _ _).2 hin] at h2
        exact Bool.noConfusion h2
      by_cases h3 : site.Name ++ ".netlify.app" = subdomain
      · simp [h1, h3]
      · simp [h1, hm, h3]

theorem verifyLoop_first (subdomain : String) (sites : List Site) :
    (verifyLoop subdomain sites = none ∧ ∀ x ∈ sites, siteMatches subdomain x = false) ∨
    ∃ s l1 l2, verifyLoop subdomain sites = some s ∧ sites = l1 ++ s :: l2 ∧
      siteMatches subdomain s = true ∧ ∀ x ∈ l1, siteMatches subdomain x = false := by
  induction sites with
  | nil =>
    left
    exact ⟨rfl, by simp⟩
  | cons site rest ih =>
    cases hm : siteMatches subdomain site with
    | true =>
      right
      exact ⟨site, [], rest, by simp [verifyLoop, hm], rfl, hm, by simp⟩
    | false =>
      rcases ih with ⟨hnone, hall⟩ | ⟨s, l1, l2, hs, hsplit, hmatch, hbefore⟩
      · left
        refine ⟨by simp [verifyLoop, hm, hnone], ?_⟩
        intro x hx
        rcases List.mem_cons.1 hx with hx | hx
        · rw [hx]
          exact hm
        · exact hall x hx
      · right
        refine ⟨s, site :: l1, l2, by simp [verifyLoop, hm, hs], by simp [hsplit], hmatch, ?_⟩
        intro x hx
        rcases List.mem_cons.1 hx with hx | hx
        · rw [hx]
          exact hm
        · exact hbefore x hx

/-- C21: when the listing succeeds, `VerifySite` returns without error; it reports a site
exactly when some listed site has the subdomain as custom domain, as an alias, or as
`name + ".netlify.app"`, and the site it reports is the first such site of the list
(no site before it matches); its only remote call is the listing. -/
theorem VerifySite_first_match (E : Env) (h : List Call) (subdomain : String)
    (sites : List Site) (hlist : E.listSites h = .ok sites) :
    (VerifySite E h subdomain).2 = h ++ [Call.listSites] ∧
    (((VerifySite E h subdomain).1 = .ok none ∧
        ¬ ∃ x ∈ sites, x.CustomDomain = subdomain ∨ subdomain ∈ x.DomainAliases
          ∨ x.Name ++ ".netlify.app" = subdomain) ∨
      ∃ s l1 l2, (VerifySite E h subdomain).1 = .ok (some s) ∧ sites = l1 ++ s :: l2 ∧
        (s.CustomDomain = subdomain ∨ subdomain ∈ s.DomainAliases
          ∨ s.Name ++ ".netlify.app" = subdomain) ∧
        ∀ x ∈ l1, ¬ (x.CustomDomain = subdomain ∨ subdomain ∈ x.DomainAliases
          ∨ x.Name ++ ".netlify.app" = subdomain)) := by
  have hEq : VerifySite E h subdomain
      = (.ok (verifyLoop subdomain sites), h ++ [Call.listSites]) := by
    simp [VerifySite, ListSites, hlist]
  rw [hEq]
  refine ⟨rfl, ?_⟩
  rcases verifyLoop_first subdomain sites with ⟨hnone, hall⟩ | ⟨s, l1, l2, hs, hsplit, hm, hbefore⟩
  · left
    refine ⟨by rw [hnone], ?_⟩
    rintro ⟨x, hx, hmx⟩
    have := hall x hx
    rw [(siteMatches_iff subdomain x).2 hmx] at this
    exact Bool.noConfusion this
  · right
    refine ⟨s, l1, l2, by rw [hs], hsplit, (siteMatches_iff subdomain s).1 hm, ?_⟩
    intro x hx hmx
    have := hbefore x hx
    rw [(siteMatches_iff subdomain x).2 hmx] at this
    exact Bool.noConfusion this

theorem VerifySite_first_match_witness :
    (VerifySite (Env.holding (mkSite "a.com" ["b.com"])) [] "b.com").2
      = [] ++ [Call.listSites] ∧
    (((VerifySite (Env.holding (mkSite "a.com" ["b.com"])) [] "b.com").1 = .ok none ∧
        ¬ ∃ x ∈ [mkSite "a.com" ["b.com"]], x.CustomDomain = "b.com" ∨ "b.com" ∈ x.DomainAliases
          ∨ x.Name ++ ".netlify.app" = "b.com") ∨
      ∃ s l1 l2, (VerifySite (Env.holding (mkSite "a.com" ["b.com"])) [] "b.com").1
          = .ok (some s) ∧ [mkSite "a.com" ["b.com"]] = l1 ++ s :: l2 ∧
        (s.CustomDomain = "b.com" ∨ "b.com" ∈ s.DomainAliases
          ∨ s.Name ++ ".netlify.app" = "b.com") ∧
        ∀ x ∈ l1, ¬ (x.CustomDomain = "b.com" ∨ "b.com" ∈ x.DomainAliases
          ∨ x.Name ++ ".netlify.app" = "b.com")) :=
  VerifySite_first_match (Env.holding (mkSite "a.com" ["b.com"])) [] "b.com"
    [mkSite "a.com" ["b.com"]] rfl

/-! ## Waiting for a deploy (`Client.WaitForDeploy`) -/

theorem WaitForDeploy_pending (W : World) (deployID : String) (k : Nat) :
    ∀ (fuel : Nat) (h : List Call) (sleeps : Nat),
      (∀ i, i < k → ∃ d, W.getDeploy (h ++ List.replicate i (Call.getDeploy deployID)) deployID
          = .ok d ∧ d.State ≠ "ready" ∧ d.State ≠ "error") →
      WaitForDeploy W deployID (fuel + k) h sleeps
        = WaitForDeploy W deployID fuel (h ++ List.replicate k (Call.getDeploy deployID))
            (sleeps + k) := by
  induction k with
  | zero =>
    intro fuel h sleeps _
    simp
  | succ k ih =>
    intro fuel h sleeps hp
    obtain ⟨d, hd, hr, he⟩ := hp 0 (Nat.succ_pos k)
    simp only [List.replicate_zero, List.append_nil] at hd
    have hstep : WaitForDeploy W deployID (fuel + k + 1) h sleeps
        = WaitForDeploy W deployID (fuel + k) (h ++ [Call.getDeploy deployID]) (sleeps + 1) := by
      rw [WaitForDeploy]
      simp [hd, hr, he]
    have hrest : ∀ i, i < k → ∃ d,
        W.getDeploy (h ++ [Call.getDeploy deployID]
          ++ List.replicate i (Call.getDeploy deployID)) deployID
          = .ok d ∧ d.State ≠ "ready" ∧ d.State ≠ "error" := by
      intro i hi
      have := hp (i + 1) (Nat.succ_lt_succ hi)
      simpa [List.replicate_succ] using this
    rw [show fuel + (k + 1) = fuel + k + 1 from rfl, hstep,
      ih fuel (h ++ [Call.getDeploy deployID]) (sleeps + 1) hrest]
    simp [List.replicate_succ, Nat.add_assoc, Nat.add_comm 1 k]

/-- C26: if the first `k` polls answer deploys whose state is neither "ready" nor "error"
and the fuel exceeds `k`, `WaitForDeploy` returns after exactly `k + 1` polls and `k`
sleeps: with the deploy of poll `k` when its state is "ready", with the error carrying
its error message when its state is "error", and with the transport error, not
retried, when poll `k` fails. -/
theorem WaitForDeploy_stops_at_first_terminal (W : World) (deployID : String)
    (h : List Call) (k fuel : Nat) (hfuel : k < fuel)
    (hpending : ∀ i, i < k → ∃ d,
      W.getDeploy (h ++ List.replicate i (Call.getDeploy deployID)) deployID = .ok d
        ∧ d.State ≠ "ready" ∧ d.State ≠ "error") :
    (∀ d, W.getDeploy (h ++ List.replicate k (Call.getDeploy deployID)) deployID = .ok d →
      d.State = "ready" →
      WaitForDeploy W deployID fuel h 0
        = some ⟨.ok d, h ++ List.replicate (k + 1) (Call.getDeploy deployID), k⟩) ∧
    (∀ d, W.getDeploy (h ++ List.replicate k (Call.getDeploy deployID)) deployID = .ok d →
      d.State = "error" →
      WaitForDeploy W deployID fuel h 0
        = some ⟨.error ("erro no deploy: " ++ d.ErrorMessage),
            h ++ List.replicate (k + 1) (Call.getDeploy deployID), k⟩) ∧
    (∀ e, W.getDeploy (h ++ List.replicate k (Call.getDeploy deployID)) deployID = .error e →
      WaitForDeploy W deployID fuel h 0
        = some ⟨.error ("erro ao verificar status do deploy: " ++ e),
            h ++ List.replicate (k + 1) (Call.getDeploy deployID), k⟩) := by
  obtain ⟨m, hm⟩ : ∃ m, fuel = (m + 1) + k := ⟨fuel - k - 1, by omega⟩
  have hrun := WaitForDeploy_pending W deployID k (m + 1) h 0 hpending
  have hlog : h ++ List.replicate k (Call.getDeploy deployID) ++ [Call.getDeploy deployID]
      = h ++ List.replicate (k + 1) (Call.getDeploy deployID) := by
    simp [List.replicate_succ']
  rw [hm, hrun, Nat.zero_add]
  refine ⟨?_, ?_, ?_⟩
  · intro d hd hr
    rw [WaitForDeploy]
    simp [hd, hr, hlog]
  · intro d hd he
    have hr : d.State ≠ "ready" := by
      rw [he]
      decide
    rw [WaitForDeploy]
    simp [hd, hr, he, hlog]
  · intro e he
    rw [WaitForDeploy]
    simp [he, hlog]

theorem WaitForDeploy_stops_at_first_terminal_witness :
    WaitForDeploy
        (World.scripted (Env.holding (mkSite "" []))
          [.ok (mkDeploy "pending" ""), .ok (mkDeploy "pending" ""), .ok (mkDeploy "ready" "")]
          (.ok (mkDeploy "pending" "")))
        "dep-1" 5 [] 0
      = some ⟨.ok (mkDeploy "ready" ""),
          [] ++ List.replicate (2 + 1) (Call.getDeploy "dep-1"), 2⟩ :=
  (WaitForDeploy_stops_at_first_terminal
    (World.scripted (Env.holding (mkSite "" []))
      [.ok (mkDeploy "pending" ""), .ok (mkDeploy "pending" ""), .ok (mkDeploy "ready" "")]
      (.ok (mkDeploy "pending" "")))
    "dep-1" [] 2 5 (by decide)
    (by
      intro i hi
      interval_cases i
      · exact ⟨mkDeploy "pending" "", rfl, by decide, by decide⟩
      · exact ⟨mkDeploy "pending" "", rfl, by decide, by decide⟩)).1
    (mkDeploy "ready" "") rfl rfl

/-! ## Deploy parameters of the configuration (`Config.SetDeployParams`) -/

/-- C29: `SetDeployParams` returns an error exactly when the user name is empty, and
then the configuration is unchanged; otherwise `Username`, `CustomDomain` and `S3Path`
are the arguments, `NetlifySubdomain` is the lower-cased user name followed by "." and
`BaseDomain`, and every other field is unchanged. -/
theorem SetDeployParams_spec (toLower : String → String) (c : Config)
    (username customDomain s3Path : String) :
    ((SetDeployParams toLower c username customDomain s3Path).1 ≠ none ↔ username = "") ∧
    (username = "" → (SetDeployParams toLower c username customDomain s3Path).2 = c) ∧
    (username ≠ "" →
      (SetDeployParams toLower c username customDomain s3Path).1 = none ∧
      (SetDeployParams toLower c username customDomain s3Path).2
        = ⟨c.NetlifyToken, c.BaseDomain, c.AWSAccessKeyID, c.AWSSecretAccessKey, c.AWSRegion,
            c.S3BucketName, c.S3Endpoint, c.APIPort, username, customDomain, s3Path,
            toLower username ++ "." ++ c.BaseDomain⟩) := by
  by_cases hu : username = ""
  · refine ⟨?_, ?_, ?_⟩
    · simp [SetDeployParams, hu]
    · intro _
      simp [SetDeployParams, hu]
    · intro hne
      exact absurd hu hne
  · refine ⟨?_, ?_, ?_⟩
    · simp [SetDeployParams, hu]
    · intro he
      exact absurd he hu
    · intro _
      simp [SetDeployParams, hu]

/-! ## Base64 round trip -/

theorem b64Val_b64Char : ∀ n, n < 64 → b64Val (b64Char n) = some n := by
  decide

theorem b64Char_ne_pad : ∀ n, n < 64 → b64Char n ≠ '=' := by
  decide

theorem b64Char_not_skipped : ∀ n, n < 64 →
    (b64Char n ≠ Char.ofNat 10 ∧ b64Char n ≠ Char.ofNat 13) := by
  decide

theorem decodeChars_encodeBytes (data : List Nat) (hb : ∀ b ∈ data, b < 256) :
    decodeChars (encodeBytes data) = some data := by
  induction data using encodeBytes.induct with
  | case1 => rfl
  | case2 a =>
    have ha : a < 256 := hb a (by simp)
    have h1 := b64Val_b64Char (a / 4) (by omega)
    have h2 := b64Val_b64Char (a % 4 * 16) (by omega)
    simp only [encodeBytes, decodeChars, and_self, if_true, h1, h2]
    congr 2
    omega
  | case3 a b =>
    have ha : a < 256 := hb a (by simp)
    have hb2 : b < 256 := hb b (by simp)
    have h1 := b64Val_b64Char (a / 4) (by omega)
    have h2 := b64Val_b64Char (a % 4 * 16 + b / 16) (by omega)
    have h3 := b64Val_b64Char (b % 16 * 4) (by omega)
    have hp := b64Char_ne_pad (b % 16 * 4) (by omega)
    simp only [encodeBytes, decodeChars, hp, false_and, if_false, and_self, if_true, h1, h2, h3]
    congr 2
    · omega
    · congr 1
      omega
  | case4 a b c rest ih =>
    have ha : a < 256 := hb a (by simp)
    have hb2 : b < 256 := hb b (by simp)
    have hc : c < 256 := hb c (by simp)
    have hrest : ∀ x ∈ rest, x < 256 := fun x hx => hb x (by simp [hx])
    have h1 := b64Val_b64Char (a / 4) (by omega)
    have h2 := b64Val_b64Char (a % 4 * 16 + b / 16) (by omega)
    have h3 := b64Val_b64Char (b % 16 * 4 + c / 64) (by omega)
    have h4 := b64Val_b64Char (c % 64) (by omega)
    have hp3 := b64Char_ne_pad (b % 16 * 4 + c / 64) (by omega)
    have hp4 := b64Char_ne_pad (c % 64) (by omega)
    simp only [encodeBytes, decodeChars, hp3, hp4, false_and, if_false, h1, h2, h3, h4,
      ih hrest]
    congr 2
    · omega
    · congr 1
      · omega
      · congr 1
        omega

theorem encodeBytes_not_skipped (data : List Nat) (hb : ∀ b ∈ data, b < 256) :
    ∀ ch ∈ encodeBytes data, ch ≠ Char.ofNat 10 ∧ ch ≠ Char.ofNat 13 := by
  induction data using encodeBytes.induct with
  | case1 => simp [encodeBytes]
  | case2 a =>
    have ha : a < 256 := hb a (by simp)
    intro ch hch
    simp only [encodeBytes, List.mem_cons, List.mem_singleton, List.not_mem_nil, or_false] at hch
    rcases hch with h | h | h | h
    · rw [h]; exact b64Char_not_skipped _ (by omega)
    · rw [h]; exact b64Char_not_skipped _ (by omega)
    · rw [h]; decide
    · rw [h]; decide
  | case3 a b =>
    have ha : a < 256 := hb a (by simp)
    have hb2 : b < 256 := hb b (by simp)
    intro ch hch
    simp only [encodeBytes, List.mem_cons, List.mem_singleton, List.not_mem_nil, or_false] at hch
    rcases hch with h | h | h | h
    · rw [h]; exact b64Char_not_skipped _ (by omega)
    · rw [h]; exact b64Char_not_skipped _ (by omega)
    · rw [h]; exact b64Char_not_skipped _ (by omega)
    · rw [h]; decide
  | case4 a b c rest ih =>
    have ha : a < 256 := hb a (by simp)
    have hb2 : b < 256 := hb b (by simp)
    have hc : c < 256 := hb c (by simp)
    have hrest : ∀ x ∈ rest, x < 256 := fun x hx => hb x (by simp [hx])
    intro ch hch
    simp only [encodeBytes, List.mem_cons] at hch
    rcases hch with h | h | h | h | h
    · rw [h]; exact b64Char_not_skipped _ (by omega)
    · rw [h]; exact b64Char_not_skipped _ (by omega)
    · rw [h]; exact b64Char_not_skipped _ (by omega)
    · rw [h]; exact b64Char_not_skipped _ (by omega)
    · exact ih hrest ch h

theorem base64Decode_base64Encode (data : List Nat) (hb : ∀ b ∈ data, b < 256) :
    base64Decode (base64Encode data) = some data := by
  unfold base64Decode base64Encode
  have hfilter : (encodeBytes data).filter
      (fun c => c ≠ Char.ofNat 10 ∧ c ≠ Char.ofNat 13) = encodeBytes data := by
    apply List.filter_eq_self.2
    intro ch hch
    have := encodeBytes_not_skipped data hb ch hch
    simp [this.1, this.2]
  show decodeChars ((encodeBytes data).filter
      (fun c => c ≠ Char.ofNat 10 ∧ c ≠ Char.ofNat 13)) = some data
  rw [hfilter]
  exact decodeChars_encodeBytes data hb

theorem base64Encode_eq_empty (data : List Nat) : base64Encode data = "" ↔ data = [] := by
  constructor
  · intro he
    have hd : encodeBytes data = [] := by
      have := congrArg String.data he
      simpa [base64Encode] using this
    match data, hd with
    | [], _ => rfl
    | [_], hd => simp [encodeBytes] at hd
    | [_, _], hd => simp [encodeBytes] at hd
    | _ :: _ :: _ :: _, hd => simp [encodeBytes] at hd
  · intro he
    rw [he]
    rfl

/-! ## The test deploy: shape of the log -/

theorem findByName_eq_find (siteName : String) (sites : List Site) :
    findByName siteName sites = sites.find? (fun x => decide (x.Name = siteName)) := by
  induction sites with
  | nil => rfl
  | cons site rest ih =>
    by_cases hs : site.Name = siteName
    · simp [findByName, List.find?_cons, hs]
    · simp [findByName, List.find?_cons, hs, ih]

theorem deployFiles_single (W : World) (h : List Call) (site : Site)
    (result : TestDeployResult) (name : String) (body : FileBody) :
    deployFiles W h site result [(name, body)]
      = match W.createTemp [(name, body)] with
        | some e =>
          ⟨TestDeployReturn.result ⟨result.Success,
              result.Message ++ ". Porém, ocorreu um erro durante o deploy: "
                ++ ("erro ao criar arquivos temporários: " ++ e),
              result.SiteID, result.SiteURL, false⟩, h⟩
        | none =>
          match W.deploySite h site.ID (DeploySource.dir [(name, body)])
              ("Deploy de conteúdo para " ++ site.Name) with
          | .error e =>
            ⟨TestDeployReturn.result ⟨result.Success,
                result.Message ++ ". Porém, ocorreu um erro durante o deploy: "
                  ++ ("erro ao realizar deploy de conteúdo: " ++ e),
                result.SiteID, result.SiteURL, false⟩,
              h ++ [Call.deploySite site.ID (DeploySource.dir [(name, body)])
                ("Deploy de conteúdo para " ++ site.Name)]⟩
          | .ok deployment =>
            ⟨TestDeployReturn.result ⟨result.Success,
                result.Message ++ ". Deploy realizado com sucesso (ID: "
                  ++ deployment.ID ++ ")",
                result.SiteID, result.SiteURL, result.TestSuccess⟩,
              h ++ [Call.deploySite site.ID (DeploySource.dir [(name, body)])
                ("Deploy de conteúdo para " ++ site.Name)]⟩ := by
  unfold deployFiles DeployContent
  cases ht : W.createTemp [(name, body)] with
  | some e => simp
  | none =>
    cases hd : W.deploySite h site.ID (DeploySource.dir [(name, body)])
        ("Deploy de conteúdo para " ++ site.Name) with
    | error e => simp [hd]
    | ok d => simp [hd]

theorem deployFiles_single_tail (W : World) (h : List Call) (site : Site)
    (result : TestDeployResult) (name : String) (body : FileBody) :
    ∃ tail, (deployFiles W h site result [(name, body)]).log = h ++ tail ∧
      ∀ c ∈ tail, c.isDeploy = true := by
  rw [deployFiles_single]
  cases ht : W.createTemp [(name, body)] with
  | some e => exact ⟨[], by simp, by simp⟩
  | none =>
    cases hd : W.deploySite h site.ID (DeploySource.dir [(name, body)])
        ("Deploy de conteúdo para " ++ site.Name) with
    | error e => exact ⟨[_], rfl, by simp [Call.isDeploy]⟩
    | ok d => exact ⟨[_], rfl, by simp [Call.isDeploy]⟩

theorem DeployLocalFolder_log (W : World) (h : List Call) (site : Site) (folderPath : String) :
    (DeployLocalFolder W h site folderPath).2
      = h ++ [Call.deploySite site.ID (DeploySource.folder folderPath)
          ("Deploy da pasta " ++ folderPath ++ " para " ++ site.Name)] := by
  unfold DeployLocalFolder
  dsimp only
  split <;> rfl

theorem ExecuteTestDeploy_resolved (netlifyToken : String) (W : World) (h h1 : List Call)
    (params : TestDeployParams) (site : Site)
    (htok : 10 ≤ netlifyToken.utf8ByteSize)
    (hres : resolveTestSite W h params = (Resolved.site site, h1)) :
    ExecuteTestDeploy netlifyToken W h params
      = if params.FileContent ≠ "" then
          match base64Decode params.FileContent with
          | none =>
            ⟨TestDeployReturn.failed ("erro ao decodificar conteúdo do arquivo: "
              ++ W.b64ErrorText params.FileContent), h1⟩
          | some fileData =>
            deployFiles W h1 site
              ⟨true, "Site de teste criado/atualizado com sucesso", site.ID, site.URL, true⟩
              [("index.html", FileBody.bytes fileData)]
        else if params.TestContent ≠ "" then
          deployFiles W h1 site
            ⟨true, "Site de teste criado/atualizado com sucesso", site.ID, site.URL, true⟩
            [("index.html", FileBody.text params.TestContent)]
        else if params.FolderPath ≠ "" then
          match W.statNotExist params.FolderPath with
          | some e => ⟨TestDeployReturn.failed ("pasta não encontrada: " ++ e), h1⟩
          | none =>
            match W.deploySite h1 site.ID (DeploySource.folder params.FolderPath)
                ("Deploy da pasta " ++ params.FolderPath ++ " para " ++ site.Name) with
            | .error e =>
              ⟨TestDeployReturn.result ⟨true,
                  "Site de teste criado/atualizado com sucesso"
                    ++ ". Porém, ocorreu um erro durante o deploy: "
                    ++ ("erro ao realizar deploy da pasta local: " ++ e),
                  site.ID, site.URL, false⟩,
                h1 ++ [Call.deploySite site.ID (DeploySource.folder params.FolderPath)
                  ("Deploy da pasta " ++ params.FolderPath ++ " para " ++ site.Name)]⟩
            | .ok deployment =>
              ⟨TestDeployReturn.result ⟨true,
                  "Site de teste criado/atualizado com sucesso"
                    ++ ". Deploy realizado com sucesso (ID: " ++ deployment.ID ++ ")",
                  site.ID, site.URL, true⟩,
                h1 ++ [Call.deploySite site.ID (DeploySource.folder params.FolderPath)
                  ("Deploy da pasta " ++ params.FolderPath ++ " para " ++ site.Name)]⟩
        else
          deployFiles W h1 site
            ⟨true, "Site de teste criado/atualizado com sucesso", site.ID, site.URL, true⟩
            [("index.html", FileBody.text
              ("<html><body><h1>Teste de Deploy</h1><p>Site criado em "
                ++ W.now ++ "</p></body></html>"))] := by
  have hnot : ¬ netlifyToken.utf8ByteSize < 10 := by omega
  unfold ExecuteTestDeploy
  rw [if_neg hnot, hres]
  simp only []
  by_cases hf : params.FileContent = ""
  · by_cases ht : params.TestContent = ""
    · by_cases hp : params.FolderPath = ""
      · simp [hf, ht, hp]
      · simp only [hf, ht, hp, ne_eq, not_true_eq_false, not_false_eq_true, if_true, if_false]
        cases W.statNotExist params.FolderPath with
        | some e => rfl
        | none =>
          simp only [DeployLocalFolder]
          cases W.deploySite h1 site.ID (DeploySource.folder params.FolderPath)
              ("Deploy da pasta " ++ params.FolderPath ++ " para " ++ site.Name) <;> rfl
    · simp [hf, ht]
  · simp [hf]

theorem ExecuteTestDeploy_tail (netlifyToken : String) (W : World) (h : List Call)
    (params : TestDeployParams) (htok : 10 ≤ netlifyToken.utf8ByteSize) :
    ∃ tail, (ExecuteTestDeploy netlifyToken W h params).log
        = (resolveTestSite W h params).2 ++ tail ∧
      ∀ c ∈ tail, c.isDeploy = true := by
  have hnot : ¬ netlifyToken.utf8ByteSize < 10 := by omega
  rcases hres : resolveTestSite W h params with ⟨r, h1⟩
  cases r with
  | panicked =>
    refine ⟨[], ?_, by simp⟩
    unfold ExecuteTestDeploy
    rw [if_neg hnot, hres]
    simp
  | failed e =>
    refine ⟨[], ?_, by simp⟩
    unfold ExecuteTestDeploy
    rw [if_neg hnot, hres]
    simp
  | site site =>
    rw [ExecuteTestDeploy_resolved netlifyToken W h h1 params site htok hres]
    by_cases hf : params.FileContent = ""
    · by_cases ht : params.TestContent = ""
      · by_cases hp : params.FolderPath = ""
        · simp only [hf, ht, hp, ne_eq, not_true_eq_false, if_false]
          exact deployFiles_single_tail W h1 site _ _ _
        · simp only [hf, ht, hp, ne_eq, not_true_eq_false, not_false_eq_true, if_true, if_false]
          cases W.statNotExist params.FolderPath with
          | some e => exact ⟨[], by simp, by simp⟩
          | none =>
            cases W.deploySite h1 site.ID (DeploySource.folder params.FolderPath)
                ("Deploy da pasta " ++ params.FolderPath ++ " para " ++ site.Name) with
            | error e => exact ⟨[_], rfl, by simp [Call.isDeploy]⟩
            | ok d => exact ⟨[_], rfl, by simp [Call.isDeploy]⟩
      · simp only [hf, ht, ne_eq, not_true_eq_false, not_false_eq_true, if_true, if_false]
        exact deployFiles_single_tail W h1 site _ _ _
    · simp only [hf, ne_eq, not_false_eq_true, if_true]
      cases base64Decode params.FileContent with
      | none => exact ⟨[], by simp, by simp⟩
      | some data => exact deployFiles_single_tail W h1 site _ _ _

/-! ## The test deploy: site resolution -/

theorem isDeploy_only (c : Call) (hc : c.isDeploy = true) :
    c.isUpdate = false ∧ c.isDelete = false ∧ c.isCreate = false := by
  cases c with
  | deploySite siteID source title => simp [Call.isUpdate, Call.isDelete, Call.isCreate]
  | getSite siteID => simp [Call.isDeploy] at hc
  | updateSite site => simp [Call.isDeploy] at hc
  | patchSite url payload => simp [Call.isDeploy] at hc
  | listSites => simp [Call.isDeploy] at hc
  | createSite site => simp [Call.isDeploy] at hc
  | deleteSite siteID => simp [Call.isDeploy] at hc
  | getDeploy deployID => simp [Call.isDeploy] at hc

theorem filter_deploys (p : Call → Bool) (tail : List Call)
    (hp : ∀ c, c.isDeploy = true → p c = false) (ht : ∀ c ∈ tail, c.isDeploy = true) :
    tail.filter p = [] := by
  apply List.filter_eq_nil_iff.2
  intro c hc
  rw [hp c (ht c hc)]
  exact Bool.false_ne_true

theorem configureCustomDomain_log (E : Env) (h : List Call) (site : Site) (domain : String) :
    (configureCustomDomain E h site domain).log = h ∨
    (configureCustomDomain E h site domain).log
      = h ++ [Call.updateSite
          ⟨site.ID, site.Name, site.CustomDomain, site.DomainAliases ++ [domain], site.URL⟩] := by
  unfold configureCustomDomain
  by_cases h1 : site.CustomDomain = domain
  · left
    simp [h1]
  · cases h2 : aliasListed domain site.DomainAliases with
    | true =>
      left
      simp [h1]
    | false =>
      right
      simp only [h1, if_false, Bool.false_eq_true]
      split <;> rfl

theorem createTestSite_log (W : World) (h : List Call) (params : TestDeployParams) :
    ∃ tail, (createTestSite W h params).2
        = h ++ Call.createSite ⟨"", params.SiteName, "", [], ""⟩ :: tail ∧
      ∀ c ∈ tail, c.isUpdate = true := by
  unfold createTestSite
  dsimp only
  cases hc : W.createSite h ⟨"", params.SiteName, "", [], ""⟩ with
  | error e => exact ⟨[], by simp, by simp⟩
  | ok site =>
    by_cases hd : params.CustomDomain = ""
    · exact ⟨[], by simp [hd], by simp⟩
    · simp only [ne_eq, hd, not_false_eq_true, if_true]
      rcases configureCustomDomain_log W.toEnv
          (h ++ [Call.createSite ⟨"", params.SiteName, "", [], ""⟩]) site params.CustomDomain
        with hl | hl
      · exact ⟨[], by simp [hl], by simp⟩
      · exact ⟨[Call.updateSite ⟨site.ID, site.Name, site.CustomDomain,
            site.DomainAliases ++ [params.CustomDomain], site.URL⟩],
          by rw [hl]; simp, by simp [Call.isUpdate]⟩

theorem createTestSite_ok (W : World) (h : List Call) (params : TestDeployParams) (site : Site)
    (hc : W.createSite h ⟨"", params.SiteName, "", [], ""⟩ = .ok site) :
    (createTestSite W h params).1 = Resolved.site site := by
  unfold createTestSite
  dsimp only
  rw [hc]
  by_cases hd : params.CustomDomain = "" <;> simp [hd]

theorem resolveTestSite_by_name (W : World) (h : List Call) (params : TestDeployParams)
    (sites : List Site) (hsid : params.SiteID = "") (hlist : W.listSites h = .ok sites) :
    resolveTestSite W h params
      = match sites.find? (fun x => decide (x.Name = params.SiteName)) with
        | some s =>
          if params.CleanupAfter then
            match W.deleteSite (h ++ [Call.listSites]) s.ID with
            | some e =>
              (Resolved.failed ("erro ao excluir site existente: " ++ e),
                h ++ [Call.listSites, Call.deleteSite s.ID])
            | none => createTestSite W (h ++ [Call.listSites, Call.deleteSite s.ID]) params
          else (Resolved.site s, h ++ [Call.listSites])
        | none => createTestSite W (h ++ [Call.listSites]) params := by
  unfold resolveTestSite
  simp only [hsid, ne_eq, not_true_eq_false, if_false, hlist, findByName_eq_find]
  cases hf : sites.find? (fun x => decide (x.Name = params.SiteName)) with
  | none => rfl
  | some s =>
    cases hcl : params.CleanupAfter with
    | false => simp
    | true =>
      cases hdel : W.deleteSite (h ++ [Call.listSites]) s.ID with
      | some e => simp [hdel]
      | none => simp [hdel]

theorem resolveTestSite_by_id (W : World) (h : List Call) (params : TestDeployParams)
    (s : Site) (hsid : params.SiteID ≠ "")
    (hget : W.getSite h params.SiteID = .ok (some s)) :
    (resolveTestSite W h params).2
      = h ++ Call.getSite params.SiteID ::
          (if s.Name ≠ params.SiteName
            then [Call.updateSite ⟨s.ID, params.SiteName, "", [], ""⟩] else []) := by
  unfold resolveTestSite
  simp only [hsid, ne_eq, not_false_eq_true, if_true, hget]
  by_cases hn : s.Name = params.SiteName
  · simp [hn]
  · simp only [hn, not_false_eq_true, if_true]
    cases W.updateSite (h ++ [Call.getSite params.SiteID])
      ⟨s.ID, params.SiteName, "", [], ""⟩ <;> simp

theorem resolveTestSite_by_id_no_delete (W : World) (h : List Call)
    (params : TestDeployParams) (hsid : params.SiteID ≠ "") :
    ((resolveTestSite W h params).2).filter Call.isDelete = h.filter Call.isDelete := by
  unfold resolveTestSite
  simp only [hsid, ne_eq, not_false_eq_true, if_true]
  cases hget : W.getSite h params.SiteID with
  | error e => simp [Call.isDelete]
  | ok o =>
    cases o with
    | none => simp [Call.isDelete]
    | some s =>
      by_cases hn : s.Name = params.SiteName
      · simp [hn, Call.isDelete]
      · simp only [hn, not_false_eq_true, if_true]
        cases W.updateSite (h ++ [Call.getSite params.SiteID])
          ⟨s.ID, params.SiteName, "", [], ""⟩ <;> simp [Call.isDelete]

theorem isUpdate_only (c : Call) (hc : c.isUpdate = true) :
    c.isDelete = false ∧ c.isCreate = false := by
  cases c with
  | updateSite site => simp [Call.isDelete, Call.isCreate]
  | patchSite url payload => simp [Call.isDelete, Call.isCreate]
  | getSite siteID => simp [Call.isUpdate] at hc
  | listSites => simp [Call.isUpdate] at hc
  | createSite site => simp [Call.isUpdate] at hc
  | deleteSite siteID => simp [Call.isUpdate] at hc
  | deploySite siteID source title => simp [Call.isUpdate] at hc
  | getDeploy deployID => simp [Call.isUpdate] at hc

theorem ExecuteTestDeploy_filter (p : Call → Bool)
    (hp : ∀ c, c.isDeploy = true → p c = false) (netlifyToken : String) (W : World)
    (h : List Call) (params : TestDeployParams) (htok : 10 ≤ netlifyToken.utf8ByteSize) :
    (ExecuteTestDeploy netlifyToken W h params).log.filter p
      = ((resolveTestSite W h params).2).filter p := by
  obtain ⟨tail, hlog, ht⟩ := ExecuteTestDeploy_tail netlifyToken W h params htok
  rw [hlog, List.filter_append, filter_deploys p tail hp ht, List.append_nil]

theorem createTestSite_creates (W : World) (h : List Call) (params : TestDeployParams) :
    ((createTestSite W h params).2).filter Call.isCreate
      = h.filter Call.isCreate ++ [Call.createSite ⟨"", params.SiteName, "", [], ""⟩] ∧
    ((createTestSite W h params).2).filter Call.isDelete = h.filter Call.isDelete := by
  obtain ⟨tail, hlog, ht⟩ := createTestSite_log W h params
  have hc : tail.filter Call.isCreate = [] := by
    apply List.filter_eq_nil_iff.2
    intro c hc
    rw [(isUpdate_only c (ht c hc)).2]
    exact Bool.false_ne_true
  have hd : tail.filter Call.isDelete = [] := by
    apply List.filter_eq_nil_iff.2
    intro c hc
    rw [(isUpdate_only c (ht c hc)).1]
    exact Bool.false_ne_true
  rw [hlog]
  constructor
  · rw [List.filter_append, List.filter_cons_of_pos (by simp [Call.isCreate]), hc]
  · rw [List.filter_append, List.filter_cons_of_neg (by simp [Call.isDelete]), hd,
      List.append_nil]

/-! ## Name-based resolution -/

/-- C22: when the listing succeeds, `CreateOrGetSite` and `ExecuteTestDeploy` without a
site id and with `CleanupAfter = false` resolve the site by its exact name: if a listed
site has the requested name, the first such site is the one returned (or deployed to)
and no site is created; otherwise exactly one `CreateSite` call is issued, with the
requested name and nothing else set, and the site the provider answers is the one
returned (or deployed to). -/
theorem name_based_resolution (netlifyToken : String) (W : World) (h : List Call)
    (params : TestDeployParams) (sites : List Site)
    (htok : 10 ≤ netlifyToken.utf8ByteSize) (hsid : params.SiteID = "")
    (hclean : params.CleanupAfter = false) (hlist : W.listSites h = .ok sites) :
    (∀ s, sites.find? (fun x => decide (x.Name = params.SiteName)) = some s →
      CreateOrGetSite W.toEnv h params.SiteName = (.ok s, h ++ [Call.listSites]) ∧
      resolveTestSite W h params = (Resolved.site s, h ++ [Call.listSites]) ∧
      (ExecuteTestDeploy netlifyToken W h params).log.filter Call.isCreate
        = h.filter Call.isCreate) ∧
    (sites.find? (fun x => decide (x.Name = params.SiteName)) = none →
      (CreateOrGetSite W.toEnv h params.SiteName).2
        = h ++ [Call.listSites, Call.createSite ⟨"", params.SiteName, "", [], ""⟩] ∧
      (ExecuteTestDeploy netlifyToken W h params).log.filter Call.isCreate
        = h.filter Call.isCreate ++ [Call.createSite ⟨"", params.SiteName, "", [], ""⟩] ∧
      ∀ s1, W.createSite (h ++ [Call.listSites]) ⟨"", params.SiteName, "", [], ""⟩ = .ok s1 →
        (CreateOrGetSite W.toEnv h params.SiteName).1 = .ok s1 ∧
        (resolveTestSite W h params).1 = Resolved.site s1) := by
  have hres := resolveTestSite_by_name W h params sites hsid hlist
  have hfilter := ExecuteTestDeploy_filter Call.isCreate
    (fun c hc => (isDeploy_only c hc).2.2) netlifyToken W h params htok
  constructor
  · intro s hs
    rw [hs, hclean] at hres
    simp only [Bool.false_eq_true, if_false] at hres
    refine ⟨?_, hres, ?_⟩
    · simp [CreateOrGetSite, ListSites, hlist, findByName_eq_find, hs]
    · rw [hfilter, hres]
      simp [Call.isCreate]
  · intro hnone
    rw [hnone] at hres
    simp only [] at hres
    refine ⟨?_, ?_, ?_⟩
    · unfold CreateOrGetSite
      simp only [ListSites, hlist, findByName_eq_find, hnone]
      cases W.createSite (h ++ [Call.listSites]) ⟨"", params.SiteName, "", [], ""⟩ <;> simp
    · rw [hfilter, hres, (createTestSite_creates W (h ++ [Call.listSites]) params).1]
      simp [Call.isCreate]
    · intro s1 hs1
      constructor
      · unfold CreateOrGetSite
        simp only [ListSites, hlist, findByName_eq_find, hnone]
        rw [hs1]
      · rw [hres]
        exact createTestSite_ok W (h ++ [Call.listSites]) params s1 hs1

theorem name_based_resolution_witness :
    (∀ s, [mkSite "" []].find? (fun x => decide (x.Name = "demo")) = some s →
      CreateOrGetSite (World.scripted (Env.holding (mkSite "" [])) []
          (.ok (mkDeploy "pending" ""))).toEnv [] "demo" = (.ok s, [] ++ [Call.listSites]) ∧
      resolveTestSite (World.scripted (Env.holding (mkSite "" [])) []
          (.ok (mkDeploy "pending" ""))) []
          ⟨"", "demo", "", "<h1>hi</h1>", false, "", "", ""⟩
        = (Resolved.site s, [] ++ [Call.listSites]) ∧
      (ExecuteTestDeploy "0123456789abcdef"
          (World.scripted (Env.holding (mkSite "" [])) [] (.ok (mkDeploy "pending" ""))) []
          ⟨"", "demo", "", "<h1>hi</h1>", false, "", "", ""⟩).log.filter Call.isCreate
        = ([] : List Call).filter Call.isCreate) ∧
    ([mkSite "" []].find? (fun x => decide (x.Name = "demo")) = none →
      (CreateOrGetSite (World.scripted (Env.holding (mkSite "" [])) []
          (.ok (mkDeploy "pending" ""))).toEnv [] "demo").2
        = [] ++ [Call.listSites, Call.createSite ⟨"", "demo", "", [], ""⟩] ∧
      (ExecuteTestDeploy "0123456789abcdef"
          (World.scripted (Env.holding (mkSite "" [])) [] (.ok (mkDeploy "pending" ""))) []
          ⟨"", "demo", "", "<h1>hi</h1>", false, "", "", ""⟩).log.filter Call.isCreate
        = ([] : List Call).filter Call.isCreate ++ [Call.createSite ⟨"", "demo", "", [], ""⟩] ∧
      ∀ s1, (World.scripted (Env.holding (mkSite "" [])) []
          (.ok (mkDeploy "pending" ""))).createSite ([] ++ [Call.listSites])
            ⟨"", "demo", "", [], ""⟩ = .ok s1 →
        (CreateOrGetSite (World.scripted (Env.holding (mkSite "" [])) []
          (.ok (mkDeploy "pending" ""))).toEnv [] "demo").1 = .ok s1 ∧
        (resolveTestSite (World.scripted (Env.holding (mkSite "" [])) []
          (.ok (mkDeploy "pending" ""))) []
          ⟨"", "demo", "", "<h1>hi</h1>", false, "", "", ""⟩).1 = Resolved.site s1) :=
  name_based_resolution "0123456789abcdef"
    (World.scripted (Env.holding (mkSite "" [])) [] (.ok (mkDeploy "pending" ""))) []
    ⟨"", "demo", "", "<h1>hi</h1>", false, "", "", ""⟩ [mkSite "" []]
    (by decide) rfl rfl rfl

/-! ## Rename on resolution by id -/

/-- C23: given a non-empty site id and a fetched site, the log of `ExecuteTestDeploy` is
the fetch, then the `UpdateSite` carrying the fetched site's id and the requested name
exactly when the stored name differs from the requested one, then only deploy calls; no
other update is issued. -/
theorem ExecuteTestDeploy_renames_by_id (netlifyToken : String) (W : World) (h : List Call)
    (params : TestDeployParams) (s : Site)
    (htok : 10 ≤ netlifyToken.utf8ByteSize) (hsid : params.SiteID ≠ "")
    (hget : W.getSite h params.SiteID = .ok (some s)) :
    (∃ tail, (ExecuteTestDeploy netlifyToken W h params).log
        = h ++ Call.getSite params.SiteID ::
            ((if s.Name ≠ params.SiteName
              then [Call.updateSite ⟨s.ID, params.SiteName, "", [], ""⟩] else []) ++ tail) ∧
      ∀ c ∈ tail, c.isDeploy = true) ∧
    updates (ExecuteTestDeploy netlifyToken W h params).log
      = updates h ++ (if s.Name ≠ params.SiteName
          then [Call.updateSite ⟨s.ID, params.SiteName, "", [], ""⟩] else []) := by
  obtain ⟨tail, hlog, ht⟩ := ExecuteTestDeploy_tail netlifyToken W h params htok
  rw [resolveTestSite_by_id W h params s hsid hget] at hlog
  have hupd : updates tail = [] :=
    filter_deploys Call.isUpdate tail (fun c hc => (isDeploy_only c hc).1) ht
  constructor
  · exact ⟨tail, by rw [hlog]; simp, ht⟩
  · rw [hlog, updates_append, hupd, updates_append]
    by_cases hn : s.Name = params.SiteName
    · simp [hn, updates, Call.isUpdate]
    · simp [hn, updates, Call.isUpdate]

theorem ExecuteTestDeploy_renames_by_id_witness :
    (∃ tail, (ExecuteTestDeploy "0123456789abcdef"
          (World.scripted (Env.holding (mkSite "" [])) [] (.ok (mkDeploy "pending" ""))) []
          ⟨"site-1", "renamed", "", "<h1>hi</h1>", false, "", "", ""⟩).log
        = [] ++ Call.getSite "site-1" ::
            ((if (mkSite "" []).Name ≠ "renamed"
              then [Call.updateSite ⟨(mkSite "" []).ID, "renamed", "", [], ""⟩] else [])
              ++ tail) ∧
      ∀ c ∈ tail, c.isDeploy = true) ∧
    updates (ExecuteTestDeploy "0123456789abcdef"
          (World.scripted (Env.holding (mkSite "" [])) [] (.ok (mkDeploy "pending" ""))) []
          ⟨"site-1", "renamed", "", "<h1>hi</h1>", false, "", "", ""⟩).log
      = updates [] ++ (if (mkSite "" []).Name ≠ "renamed"
          then [Call.updateSite ⟨(mkSite "" []).ID, "renamed", "", [], ""⟩] else []) :=
  ExecuteTestDeploy_renames_by_id "0123456789abcdef"
    (World.scripted (Env.holding (mkSite "" [])) [] (.ok (mkDeploy "pending" ""))) []
    ⟨"site-1", "renamed", "", "<h1>hi</h1>", false, "", "", ""⟩ (mkSite "" [])
    (by decide) (by decide) rfl

/-! ## Deletion of an existing site -/

/-- C27: in `ExecuteTestDeploy` without a site id and with a successful listing, the
first listed site with the requested name is deleted exactly when `CleanupAfter` is
true: then the log continues with that `DeleteSite` call, no other deletion is issued,
and when the provider accepts it one `CreateSite` with the requested name follows;
with `CleanupAfter` false that site is the one resolved and nothing is deleted or
created; when no listed site has the name nothing is deleted.  With a non-empty site id
no `DeleteSite` call is issued at all. -/
theorem ExecuteTestDeploy_deletes (netlifyToken : String) (W : World) (h : List Call)
    (params : TestDeployParams) (sites : List Site)
    (htok : 10 ≤ netlifyToken.utf8ByteSize) :
    (params.SiteID = "" → W.listSites h = .ok sites →
      (∀ s, sites.find? (fun x => decide (x.Name = params.SiteName)) = some s →
        params.CleanupAfter = true →
        (∃ tail, (ExecuteTestDeploy netlifyToken W h params).log
            = h ++ Call.listSites :: Call.deleteSite s.ID :: tail) ∧
        (ExecuteTestDeploy netlifyToken W h params).log.filter Call.isDelete
          = h.filter Call.isDelete ++ [Call.deleteSite s.ID] ∧
        (W.deleteSite (h ++ [Call.listSites]) s.ID = none →
          (∃ tail, (ExecuteTestDeploy netlifyToken W h params).log
            = h ++ Call.listSites :: Call.deleteSite s.ID
                :: Call.createSite ⟨"", params.SiteName, "", [], ""⟩ :: tail) ∧
          (ExecuteTestDeploy netlifyToken W h params).log.filter Call.isCreate
            = h.filter Call.isCreate ++ [Call.createSite ⟨"", params.SiteName, "", [], ""⟩])) ∧
      (∀ s, sites.find? (fun x => decide (x.Name = params.SiteName)) = some s →
        params.CleanupAfter = false →
        resolveTestSite W h params = (Resolved.site s, h ++ [Call.listSites]) ∧
        (ExecuteTestDeploy netlifyToken W h params).log.filter Call.isDelete
          = h.filter Call.isDelete ∧
        (ExecuteTestDeploy netlifyToken W h params).log.filter Call.isCreate
          = h.filter Call.isCreate) ∧
      (sites.find? (fun x => decide (x.Name = params.SiteName)) = none →
        (ExecuteTestDeploy netlifyToken W h params).log.filter Call.isDelete
          = h.filter Call.isDelete)) ∧
    (params.SiteID ≠ "" →
      (ExecuteTestDeploy netlifyToken W h params).log.filter Call.isDelete
        = h.filter Call.isDelete) := by
  have hfd := ExecuteTestDeploy_filter Call.isDelete
    (fun c hc => (isDeploy_only c hc).2.1) netlifyToken W h params htok
  have hfc := ExecuteTestDeploy_filter Call.isCreate
    (fun c hc => (isDeploy_only c hc).2.2) netlifyToken W h params htok
  obtain ⟨tail, hlog, _⟩ := ExecuteTestDeploy_tail netlifyToken W h params htok
  constructor
  · intro hsid hlist
    have hres := resolveTestSite_by_name W h params sites hsid hlist
    refine ⟨?_, ?_, ?_⟩
    · intro s hs hclean
      rw [hs, hclean] at hres
      simp only [if_true] at hres
      cases hdel : W.deleteSite (h ++ [Call.listSites]) s.ID with
      | some e =>
        rw [hdel] at hres
        simp only [] at hres
        refine ⟨⟨tail, by rw [hlog, hres]; simp⟩, ?_, ?_⟩
        · rw [hfd, hres]
          simp [Call.isDelete]
        · intro hc
          exact Option.noConfusion hc
      | none =>
        rw [hdel] at hres
        simp only [] at hres
        obtain ⟨ctail, hclog, _⟩ :=
          createTestSite_log W (h ++ [Call.listSites, Call.deleteSite s.ID]) params
        have hcf := createTestSite_creates W (h ++ [Call.listSites, Call.deleteSite s.ID]) params
        refine ⟨⟨Call.createSite ⟨"", params.SiteName, "", [], ""⟩ :: (ctail ++ tail),
          by rw [hlog, hres, hclog]; simp⟩, ?_, ?_⟩
        · rw [hfd, hres, hcf.2]
          simp [Call.isDelete]
        · intro _
          refine ⟨⟨ctail ++ tail, by rw [hlog, hres, hclog]; simp⟩, ?_⟩
          rw [hfc, hres, hcf.1]
          simp [Call.isCreate]
    · intro s hs hclean
      rw [hs, hclean] at hres
      simp only [Bool.false_eq_true, if_false] at hres
      refine ⟨hres, ?_, ?_⟩
      · rw [hfd, hres]
        simp [Call.isDelete]
      · rw [hfc, hres]
        simp [Call.isCreate]
    · intro hnone
      rw [hnone] at hres
      simp only [] at hres
      rw [hfd, hres, (createTestSite_creates W (h ++ [Call.listSites]) params).2]
      simp [Call.isDelete]
  · intro hsid
    rw [hfd]
    exact resolveTestSite_by_id_no_delete W h params hsid

theorem ExecuteTestDeploy_deletes_witness :
    (∃ tail, (ExecuteTestDeploy "0123456789abcdef"
        (World.scripted (Env.holding (mkSite "" [])) [] (.ok (mkDeploy "pending" ""))) []
        ⟨"", "demo", "", "<h1>hi</h1>", true, "", "", ""⟩).log
      = [] ++ Call.listSites :: Call.deleteSite (mkSite "" []).ID :: tail) ∧
    (ExecuteTestDeploy "0123456789abcdef"
        (World.scripted (Env.holding (mkSite "" [])) [] (.ok (mkDeploy "pending" ""))) []
        ⟨"", "demo", "", "<h1>hi</h1>", true, "", "", ""⟩).log.filter Call.isDelete
      = ([] : List Call).filter Call.isDelete ++ [Call.deleteSite (mkSite "" []).ID] ∧
    ((World.scripted (Env.holding (mkSite "" [])) [] (.ok (mkDeploy "pending" ""))).deleteSite
        ([] ++ [Call.listSites]) (mkSite "" []).ID = none →
      (∃ tail, (ExecuteTestDeploy "0123456789abcdef"
          (World.scripted (Env.holding (mkSite "" [])) [] (.ok (mkDeploy "pending" ""))) []
          ⟨"", "demo", "", "<h1>hi</h1>", true, "", "", ""⟩).log
        = [] ++ Call.listSites :: Call.deleteSite (mkSite "" []).ID
            :: Call.createSite ⟨"", "demo", "", [], ""⟩ :: tail) ∧
      (ExecuteTestDeploy "0123456789abcdef"
          (World.scripted (Env.holding (mkSite "" [])) [] (.ok (mkDeploy "pending" ""))) []
          ⟨"", "demo", "", "<h1>hi</h1>", true, "", "", ""⟩).log.filter Call.isCreate
        = ([] : List Call).filter Call.isCreate ++ [Call.createSite ⟨"", "demo", "", [], ""⟩]) :=
  ((ExecuteTestDeploy_deletes "0123456789abcdef"
    (World.scripted (Env.holding (mkSite "" [])) [] (.ok (mkDeploy "pending" ""))) []
    ⟨"", "demo", "", "<h1>hi</h1>", true, "", "", ""⟩ [mkSite "" []]
    (by decide)).1 rfl rfl).1 (mkSite "" []) (by decide) rfl

/-! ## Content of the test deploy -/

theorem deployFiles_single_log (W : World) (h : List Call) (site : Site)
    (result : TestDeployResult) (name : String) (body : FileBody)
    (htemp : W.createTemp [(name, body)] = none) :
    (deployFiles W h site result [(name, body)]).log
      = h ++ [Call.deploySite site.ID (DeploySource.dir [(name, body)])
          ("Deploy de conteúdo para " ++ site.Name)] := by
  rw [deployFiles_single, htemp]
  dsimp only
  split <;> rfl

theorem NewClient_client (netlifyToken : String)
    (hc : NewClient netlifyToken = NewClientResult.client) :
    10 ≤ netlifyToken.utf8ByteSize := by
  unfold NewClient at hc
  by_cases he : netlifyToken = ""
  · simp [he] at hc
  · by_cases hs : netlifyToken.utf8ByteSize < 10
    · simp [he, hs] at hc
    · omega

/-- C24: once the site is resolved (and temporary files can be written), the one deploy
`ExecuteTestDeploy` submits is chosen by precedence, whatever the lower-precedence
fields hold: the decoded file when `FileContent` is non-empty (nothing is deployed and
the decoding error is returned when it does not decode); else `TestContent` when it is
non-empty; else the folder `FolderPath` when it is non-empty (nothing is deployed and
an error is returned when the folder does not exist); else the generated placeholder
page. -/
theorem ExecuteTestDeploy_content_precedence (netlifyToken : String) (W : World)
    (h h1 : List Call) (params : TestDeployParams) (site : Site)
    (htok : 10 ≤ netlifyToken.utf8ByteSize)
    (hres : resolveTestSite W h params = (Resolved.site site, h1))
    (htemp : ∀ files, W.createTemp files = none) :
    (params.FileContent ≠ "" → ∀ data, base64Decode params.FileContent = some data →
      (ExecuteTestDeploy netlifyToken W h params).log
        = h1 ++ [Call.deploySite site.ID
            (DeploySource.dir [("index.html", FileBody.bytes data)])
            ("Deploy de conteúdo para " ++ site.Name)]) ∧
    (params.FileContent ≠ "" → base64Decode params.FileContent = none →
      ExecuteTestDeploy netlifyToken W h params
        = ⟨TestDeployReturn.failed ("erro ao decodificar conteúdo do arquivo: "
            ++ W.b64ErrorText params.FileContent), h1⟩) ∧
    (params.FileContent = "" → params.TestContent ≠ "" →
      (ExecuteTestDeploy netlifyToken W h params).log
        = h1 ++ [Call.deploySite site.ID
            (DeploySource.dir [("index.html", FileBody.text params.TestContent)])
            ("Deploy de conteúdo para " ++ site.Name)]) ∧
    (params.FileContent = "" → params.TestContent = "" → params.FolderPath ≠ "" →
      W.statNotExist params.FolderPath = none →
      (ExecuteTestDeploy netlifyToken W h params).log
        = h1 ++ [Call.deploySite site.ID (DeploySource.folder params.FolderPath)
            ("Deploy da pasta " ++ params.FolderPath ++ " para " ++ site.Name)]) ∧
    (params.FileContent = "" → params.TestContent = "" → params.FolderPath ≠ "" →
      ∀ e, W.statNotExist params.FolderPath = some e →
      ExecuteTestDeploy netlifyToken W h params
        = ⟨TestDeployReturn.failed ("pasta não encontrada: " ++ e), h1⟩) ∧
    (params.FileContent = "" → params.TestContent = "" → params.FolderPath = "" →
      (ExecuteTestDeploy netlifyToken W h params).log
        = h1 ++ [Call.deploySite site.ID
            (DeploySource.dir [("index.html", FileBody.text
              ("<html><body><h1>Teste de Deploy</h1><p>Site criado em "
                ++ W.now ++ "</p></body></html>"))])
            ("Deploy de conteúdo para " ++ site.Name)]) := by
  have hE := ExecuteTestDeploy_resolved netlifyToken W h h1 params site htok hres
  refine ⟨?_, ?_, ?_, ?_, ?_, ?_⟩
  · intro hf data hd
    rw [hE, if_pos hf, hd]
    exact deployFiles_single_log W h1 site _ _ _ (htemp _)
  · intro hf hd
    rw [hE, if_pos hf, hd]
  · intro hf ht
    rw [hE, if_neg (not_not.2 hf), if_pos ht]
    exact deployFiles_single_log W h1 site _ _ _ (htemp _)
  · intro hf ht hp hstat
    rw [hE, if_neg (not_not.2 hf), if_neg (not_not.2 ht), if_pos hp, hstat]
    dsimp only
    split <;> rfl
  · intro hf ht hp e hstat
    rw [hE, if_neg (not_not.2 hf), if_neg (not_not.2 ht), if_pos hp, hstat]
  · intro hf ht hp
    rw [hE, if_neg (not_not.2 hf), if_neg (not_not.2 ht), if_neg (not_not.2 hp)]
    exact deployFiles_single_log W h1 site _ _ _ (htemp _)

theorem ExecuteTestDeploy_content_precedence_witness :
    (ExecuteTestDeploy "0123456789abcdef"
        (World.scripted (Env.holding (mkSite "" [])) [] (.ok (mkDeploy "pending" ""))) []
        ⟨"", "demo", "", "<h1>inline</h1>", false, "", "aGk=", "/srv/site"⟩).log
      = [Call.listSites] ++ [Call.deploySite (mkSite "" []).ID
          (DeploySource.dir [("index.html", FileBody.bytes [104, 105])])
          ("Deploy de conteúdo para " ++ (mkSite "" []).Name)] :=
  (ExecuteTestDeploy_content_precedence "0123456789abcdef"
    (World.scripted (Env.holding (mkSite "" [])) [] (.ok (mkDeploy "pending" ""))) []
    [Call.listSites] ⟨"", "demo", "", "<h1>inline</h1>", false, "", "aGk=", "/srv/site"⟩
    (mkSite "" []) (by decide) (by decide) (fun _ => rfl)).1 (by decide) [104, 105] (by decide)

/-! ## Lenient upload -/

theorem deployFiles_failed (W : World) (h h2 : List Call) (site : Site)
    (result : TestDeployResult) (name : String) (body : FileBody) (err : String)
    (hfail : DeployContent W h site [(name, body)] = (.error err, h2)) :
    deployFiles W h site result [(name, body)]
      = ⟨TestDeployReturn.result ⟨result.Success,
          result.Message ++ ". Porém, ocorreu um erro durante o deploy: " ++ err,
          result.SiteID, result.SiteURL, false⟩, h2⟩ := by
  simp [deployFiles, hfail]

theorem DeployContent_error (W : World) (h h2 : List Call) (site : Site)
    (files : List (String × FileBody)) (err : String)
    (hfail : DeployContent W h site files = (.error err, h2)) :
    (∃ e, W.createTemp files = some e ∧
      err = "erro ao criar arquivos temporários: " ++ e ∧ h2 = h) ∨
    (∃ e, W.createTemp files = none ∧
      W.deploySite h site.ID (DeploySource.dir files) ("Deploy de conteúdo para " ++ site.Name)
        = .error e ∧
      err = "erro ao realizar deploy de conteúdo: " ++ e ∧
      h2 = h ++ [Call.deploySite site.ID (DeploySource.dir files)
        ("Deploy de conteúdo para " ++ site.Name)]) := by
  unfold DeployContent at hfail
  cases ht : W.createTemp files with
  | some e =>
    rw [ht] at hfail
    simp only [Prod.mk.injEq, Except.error.injEq] at hfail
    exact Or.inl ⟨e, rfl, hfail.1.symm, hfail.2.symm⟩
  | none =>
    rw [ht] at hfail
    dsimp only at hfail
    cases hd : W.deploySite h site.ID (DeploySource.dir files)
        ("Deploy de conteúdo para " ++ site.Name) with
    | error e =>
      rw [hd] at hfail
      simp only [Prod.mk.injEq, Except.error.injEq] at hfail
      exact Or.inr ⟨e, rfl, rfl, hfail.1.symm, hfail.2.symm⟩
    | ok d =>
      rw [hd] at hfail
      simp at hfail

theorem DeployLocalFolder_error (W : World) (h h2 : List Call) (site : Site)
    (folderPath err : String)
    (hfail : DeployLocalFolder W h site folderPath = (.error err, h2)) :
    ∃ e, W.deploySite h site.ID (DeploySource.folder folderPath)
        ("Deploy da pasta " ++ folderPath ++ " para " ++ site.Name) = .error e ∧
      err = "erro ao realizar deploy da pasta local: " ++ e ∧
      h2 = h ++ [Call.deploySite site.ID (DeploySource.folder folderPath)
        ("Deploy da pasta " ++ folderPath ++ " para " ++ site.Name)] := by
  unfold DeployLocalFolder at hfail
  dsimp only at hfail
  cases hd : W.deploySite h site.ID (DeploySource.folder folderPath)
      ("Deploy da pasta " ++ folderPath ++ " para " ++ site.Name) with
  | error e =>
    rw [hd] at hfail
    simp only [Prod.mk.injEq, Except.error.injEq] at hfail
    exact ⟨e, rfl, hfail.1.symm, hfail.2.symm⟩
  | ok d =>
    rw [hd] at hfail
    simp at hfail

/-- C25: when the site is resolved and the deploy call that the run of
`ExecuteTestDeploy` makes fails with the error `err` (`DeployContent` on the decoded
file, on the test content or on the placeholder page, or `DeployLocalFolder` on the
folder; the failure may come from the provider or from the writing of the temporary
files), the function returns a result, not an error: `Success` is true, `TestSuccess`
is false, the site id and URL are those of the resolved site, the message is the base
success message extended by the deploy error text `err`, and no remote call follows
the failed deploy call. The error text is one of the three wrappers of the deploy
functions followed by the cause. -/
theorem ExecuteTestDeploy_lenient (netlifyToken : String) (W : World) (h h1 h2 : List Call)
    (params : TestDeployParams) (site : Site) (err : String)
    (htok : 10 ≤ netlifyToken.utf8ByteSize)
    (hres : resolveTestSite W h params = (Resolved.site site, h1))
    (hdeploy :
      (params.FileContent ≠ "" ∧
        ∃ fileData, base64Decode params.FileContent = some fileData ∧
          DeployContent W h1 site [("index.html", FileBody.bytes fileData)]
            = (.error err, h2)) ∨
      (params.FileContent = "" ∧ params.TestContent ≠ "" ∧
        DeployContent W h1 site [("index.html", FileBody.text params.TestContent)]
          = (.error err, h2)) ∨
      (params.FileContent = "" ∧ params.TestContent = "" ∧ params.FolderPath ≠ "" ∧
        W.statNotExist params.FolderPath = none ∧
        DeployLocalFolder W h1 site params.FolderPath = (.error err, h2)) ∨
      (params.FileContent = "" ∧ params.TestContent = "" ∧ params.FolderPath = "" ∧
        DeployContent W h1 site
          [("index.html", FileBody.text
            ("<html><body><h1>Teste de Deploy</h1><p>Site criado em "
              ++ W.now ++ "</p></body></html>"))]
          = (.error err, h2))) :
    ExecuteTestDeploy netlifyToken W h params
      = ⟨TestDeployReturn.result ⟨true,
          "Site de teste criado/atualizado com sucesso"
            ++ ". Porém, ocorreu um erro durante o deploy: " ++ err,
          site.ID, site.URL, false⟩, h2⟩ ∧
    ∃ e, err = "erro ao criar arquivos temporários: " ++ e ∨
      err = "erro ao realizar deploy de conteúdo: " ++ e ∨
      err = "erro ao realizar deploy da pasta local: " ++ e := by
  have hE := ExecuteTestDeploy_resolved netlifyToken W h h1 params site htok hres
  have hcontent : ∀ files, DeployContent W h1 site files = (.error err, h2) →
      ∃ e, err = "erro ao criar arquivos temporários: " ++ e ∨
        err = "erro ao realizar deploy de conteúdo: " ++ e ∨
        err = "erro ao realizar deploy da pasta local: " ++ e := by
    intro files hfail
    rcases DeployContent_error W h1 h2 site files err hfail with ⟨e, _, he, _⟩ | ⟨e, _, _, he, _⟩
    · exact ⟨e, Or.inl he⟩
    · exact ⟨e, Or.inr (Or.inl he)⟩
  rcases hdeploy with ⟨hf, fileData, hdec, hfail⟩ | ⟨hf, ht, hfail⟩ |
    ⟨hf, ht, hp, hstat, hfail⟩ | ⟨hf, ht, hp, hfail⟩
  · refine ⟨?_, hcontent _ hfail⟩
    rw [hE, if_pos hf, hdec]
    exact deployFiles_failed W h1 h2 site _ _ _ err hfail
  · refine ⟨?_, hcontent _ hfail⟩
    rw [hE, if_neg (not_not.2 hf), if_pos ht]
    exact deployFiles_failed W h1 h2 site _ _ _ err hfail
  · obtain ⟨e, hd, he, hlog⟩ := DeployLocalFolder_error W h1 h2 site params.FolderPath err hfail
    refine ⟨?_, e, Or.inr (Or.inr he)⟩
    rw [hE, if_neg (not_not.2 hf), if_neg (not_not.2 ht), if_pos hp, hstat]
    dsimp only
    rw [hd, he, hlog]
  · refine ⟨?_, hcontent _ hfail⟩
    rw [hE, if_neg (not_not.2 hf), if_neg (not_not.2 ht), if_neg (not_not.2 hp)]
    exact deployFiles_failed W h1 h2 site _ _ _ err hfail

theorem ExecuteTestDeploy_lenient_witness :
    (ExecuteTestDeploy "0123456789abcdef"
        (World.scripted (Env.holding (mkSite "" [])) [] (.error "quota exceeded")) []
        ⟨"", "demo", "", "", false, "", "aGk=", ""⟩
      = ⟨TestDeployReturn.result ⟨true,
          "Site de teste criado/atualizado com sucesso"
            ++ ". Porém, ocorreu um erro durante o deploy: "
            ++ "erro ao realizar deploy de conteúdo: quota exceeded",
          "site-1", "https://demo.netlify.app", false⟩,
        [Call.listSites, Call.deploySite "site-1"
          (DeploySource.dir [("index.html", FileBody.bytes [104, 105])])
          "Deploy de conteúdo para demo"]⟩) ∧
    (ExecuteTestDeploy "0123456789abcdef"
        ((World.scripted (Env.holding (mkSite "" [])) [] (.ok (mkDeploy "ready" ""))).tempFails
          "no space left on device") []
        ⟨"", "demo", "", "<h1>hi</h1>", false, "", "", ""⟩
      = ⟨TestDeployReturn.result ⟨true,
          "Site de teste criado/atualizado com sucesso"
            ++ ". Porém, ocorreu um erro durante o deploy: "
            ++ "erro ao criar arquivos temporários: no space left on device",
          "site-1", "https://demo.netlify.app", false⟩,
        [Call.listSites]⟩) ∧
    (ExecuteTestDeploy "0123456789abcdef"
        (World.scripted (Env.holding (mkSite "" [])) [] (.error "quota exceeded")) []
        ⟨"", "demo", "", "", false, "", "", "/srv/site"⟩
      = ⟨TestDeployReturn.result ⟨true,
          "Site de teste criado/atualizado com sucesso"
            ++ ". Porém, ocorreu um erro durante o deploy: "
            ++ "erro ao realizar deploy da pasta local: quota exceeded",
          "site-1", "https://demo.netlify.app", false⟩,
        [Call.listSites, Call.deploySite "site-1" (DeploySource.folder "/srv/site")
          "Deploy da pasta /srv/site para demo"]⟩) ∧
    (ExecuteTestDeploy "0123456789abcdef"
        (World.scripted (Env.holding (mkSite "" [])) [] (.error "quota exceeded")) []
        ⟨"", "demo", "", "", false, "", "", ""⟩
      = ⟨TestDeployReturn.result ⟨true,
          "Site de teste criado/atualizado com sucesso"
            ++ ". Porém, ocorreu um erro durante o deploy: "
            ++ "erro ao realizar deploy de conteúdo: quota exceeded",
          "site-1", "https://demo.netlify.app", false⟩,
        [Call.listSites, Call.deploySite "site-1"
          (DeploySource.dir [("index.html", FileBody.text
            "<html><body><h1>Teste de Deploy</h1><p>Site criado em 2024-01-01T00:00:00Z</p></body></html>")])
          "Deploy de conteúdo para demo"]⟩) :=
  ⟨(ExecuteTestDeploy_lenient "0123456789abcdef"
      (World.scripted (Env.holding (mkSite "" [])) [] (.error "quota exceeded")) []
      [Call.listSites]
      [Call.listSites, Call.deploySite "site-1"
        (DeploySource.dir [("index.html", FileBody.bytes [104, 105])])
        "Deploy de conteúdo para demo"]
      ⟨"", "demo", "", "", false, "", "aGk=", ""⟩ (mkSite "" [])
      "erro ao realizar deploy de conteúdo: quota exceeded"
      (by decide) (by decide)
      (Or.inl ⟨by decide, [104, 105], by decide, rfl⟩)).1,
   (ExecuteTestDeploy_lenient "0123456789abcdef"
      ((World.scripted (Env.holding (mkSite "" [])) [] (.ok (mkDeploy "ready" ""))).tempFails
        "no space left on device") []
      [Call.listSites] [Call.listSites]
      ⟨"", "demo", "", "<h1>hi</h1>", false, "", "", ""⟩ (mkSite "" [])
      "erro ao criar arquivos temporários: no space left on device"
      (by decide) (by decide)
      (Or.inr (Or.inl ⟨by decide, by decide, rfl⟩))).1,
   (ExecuteTestDeploy_lenient "0123456789abcdef"
      (World.scripted (Env.holding (mkSite "" [])) [] (.error "quota exceeded")) []
      [Call.listSites]
      [Call.listSites, Call.deploySite "site-1" (DeploySource.folder "/srv/site")
        "Deploy da pasta /srv/site para demo"]
      ⟨"", "demo", "", "", false, "", "", "/srv/site"⟩ (mkSite "" [])
      "erro ao realizar deploy da pasta local: quota exceeded"
      (by decide) (by decide)
      (Or.inr (Or.inr (Or.inl ⟨by decide, by decide, by decide, rfl, rfl⟩)))).1,
   (ExecuteTestDeploy_lenient "0123456789abcdef"
      (World.scripted (Env.holding (mkSite "" [])) [] (.error "quota exceeded")) []
      [Call.listSites]
      [Call.listSites, Call.deploySite "site-1"
        (DeploySource.dir [("index.html", FileBody.text
          "<html><body><h1>Teste de Deploy</h1><p>Site criado em 2024-01-01T00:00:00Z</p></body></html>")])
        "Deploy de conteúdo para demo"]
      ⟨"", "demo", "", "", false, "", "", ""⟩ (mkSite "" [])
      "erro ao realizar deploy de conteúdo: quota exceeded"
      (by decide) (by decide)
      (Or.inr (Or.inr (Or.inr ⟨by decide, by decide, by decide, rfl⟩)))).1⟩

/-! ## Upload round trip -/

theorem runTestDeploy_log (netlifyToken : String) (W : World) (h : List Call)
    (params : TestDeployParams) (hclient : NewClient netlifyToken = NewClientResult.client) :
    (runTestDeploy netlifyToken W h params).2
      = (ExecuteTestDeploy netlifyToken W h params).log := by
  unfold runTestDeploy
  rw [hclient]
  rcases ExecuteTestDeploy netlifyToken W h params with ⟨ret, log⟩
  cases ret <;> rfl

/-- C28: the base64 text the handler builds from the uploaded bytes always decodes back
to exactly those bytes, and it is empty exactly when the file is empty.  For a
non-empty file, once the request passes the checks of the handler and the site is
resolved, the deploy submitted holds an `index.html` whose content is the uploaded bytes;
an uploaded file without content is handled exactly like a request without a file. -/
theorem upload_round_trip (netlifyToken : String) (W : World) (h : List Call)
    (form : TestDeployForm) (data : List Nat) (hb : ∀ b ∈ data, b < 256) :
    base64Decode (base64Encode data) = some data ∧
    (base64Encode data = "" ↔ data = []) ∧
    (form.file = Upload.content [] →
      handleMultipartTestDeploy netlifyToken W h form
        = handleMultipartTestDeploy netlifyToken W h { form with file := Upload.absent }) ∧
    (form.file = Upload.content data → data ≠ [] → form.site_name ≠ "" →
      (form.folder_path = "" ∨ W.statNotExist form.folder_path = none) →
      NewClient netlifyToken = NewClientResult.client →
      W.createTemp [("index.html", FileBody.bytes data)] = none →
      ∀ site h1,
        resolveTestSite W h (formParams form (base64Encode data)) = (Resolved.site site, h1) →
        (handleMultipartTestDeploy netlifyToken W h form).2
          = h1 ++ [Call.deploySite site.ID
              (DeploySource.dir [("index.html", FileBody.bytes data)])
              ("Deploy de conteúdo para " ++ site.Name)]) := by
  have hrt := base64Decode_base64Encode data hb
  refine ⟨hrt, base64Encode_eq_empty data, ?_, ?_⟩
  · intro hfile
    unfold handleMultipartTestDeploy
    simp only [hfile]
    rfl
  · intro hfile hne hname hfolder hclient htemp site h1 hres
    have htok := NewClient_client netlifyToken hclient
    have hstat : (if form.folder_path ≠ "" then W.statNotExist form.folder_path else none)
        = none := by
      rcases hfolder with hf | hf
      · simp [hf]
      · by_cases hp : form.folder_path = ""
        · simp [hp]
        · simp [hp, hf]
    have hnonempty : (formParams form (base64Encode data)).FileContent ≠ "" := by
      intro he
      exact hne ((base64Encode_eq_empty data).1 he)
    have hE := ExecuteTestDeploy_resolved netlifyToken W h h1
      (formParams form (base64Encode data)) site htok hres
    rw [if_pos hnonempty] at hE
    have hdec : base64Decode (formParams form (base64Encode data)).FileContent = some data := hrt
    rw [hdec] at hE
    have hlog := deployFiles_single_log W h1 site
      ⟨true, "Site de teste criado/atualizado com sucesso", site.ID, site.URL, true⟩
      "index.html" (FileBody.bytes data) htemp
    simp only [] at hE
    unfold handleMultipartTestDeploy
    rw [if_neg hname, hstat]
    simp only [hfile]
    rw [runTestDeploy_log netlifyToken W h _ hclient, hE, hlog]

theorem upload_round_trip_witness :
    base64Decode (base64Encode [60, 104, 49, 62, 255, 0, 10]) = some [60, 104, 49, 62, 255, 0, 10] ∧
    (base64Encode [60, 104, 49, 62, 255, 0, 10] = "" ↔ [60, 104, 49, 62, 255, 0, 10] = []) ∧
    ((⟨"", "demo", "", "", "", "<h1>inline</h1>", "", Upload.content [60, 104, 49, 62, 255, 0, 10]⟩
        : TestDeployForm).file = Upload.content [] →
      handleMultipartTestDeploy "0123456789abcdef"
          (World.scripted (Env.holding (mkSite "" [])) [] (.ok (mkDeploy "pending" ""))) []
          ⟨"", "demo", "", "", "", "<h1>inline</h1>", "",
            Upload.content [60, 104, 49, 62, 255, 0, 10]⟩
        = handleMultipartTestDeploy "0123456789abcdef"
          (World.scripted (Env.holding (mkSite "" [])) [] (.ok (mkDeploy "pending" ""))) []
          { (⟨"", "demo", "", "", "", "<h1>inline</h1>", "",
              Upload.content [60, 104, 49, 62, 255, 0, 10]⟩ : TestDeployForm)
            with file := Upload.absent }) ∧
    ((⟨"", "demo", "", "", "", "<h1>inline</h1>", "", Upload.content [60, 104, 49, 62, 255, 0, 10]⟩
        : TestDeployForm).file = Upload.content [60, 104, 49, 62, 255, 0, 10] →
      [60, 104, 49, 62, 255, 0, 10] ≠ [] →
      (⟨"", "demo", "", "", "", "<h1>inline</h1>", "",
        Upload.content [60, 104, 49, 62, 255, 0, 10]⟩ : TestDeployForm).site_name ≠ "" →
      ((⟨"", "demo", "", "", "", "<h1>inline</h1>", "",
          Upload.content [60, 104, 49, 62, 255, 0, 10]⟩ : TestDeployForm).folder_path = "" ∨
        (World.scripted (Env.holding (mkSite "" [])) [] (.ok (mkDeploy "pending" ""))).statNotExist
          (⟨"", "demo", "", "", "", "<h1>inline</h1>", "",
            Upload.content [60, 104, 49, 62, 255, 0, 10]⟩ : TestDeployForm).folder_path = none) →
      NewClient "0123456789abcdef" = NewClientResult.client →
      (World.scripted (Env.holding (mkSite "" [])) [] (.ok (mkDeploy "pending" ""))).createTemp
        [("index.html", FileBody.bytes [60, 104, 49, 62, 255, 0, 10])] = none →
      ∀ site h1,
        resolveTestSite
            (World.scripted (Env.holding (mkSite "" [])) [] (.ok (mkDeploy "pending" ""))) []
            (formParams ⟨"", "demo", "", "", "", "<h1>inline</h1>", "",
              Upload.content [60, 104, 49, 62, 255, 0, 10]⟩
              (base64Encode [60, 104, 49, 62, 255, 0, 10]))
          = (Resolved.site site, h1) →
        (handleMultipartTestDeploy "0123456789abcdef"
            (World.scripted (Env.holding (mkSite "" [])) [] (.ok (mkDeploy "pending" ""))) []
            ⟨"", "demo", "", "", "", "<h1>inline</h1>", "",
              Upload.content [60, 104, 49, 62, 255, 0, 10]⟩).2
          = h1 ++ [Call.deploySite site.ID
              (DeploySource.dir [("index.html", FileBody.bytes [60, 104, 49, 62, 255, 0, 10])])
              ("Deploy de conteúdo para " ++ site.Name)]) :=
  upload_round_trip "0123456789abcdef"
    (World.scripted (Env.holding (mkSite "" [])) [] (.ok (mkDeploy "pending" ""))) []
    ⟨"", "demo", "", "", "", "<h1>inline</h1>", "", Upload.content [60, 104, 49, 62, 255, 0, 10]⟩
    [60, 104, 49, 62, 255, 0, 10] (by decide)

/-! ## Token prefix -/

/-- C30 fails on the code: for the non-empty token "abc" the log line of `NewClient`
slices `cfg.NetlifyToken[:10]` out of range, so `NewClient` panics instead of returning
a client; `ExecuteTestDeploy` of a client holding that token panics at its own log line
before any remote call. -/
theorem NewClient_short_token_panics :
    "abc" ≠ "" ∧
    NewClient "abc" = NewClientResult.panicked ∧
    ExecuteTestDeploy "abc"
        (World.scripted (Env.holding (mkSite "" [])) [] (.ok (mkDeploy "pending" ""))) []
        ⟨"", "demo", "", "", false, "", "", ""⟩
      = ⟨TestDeployReturn.panicked, []⟩ := by
  decide

end Netlify
